import Mathlib

/-!
# Renesas RSPI / QSPI bus driver (`drivers/spi/spi-rspi.c`)

A shallow embedding of the transfer engine of the driver: the register access
layer, the three configuration routines, the completion waiter with the
interrupt handlers, the PIO and DMA engines, the QSPI command sequencer and the
message hooks.

Conventions of the embedding.

* Unsigned machine values (`u8`, `u16`, `u32`, `unsigned long`) are natural
  numbers; a value is reduced modulo `2 ^ w` at the places where the C code
  stores it into a `w`-bit object.  `int` results are integers.
* The memory-mapped register window is the field `regs` (offset to content).
  Every access through `rspi_write*` / `rspi_read*` is appended to `trace`.
* Whatever the peripheral, the interrupt controller, the DMA engine or the
  scheduler decide is an explicit argument (`WaitEnv`, `HwStep`, `DmaEnv`).
-/

namespace Rspi

/-! ## Register map and bit definitions (lines 41-184 of the source) -/

def RSPI_SPCR : Nat := 0x00
def RSPI_SSLP : Nat := 0x01
def RSPI_SPPCR : Nat := 0x02
def RSPI_SPSR : Nat := 0x03
def RSPI_SPDR : Nat := 0x04
def RSPI_SPSCR : Nat := 0x08
def RSPI_SPSSR : Nat := 0x09
def RSPI_SPBR : Nat := 0x0a
def RSPI_SPDCR : Nat := 0x0b
def RSPI_SPCKD : Nat := 0x0c
def RSPI_SSLND : Nat := 0x0d
def RSPI_SPND : Nat := 0x0e
def RSPI_SPCR2 : Nat := 0x0f
def RSPI_SPCMD0 : Nat := 0x10
def RSPI_SPCMD (i : Nat) : Nat := RSPI_SPCMD0 + i * 2
def RSPI_NUM_SPCMD : Nat := 8
def RSPI_RZ_NUM_SPCMD : Nat := 4
def QSPI_NUM_SPCMD : Nat := 4

def RSPI_SPBFCR : Nat := 0x20
def RSPI_SPBFDR : Nat := 0x22

def QSPI_SPBFCR : Nat := 0x18
def QSPI_SPBDCR : Nat := 0x1a
def QSPI_SPBMUL0 : Nat := 0x1c
def QSPI_SPBMUL (i : Nat) : Nat := QSPI_SPBMUL0 + i * 4

def SPCR_SPRIE : Nat := 0x80
def SPCR_SPE : Nat := 0x40
def SPCR_SPTIE : Nat := 0x20
def SPCR_SPEIE : Nat := 0x10
def SPCR_MSTR : Nat := 0x08
def SPCR_MODFEN : Nat := 0x04
def SPCR_TXMD : Nat := 0x02
def SPCR_SPMS : Nat := 0x01

def SPPCR_SPLP : Nat := 0x01

def SPSR_SPRF : Nat := 0x80
def SPSR_TEND : Nat := 0x40
def SPSR_SPTEF : Nat := 0x20
def SPSR_PERF : Nat := 0x08
def SPSR_MODF : Nat := 0x04
def SPSR_IDLNF : Nat := 0x02
def SPSR_OVRF : Nat := 0x01

def SPDCR_SPLW1 : Nat := 0x40
def SPDCR_SPLW0 : Nat := 0x20
def SPDCR_SPLBYTE : Nat := SPDCR_SPLW0

def SPCMD_SCKDEN : Nat := 0x8000
def SPCMD_SLNDEN : Nat := 0x4000
def SPCMD_SPNDEN : Nat := 0x2000
def SPCMD_LSBF : Nat := 0x1000
def SPCMD_SPB_MASK : Nat := 0x0f00
def SPCMD_SPB_8BIT : Nat := 0x0000
def SPCMD_SPB_16BIT : Nat := 0x0100
def SPCMD_SPB_32BIT : Nat := 0x0200
def SPCMD_SSLKP : Nat := 0x0080
def SPCMD_SPIMOD_MASK : Nat := 0x0060
def SPCMD_SPIMOD1 : Nat := 0x0040
def SPCMD_SPIMOD0 : Nat := 0x0020
def SPCMD_SPIMOD_SINGLE : Nat := 0
def SPCMD_SPIMOD_DUAL : Nat := SPCMD_SPIMOD0
def SPCMD_SPIMOD_QUAD : Nat := SPCMD_SPIMOD1
def SPCMD_SPRW : Nat := 0x0010
def SPCMD_CPOL : Nat := 0x0002
def SPCMD_CPHA : Nat := 0x0001

def SPBFCR_TXRST : Nat := 0x80
def SPBFCR_RXRST : Nat := 0x40

/-- The data-length field of a command word, `SPCMD_SPB_8_TO_16(bit)`:
`((bit - 1) << 8) & SPCMD_SPB_MASK` on a 32-bit two's-complement `int`. -/
def SPCMD_SPB_8_TO_16 (bit : Int) : Nat :=
  (((bit - 1) * 256) % 4294967296).toNat &&& SPCMD_SPB_MASK

/-! ## Constants of the kernel headers used by the driver

These come from `linux/errno.h`, `linux/spi/spi.h` and `linux/irqreturn.h`;
the driver only names them. -/

def EIO : Int := 5
def EFAULT : Int := 14
def EINVAL : Int := 22
def ETIMEDOUT : Int := 110
def ERESTARTSYS : Int := 512

def SPI_CPHA : Nat := 0x01
def SPI_CPOL : Nat := 0x02
def SPI_LOOP : Nat := 0x20
def SPI_TX_DUAL : Nat := 0x100
def SPI_TX_QUAD : Nat := 0x200
def SPI_RX_DUAL : Nat := 0x400
def SPI_RX_QUAD : Nat := 0x800

def SPI_NBITS_SINGLE : Nat := 0x01
def SPI_NBITS_DUAL : Nat := 0x02
def SPI_NBITS_QUAD : Nat := 0x04

def IRQ_NONE : Nat := 0
def IRQ_HANDLED : Nat := 1

/-- Width of `unsigned long` on the targets of the driver (SuperH and 32-bit
ARM). -/
def BITS_PER_LONG : Nat := 32

/-! ## Data model -/

/-- The three `struct spi_ops` tables (`rspi_ops`, `rspi_rz_ops`, `qspi_ops`). -/
inductive Variant where
  | legacy
  | rz
  | qspi
  deriving DecidableEq, Repr

/-- Direction of a DMA mapping (`DMA_TO_DEVICE` / `DMA_FROM_DEVICE`). -/
inductive Dir where
  | to_device
  | from_device
  deriving DecidableEq, Repr

/-- One observable action of the driver on its collaborators. -/
inductive Event where
  /-- `iowrite<width>(val, addr + off)` -/
  | wr (width off val : Nat)
  /-- `ioread<width>(addr + off)` returned `val` -/
  | rd (width off val : Nat)
  /-- `wake_up(&rspi->wait)` -/
  | wake_up
  /-- `wait_event_timeout` returned `ret` -/
  | slept (ret : Nat)
  /-- a call of `rspi_wait_for_interrupt` returned `ret` -/
  | waited (ret : Int)
  /-- `disable_irq(line)` -/
  | disable_irq (line : Int)
  /-- `enable_irq(line)` -/
  | enable_irq (line : Int)
  /-- `dma_map_sg` in direction `d` returned `nents` -/
  | dma_map (d : Dir) (nents : Nat)
  /-- `dma_unmap_sg` in direction `d` -/
  | dma_unmap (d : Dir)
  /-- `dmaengine_prep_slave_sg` in direction `d`; `ok` when a descriptor came back -/
  | dma_prep (d : Dir) (ok : Bool)
  /-- `dmaengine_submit` + `dma_async_issue_pending`; `cb` when a callback is attached -/
  | dma_submit (d : Dir) (cb : Bool)
  /-- `wait_event_interruptible_timeout` on the completion flag returned `ret` -/
  | dma_waited (ret : Int)
  deriving DecidableEq, Repr

/-- The controller context, `struct rspi_data`, together with the state of the
collaborators the driver acts on. -/
structure rspi_data where
  /-- `rspi->ops` -/
  ops : Variant
  /-- `rspi->max_speed_hz` (`u32`) -/
  max_speed_hz : Nat
  /-- `clk_get_rate(rspi->clk)` (`unsigned long`) -/
  clk_rate : Nat
  /-- `rspi->spcmd` (`u16`) -/
  spcmd : Nat
  /-- `rspi->spsr` (`u8`) -/
  spsr : Nat
  /-- `rspi->sppcr` (`u8`) -/
  sppcr : Nat
  rx_irq : Int
  tx_irq : Int
  /-- `rspi->chan_tx != NULL` -/
  chan_tx : Bool
  /-- `rspi->chan_rx != NULL` -/
  chan_rx : Bool
  dma_callbacked : Bool
  byte_access : Bool
  /-- content of the register window behind `rspi->addr` -/
  regs : Nat → Nat
  /-- disable depth of each interrupt line at the interrupt controller -/
  irq_depth : Int → Nat
  /-- whether a scatterlist is currently mapped in each direction -/
  sg_mapped : Dir → Bool
  /-- every action so far, oldest first -/
  trace : List Event

/-- `struct spi_transfer`, the fields the driver reads. -/
structure spi_transfer where
  tx_buf : Option (List Nat)
  rx_buf : Option (List Nat)
  len : Nat
  tx_nbits : Nat
  rx_nbits : Nat

/-- `struct spi_device`, the fields the driver reads. -/
structure spi_device where
  mode : Nat
  max_speed_hz : Nat

/-- `struct spi_message`, the fields the driver reads. -/
structure spi_message where
  spi : spi_device
  transfers : List spi_transfer

/-! ## Register access layer (lines 206-245) -/

/-- Register window with the content of `off` replaced. -/
def poke (regs : Nat → Nat) (off val : Nat) : Nat → Nat :=
  fun o => if o = off then val else regs o

/-- Append one event to the trace. -/
def emit (rspi : rspi_data) (e : Event) : rspi_data :=
  { rspi with trace := rspi.trace ++ [e] }

def rspi_write8 (rspi : rspi_data) (data : Nat) (offset : Nat) : rspi_data :=
  { rspi with regs := poke rspi.regs offset (data % 256),
              trace := rspi.trace ++ [Event.wr 8 offset (data % 256)] }

def rspi_write16 (rspi : rspi_data) (data : Nat) (offset : Nat) : rspi_data :=
  { rspi with regs := poke rspi.regs offset (data % 65536),
              trace := rspi.trace ++ [Event.wr 16 offset (data % 65536)] }

def rspi_write32 (rspi : rspi_data) (data : Nat) (offset : Nat) : rspi_data :=
  { rspi with regs := poke rspi.regs offset (data % 4294967296),
              trace := rspi.trace ++ [Event.wr 32 offset (data % 4294967296)] }

def rspi_read8 (rspi : rspi_data) (offset : Nat) : Nat × rspi_data :=
  (rspi.regs offset % 256, emit rspi (Event.rd 8 offset (rspi.regs offset % 256)))

def rspi_read16 (rspi : rspi_data) (offset : Nat) : Nat × rspi_data :=
  (rspi.regs offset % 65536, emit rspi (Event.rd 16 offset (rspi.regs offset % 65536)))

def rspi_write_data (rspi : rspi_data) (data : Nat) : rspi_data :=
  if rspi.byte_access then rspi_write8 rspi data RSPI_SPDR
  else rspi_write16 rspi data RSPI_SPDR

def rspi_read_data (rspi : rspi_data) : Nat × rspi_data :=
  if rspi.byte_access then rspi_read8 rspi RSPI_SPDR
  else rspi_read16 rspi RSPI_SPDR

/-! ## Config programmer (lines 259-377) -/

/-- Modelled from the spec: the macro `DIV_ROUND_UP` of `linux/kernel.h` is not
part of the source file; the spec describes the quotient as
`ceil(clock_rate / (2 * max_speed_hz))`.  It is given its integer form
`(n + d - 1) / d`, evaluated in `unsigned long`; it agrees with the ceiling
whenever `n + d - 1` does not wrap.  A zero divisor has no result. -/
def DIV_ROUND_UP (n d : Nat) : Option Nat :=
  if d = 0 then none
  else some (((n + d + (2 ^ BITS_PER_LONG - 1)) % 2 ^ BITS_PER_LONG) / d)

/-- Modelled from the spec: the macro `clamp` of `linux/kernel.h` is not part
of the source file; the spec says the divisor is clamped "to the divisor
register's representable range [0,255]". -/
def clamp (val lo hi : Int) : Int :=
  let v := if val < lo then lo else val
  if v > hi then hi else v

/-- Conversion of an `unsigned long` to `int`: the low 32 bits, read as two's
complement. -/
def int_of_ulong (v : Nat) : Int :=
  if v % 4294967296 < 2147483648 then ((v % 4294967296 : Nat) : Int) else ((v % 4294967296 : Nat) : Int) - 4294967296

/-- The value `spbr` of the Legacy and RZ routines:
`DIV_ROUND_UP(clk_get_rate(rspi->clk), 2 * rspi->max_speed_hz) - 1`, the
product in `u32`, the subtraction in `unsigned long`, the result stored in an
`int`. -/
def rspi_spbr (rspi : rspi_data) : Option Int :=
  (DIV_ROUND_UP (rspi.clk_rate % 2 ^ BITS_PER_LONG) (2 * rspi.max_speed_hz % 4294967296)).map
    (fun q => int_of_ulong ((q + (2 ^ BITS_PER_LONG - 1)) % 2 ^ BITS_PER_LONG))

/-- The value `spbr` of the QSPI routine:
`DIV_ROUND_UP(clk_get_rate(rspi->clk), 2 * rspi->max_speed_hz)`. -/
def qspi_spbr (rspi : rspi_data) : Option Int :=
  (DIV_ROUND_UP (rspi.clk_rate % 2 ^ BITS_PER_LONG) (2 * rspi.max_speed_hz % 4294967296)).map
    (fun q => int_of_ulong q)

def rspi_set_config_register (rspi : rspi_data) (access_size : Int) :
    Option (Int × rspi_data) :=
  /- Sets output mode, MOSI signal, and (optionally) loopback -/
  let rspi := rspi_write8 rspi rspi.sppcr RSPI_SPPCR
  /- Sets transfer bit rate -/
  match rspi_spbr rspi with
  | none => none
  | some spbr =>
    let rspi := rspi_write8 rspi (clamp spbr 0 255).toNat RSPI_SPBR
    /- Disable dummy transmission, set 16-bit word access, 1 frame -/
    let rspi := rspi_write8 rspi 0 RSPI_SPDCR
    let rspi := { rspi with byte_access := false }
    /- Sets RSPCK, SSL, next-access delay value -/
    let rspi := rspi_write8 rspi 0x00 RSPI_SPCKD
    let rspi := rspi_write8 rspi 0x00 RSPI_SSLND
    let rspi := rspi_write8 rspi 0x00 RSPI_SPND
    /- Sets parity, interrupt mask -/
    let rspi := rspi_write8 rspi 0x00 RSPI_SPCR2
    /- Sets SPCMD -/
    let rspi := { rspi with spcmd := rspi.spcmd ||| SPCMD_SPB_8_TO_16 access_size }
    let rspi := rspi_write16 rspi rspi.spcmd RSPI_SPCMD0
    /- Sets RSPI mode -/
    let rspi := rspi_write8 rspi SPCR_MSTR RSPI_SPCR
    some (0, rspi)

def rspi_rz_set_config_register (rspi : rspi_data) (access_size : Int) :
    Option (Int × rspi_data) :=
  let rspi := rspi_write8 rspi rspi.sppcr RSPI_SPPCR
  match rspi_spbr rspi with
  | none => none
  | some spbr =>
    let rspi := rspi_write8 rspi (clamp spbr 0 255).toNat RSPI_SPBR
    /- Disable dummy transmission, set byte access -/
    let rspi := rspi_write8 rspi SPDCR_SPLBYTE RSPI_SPDCR
    let rspi := { rspi with byte_access := true }
    let rspi := rspi_write8 rspi 0x00 RSPI_SPCKD
    let rspi := rspi_write8 rspi 0x00 RSPI_SSLND
    let rspi := rspi_write8 rspi 0x00 RSPI_SPND
    let rspi := { rspi with spcmd := rspi.spcmd ||| SPCMD_SPB_8_TO_16 access_size }
    let rspi := rspi_write16 rspi rspi.spcmd RSPI_SPCMD0
    let rspi := rspi_write8 rspi SPCR_MSTR RSPI_SPCR
    some (0, rspi)

def qspi_set_config_register (rspi : rspi_data) (access_size : Int) :
    Option (Int × rspi_data) :=
  let rspi := rspi_write8 rspi rspi.sppcr RSPI_SPPCR
  match qspi_spbr rspi with
  | none => none
  | some spbr =>
    let rspi := rspi_write8 rspi (clamp spbr 0 255).toNat RSPI_SPBR
    /- Disable dummy transmission, set byte access -/
    let rspi := rspi_write8 rspi 0 RSPI_SPDCR
    let rspi := { rspi with byte_access := true }
    let rspi := rspi_write8 rspi 0x00 RSPI_SPCKD
    let rspi := rspi_write8 rspi 0x00 RSPI_SSLND
    let rspi := rspi_write8 rspi 0x00 RSPI_SPND
    /- Data Length Setting -/
    let rspi :=
      { rspi with spcmd := rspi.spcmd |||
          (if access_size = 8 then SPCMD_SPB_8BIT
           else if access_size = 16 then SPCMD_SPB_16BIT
           else SPCMD_SPB_32BIT) }
    let rspi :=
      { rspi with spcmd := rspi.spcmd ||| (SPCMD_SCKDEN ||| SPCMD_SLNDEN ||| SPCMD_SPNDEN) }
    /- Resets transfer data length -/
    let rspi := rspi_write32 rspi 0 QSPI_SPBMUL0
    /- Resets transmit and receive buffer -/
    let rspi := rspi_write8 rspi (SPBFCR_TXRST ||| SPBFCR_RXRST) QSPI_SPBFCR
    /- Sets buffer to allow normal operation -/
    let rspi := rspi_write8 rspi 0x00 QSPI_SPBFCR
    /- Sets SPCMD -/
    let rspi := rspi_write16 rspi rspi.spcmd RSPI_SPCMD0
    /- Enables SPI function in master mode -/
    let rspi := rspi_write8 rspi (SPCR_SPE ||| SPCR_MSTR) RSPI_SPCR
    some (0, rspi)

/-- The macro `set_config_register(spi, n)`: dispatch on `rspi->ops`. -/
def set_config_register (rspi : rspi_data) (n : Int) : Option (Int × rspi_data) :=
  match rspi.ops with
  | Variant.legacy => rspi_set_config_register rspi n
  | Variant.rz => rspi_rz_set_config_register rspi n
  | Variant.qspi => qspi_set_config_register rspi n

/-! ## Completion waiter and interrupt handlers (lines 379-414, 893-943) -/

def rspi_enable_irq (rspi : rspi_data) (enable : Nat) : rspi_data :=
  let r := rspi_read8 rspi RSPI_SPCR
  rspi_write8 r.2 (r.1 ||| enable) RSPI_SPCR

/-- The C expression is `rspi_read8(rspi, RSPI_SPCR) & ~disable`; the
complement is taken within the eight bits of the register. -/
def rspi_disable_irq (rspi : rspi_data) (disable : Nat) : rspi_data :=
  let r := rspi_read8 rspi RSPI_SPCR
  rspi_write8 r.2 (r.1 &&& (0xff ^^^ (disable % 256))) RSPI_SPCR

def rspi_irq_mux (rspi : rspi_data) : Nat × rspi_data :=
  let r := rspi_read8 rspi RSPI_SPSR
  let spsr := r.1
  let rspi := { r.2 with spsr := spsr }
  let disable_irq : Nat :=
    (if spsr &&& SPSR_SPRF ≠ 0 then SPCR_SPRIE else 0) |||
    (if spsr &&& SPSR_SPTEF ≠ 0 then SPCR_SPTIE else 0)
  if disable_irq ≠ 0 then
    (IRQ_HANDLED, emit (rspi_disable_irq rspi disable_irq) Event.wake_up)
  else
    (IRQ_NONE, rspi)

def rspi_irq_rx (rspi : rspi_data) : Nat × rspi_data :=
  let r := rspi_read8 rspi RSPI_SPSR
  let spsr := r.1
  let rspi := { r.2 with spsr := spsr }
  if spsr &&& SPSR_SPRF ≠ 0 then
    (IRQ_HANDLED, emit (rspi_disable_irq rspi SPCR_SPRIE) Event.wake_up)
  else
    (0, rspi)

def rspi_irq_tx (rspi : rspi_data) : Nat × rspi_data :=
  let r := rspi_read8 rspi RSPI_SPSR
  let spsr := r.1
  let rspi := { r.2 with spsr := spsr }
  if spsr &&& SPSR_SPTEF ≠ 0 then
    (IRQ_HANDLED, emit (rspi_disable_irq rspi SPCR_SPTIE) Event.wake_up)
  else
    (0, rspi)

/-- The two interrupt lines of the controller. -/
inductive IrqLine where
  | rx
  | tx
  deriving DecidableEq, Repr

/-- One interrupt delivery: the line that fired and the content of the status
register at the moment the handler samples it. -/
structure IrqEvent where
  line : IrqLine
  spsr : Nat

/-- What happens around one blocking wait: the interrupts delivered while the
waiter sleeps (after the last one the deadline passes or the waiter resumes),
and the interrupts delivered after the wait primitive has returned but before
the waiter looks at the cached status again. -/
structure WaitEnv where
  irqs : List IrqEvent
  late : List IrqEvent

/-- One interrupt delivery.  `rspi_probe` (lines 1196-1207) installs
`rspi_irq_mux` when both lines are the same interrupt and `rspi_irq_rx` /
`rspi_irq_tx` otherwise. -/
def deliver_irq (rspi : rspi_data) (e : IrqEvent) : rspi_data :=
  let rspi := { rspi with regs := poke rspi.regs RSPI_SPSR e.spsr }
  if rspi.rx_irq = rspi.tx_irq then (rspi_irq_mux rspi).2
  else
    match e.line with
    | IrqLine.rx => (rspi_irq_rx rspi).2
    | IrqLine.tx => (rspi_irq_tx rspi).2

def run_irqs (rspi : rspi_data) (irqs : List IrqEvent) : rspi_data :=
  irqs.foldl deliver_irq rspi

/-- Modelled from the spec: the macro `wait_event_timeout` of `linux/wait.h` is
not part of the source file.  The spec: "block on the wait primitive until
either the flag becomes set (signaled by the interrupt handler, which disables
the interrupt source and wakes all waiters) or a fixed timeout (1 hardware
tick-second) elapses".  The condition is `rspi->spsr & wait_mask`; when it
already holds there is no sleep.  Otherwise the interrupts of `irqs` are
served, after which the waiter evaluates the condition for the last time; the
result is positive exactly when the condition holds then (the number of
jiffies left is abstracted to 1), and 0 when the deadline passed without. -/
def wait_event_timeout (rspi : rspi_data) (wait_mask : Nat) (irqs : List IrqEvent) :
    Nat × rspi_data :=
  if rspi.spsr &&& wait_mask ≠ 0 then (1, rspi)
  else
    let rspi := run_irqs rspi irqs
    let ret := if rspi.spsr &&& wait_mask ≠ 0 then 1 else 0
    (ret, emit rspi (Event.slept ret))

def rspi_wait_for_interrupt (rspi : rspi_data) (wait_mask enable_bit : Nat) (w : WaitEnv) :
    Int × rspi_data :=
  let r := rspi_read8 rspi RSPI_SPSR
  let rspi := { r.2 with spsr := r.1 }
  if rspi.spsr &&& wait_mask ≠ 0 then
    (0, emit rspi (Event.waited 0))
  else
    let rspi := rspi_enable_irq rspi enable_bit
    let s := wait_event_timeout rspi wait_mask w.irqs
    let ret := s.1
    let rspi := run_irqs s.2 w.late
    if ret = 0 ∧ ¬ (rspi.spsr &&& wait_mask ≠ 0) then
      (-ETIMEDOUT, emit rspi (Event.waited (-ETIMEDOUT)))
    else
      (0, emit rspi (Event.waited 0))

/-- What the peripheral did on its own before the driver samples the status
register, and what surrounds the wait that may follow. -/
structure HwStep where
  /-- new content of the status register -/
  spsr : Nat
  /-- new content of the data register, when the receiver delivered a unit -/
  spdr : Option Nat
  wait : WaitEnv

/-- The peripheral's move; `none` when it stays idle. -/
def hw_step (rspi : rspi_data) : Option HwStep → rspi_data
  | none => rspi
  | some st =>
    { rspi with regs :=
        match st.spdr with
        | none => poke rspi.regs RSPI_SPSR st.spsr
        | some d => poke (poke rspi.regs RSPI_SPSR st.spsr) RSPI_SPDR d }

def step_wait : Option HwStep → WaitEnv
  | none => ⟨[], []⟩
  | some st => st.wait

def rspi_wait_for_tx_empty (rspi : rspi_data) (st : Option HwStep) : Int × rspi_data :=
  rspi_wait_for_interrupt (hw_step rspi st) SPSR_SPTEF SPCR_SPTIE (step_wait st)

def rspi_wait_for_rx_full (rspi : rspi_data) (st : Option HwStep) : Int × rspi_data :=
  rspi_wait_for_interrupt (hw_step rspi st) SPSR_SPRF SPCR_SPRIE (step_wait st)

/-! ## PIO transfer engine (lines 416-459) -/

/-- The parameter `data` is a `u8`. -/
def rspi_data_out (rspi : rspi_data) (data : Nat) (st : Option HwStep) : Int × rspi_data :=
  let r := rspi_wait_for_tx_empty rspi st
  if r.1 < 0 then (r.1, r.2)
  else (0, rspi_write_data r.2 (data % 256))

/-- The unit read is stored in a `u8` before it is returned as an `int`. -/
def rspi_data_in (rspi : rspi_data) (st : Option HwStep) : Int × rspi_data :=
  let r := rspi_wait_for_rx_full rspi st
  if r.1 < 0 then (r.1, r.2)
  else
    let d := rspi_read_data r.2
    (((d.1 % 256 : Nat) : Int), d.2)

/-- Result of a PIO routine: the returned `int`, the controller, the receive
buffer and the part of the script not consumed. -/
structure PioOut where
  ret : Int
  rspi : rspi_data
  rx : Option (List Nat)
  script : List HwStep

/-- The first block of the loop body of `rspi_pio_transfer` (lines 445-449):
`if (tx) { ret = rspi_data_out(rspi, *tx++); if (ret < 0) return ret; }`.
`i` is the distance the pointer `tx` has advanced. -/
def pio_tx_half (tx : Option (List Nat)) (i : Nat) (rspi : rspi_data) (rx : Option (List Nat))
    (script : List HwStep) : PioOut :=
  match tx with
  | some t =>
    let o := rspi_data_out rspi (t.getD i 0) script.head?
    ⟨o.1, o.2, rx, script.tail⟩
  | none => ⟨0, rspi, rx, script⟩

/-- The second block of the loop body of `rspi_pio_transfer` (lines 450-455):
`if (rx) { ret = rspi_data_in(rspi); if (ret < 0) return ret; *rx++ = ret; }`.
`i` is the distance the pointer `rx` has advanced. -/
def pio_rx_half (i : Nat) (rspi : rspi_data) (rx : Option (List Nat))
    (script : List HwStep) : PioOut :=
  match rx with
  | some r =>
    let d := rspi_data_in rspi script.head?
    if d.1 < 0 then ⟨d.1, d.2, rx, script.tail⟩
    else ⟨0, d.2, some (r.set i d.1.toNat), script.tail⟩
  | none => ⟨0, rspi, rx, script⟩

/-- The loop of `rspi_pio_transfer`; `i` is the number of units already moved
(the distance the pointers `tx` and `rx` have advanced), `n` the units left. -/
def rspi_pio_loop (tx : Option (List Nat)) :
    Nat → Nat → rspi_data → Option (List Nat) → List HwStep → PioOut
  | 0, _, rspi, rx, script => ⟨0, rspi, rx, script⟩
  | n + 1, i, rspi, rx, script =>
    let o := pio_tx_half tx i rspi rx script
    if o.ret < 0 then o
    else
      let d := pio_rx_half i o.rspi o.rx o.script
      if d.ret < 0 then d
      else rspi_pio_loop tx n (i + 1) d.rspi d.rx d.script

def rspi_pio_transfer (rspi : rspi_data) (tx rx : Option (List Nat)) (n : Nat)
    (script : List HwStep) : PioOut :=
  rspi_pio_loop tx n 0 rspi rx script

/-! ## Receive init (lines 533-561) -/

def rspi_receive_init (rspi : rspi_data) : rspi_data :=
  let r := rspi_read8 rspi RSPI_SPSR
  let spsr := r.1
  let rspi := if spsr &&& SPSR_SPRF ≠ 0 then (rspi_read_data r.2).2 else r.2
  if spsr &&& SPSR_OVRF ≠ 0 then
    let q := rspi_read8 rspi RSPI_SPSR
    rspi_write8 q.2 (q.1 &&& (0xff ^^^ SPSR_OVRF)) RSPI_SPSR
  else rspi

def rspi_rz_receive_init (rspi : rspi_data) : rspi_data :=
  let rspi := rspi_receive_init rspi
  let rspi := rspi_write8 rspi (SPBFCR_TXRST ||| SPBFCR_RXRST) RSPI_SPBFCR
  rspi_write8 rspi 0 RSPI_SPBFCR

def qspi_receive_init (rspi : rspi_data) : rspi_data :=
  let r := rspi_read8 rspi RSPI_SPSR
  let spsr := r.1
  let rspi := if spsr &&& SPSR_SPRF ≠ 0 then (rspi_read_data r.2).2 else r.2
  let rspi := rspi_write8 rspi (SPBFCR_TXRST ||| SPBFCR_RXRST) QSPI_SPBFCR
  rspi_write8 rspi 0 QSPI_SPBFCR

/-! ## DMA transfer engine (lines 461-531, 563-639) -/

/-- What the DMA engine and the scheduler decide during one DMA attempt. -/
structure DmaEnv where
  /-- result of `dma_map_sg` for the transmit buffer (0: mapping failed) -/
  map_tx : Nat
  /-- `dmaengine_prep_slave_sg` returned a transmit descriptor -/
  prep_tx : Bool
  /-- result of `dma_map_sg` for the receive buffer (0: mapping failed) -/
  map_rx : Nat
  /-- `dmaengine_prep_slave_sg` returned a receive descriptor -/
  prep_rx : Bool
  /-- the completion callback ran before the timed wait returned -/
  callbacked : Bool
  /-- value returned by `wait_event_interruptible_timeout` -/
  wait_ret : Int

/-- One more disable of `line`. -/
def depth_up (depth : Int → Nat) (line : Int) : Int → Nat :=
  fun l => if l = line then depth l + 1 else depth l

/-- One more enable of `line`. -/
def depth_down (depth : Int → Nat) (line : Int) : Int → Nat :=
  fun l => if l = line then depth l - 1 else depth l

/-- The mapping flags with the flag of `dir` replaced. -/
def set_mapped (mapped : Dir → Bool) (dir : Dir) (b : Bool) : Dir → Bool :=
  fun d => if d = dir then b else mapped d

/-- The assignment `rspi->dma_callbacked = b`. -/
def set_dma_callbacked (rspi : rspi_data) (b : Bool) : rspi_data :=
  { rspi with dma_callbacked := b }

def rspi_dma_complete (rspi : rspi_data) : rspi_data :=
  emit (set_dma_callbacked rspi true) Event.wake_up

def rspi_dma_map_sg (rspi : rspi_data) (dir : Dir) (nents : Nat) : Nat × rspi_data :=
  (nents,
   emit { rspi with sg_mapped := set_mapped rspi.sg_mapped dir (decide (nents ≠ 0)) }
     (Event.dma_map dir nents))

def rspi_dma_unmap_sg (rspi : rspi_data) (dir : Dir) : rspi_data :=
  emit { rspi with sg_mapped := set_mapped rspi.sg_mapped dir false } (Event.dma_unmap dir)

/-- `dmaengine_prep_slave_sg`: `ok` tells whether a descriptor came back. -/
def dmaengine_prep_slave_sg (rspi : rspi_data) (dir : Dir) (ok : Bool) : Bool × rspi_data :=
  (ok, emit rspi (Event.dma_prep dir ok))

/-- `disable_irq(line)` of the interrupt controller. -/
def disable_irq (rspi : rspi_data) (line : Int) : rspi_data :=
  emit { rspi with irq_depth := depth_up rspi.irq_depth line } (Event.disable_irq line)

/-- `enable_irq(line)` of the interrupt controller. -/
def enable_irq (rspi : rspi_data) (line : Int) : rspi_data :=
  emit { rspi with irq_depth := depth_down rspi.irq_depth line } (Event.enable_irq line)

/-- `dmaengine_submit(desc)` followed by `dma_async_issue_pending(chan)`. -/
def dma_submit (rspi : rspi_data) (dir : Dir) (cb : Bool) : rspi_data :=
  emit rspi (Event.dma_submit dir cb)

/-- The timed wait on `rspi->dma_callbacked`: the callback `rspi_dma_complete`
runs first when the environment says so; the value returned is the
environment's. -/
def wait_event_interruptible_timeout (rspi : rspi_data) (env : DmaEnv) : Int × rspi_data :=
  let rspi := if env.callbacked then rspi_dma_complete rspi else rspi
  (env.wait_ret, emit rspi (Event.dma_waited env.wait_ret))

/-- Lines 507-526 of `rspi_send_dma`: from `disable_irq` to `enable_irq`, with
the transmit buffer mapped and its descriptor prepared. -/
def send_dma_run (rspi : rspi_data) (env : DmaEnv) : Int × rspi_data :=
  let rspi := disable_irq rspi rspi.tx_irq
  let r := rspi_read8 rspi RSPI_SPCR
  let rspi := rspi_write8 r.2 (r.1 ||| SPCR_TXMD) RSPI_SPCR
  let rspi := rspi_enable_irq rspi SPCR_SPTIE
  let rspi := set_dma_callbacked rspi false
  let rspi := dma_submit rspi Dir.to_device true
  let w := wait_event_interruptible_timeout rspi env
  let ret : Int :=
    if w.1 > 0 ∧ w.2.dma_callbacked = true then 0
    else if w.1 = 0 then -ETIMEDOUT
    else w.1
  let rspi := rspi_disable_irq w.2 SPCR_SPTIE
  (ret, enable_irq rspi rspi.tx_irq)

def rspi_send_dma (rspi : rspi_data) (_t : spi_transfer) (env : DmaEnv) : Int × rspi_data :=
  let m := rspi_dma_map_sg rspi Dir.to_device env.map_tx
  if m.1 = 0 then (-EFAULT, m.2)
  else
    let desc := dmaengine_prep_slave_sg m.2 Dir.to_device env.prep_tx
    if desc.1 = false then
      /- ret = -EIO; goto end -/
      (- EIO, rspi_dma_unmap_sg desc.2 Dir.to_device)
    else
      let r := send_dma_run desc.2 env
      /- end: -/
      (r.1, rspi_dma_unmap_sg r.2 Dir.to_device)

/-- Lines 599-632 of `rspi_send_receive_dma`: from `rspi_receive_init` to the
last `enable_irq`, with both buffers mapped and both descriptors prepared. -/
def send_receive_dma_run (rspi : rspi_data) (env : DmaEnv) : Int × rspi_data :=
  let rspi := rspi_receive_init rspi
  let rspi := disable_irq rspi rspi.tx_irq
  let rspi := if rspi.rx_irq ≠ rspi.tx_irq then disable_irq rspi rspi.rx_irq else rspi
  let r := rspi_read8 rspi RSPI_SPCR
  let rspi := rspi_write8 r.2 (r.1 &&& (0xff ^^^ SPCR_TXMD)) RSPI_SPCR
  let rspi := rspi_enable_irq rspi (SPCR_SPTIE ||| SPCR_SPRIE)
  let rspi := set_dma_callbacked rspi false
  let rspi := dma_submit rspi Dir.from_device true
  let rspi := dma_submit rspi Dir.to_device false
  let w := wait_event_interruptible_timeout rspi env
  let ret : Int :=
    if w.1 > 0 ∧ w.2.dma_callbacked = true then 0
    else if w.1 = 0 then -ETIMEDOUT
    else w.1
  let rspi := rspi_disable_irq w.2 (SPCR_SPTIE ||| SPCR_SPRIE)
  let rspi := enable_irq rspi rspi.tx_irq
  (ret, if rspi.rx_irq ≠ rspi.tx_irq then enable_irq rspi rspi.rx_irq else rspi)

def rspi_send_receive_dma (rspi : rspi_data) (_t : spi_transfer) (env : DmaEnv) :
    Int × rspi_data :=
  /- prepare transmit transfer -/
  let m := rspi_dma_map_sg rspi Dir.to_device env.map_tx
  if m.1 = 0 then (-EFAULT, m.2)
  else
    let desc_tx := dmaengine_prep_slave_sg m.2 Dir.to_device env.prep_tx
    if desc_tx.1 = false then
      /- ret = -EIO; goto end_tx_mapped -/
      (- EIO, rspi_dma_unmap_sg desc_tx.2 Dir.to_device)
    else
      /- prepare receive transfer -/
      let m_rx := rspi_dma_map_sg desc_tx.2 Dir.from_device env.map_rx
      if m_rx.1 = 0 then
        /- ret = -EFAULT; goto end_tx_mapped -/
        (-EFAULT, rspi_dma_unmap_sg m_rx.2 Dir.to_device)
      else
        let desc_rx := dmaengine_prep_slave_sg m_rx.2 Dir.from_device env.prep_rx
        if desc_rx.1 = false then
          /- ret = -EIO; goto end -/
          (- EIO, rspi_dma_unmap_sg (rspi_dma_unmap_sg desc_rx.2 Dir.from_device) Dir.to_device)
        else
          let r := send_receive_dma_run desc_rx.2 env
          /- end: / end_tx_mapped: -/
          (r.1, rspi_dma_unmap_sg (rspi_dma_unmap_sg r.2 Dir.from_device) Dir.to_device)

/-! ## Transfer dispatcher and PIO wrappers (lines 641-771) -/

def rspi_is_dma (rspi : rspi_data) (t : spi_transfer) : Bool :=
  if t.rx_buf.isSome then rspi.chan_tx && rspi.chan_rx
  else if rspi.chan_tx then true
  else false

def rspi_transfer_out_in (rspi : rspi_data) (xfer : spi_transfer) (script : List HwStep) :
    PioOut :=
  let r := rspi_read8 rspi RSPI_SPCR
  let spcr := r.1
  let rspi := if xfer.rx_buf.isSome then rspi_receive_init r.2 else r.2
  let spcr :=
    if xfer.rx_buf.isSome then spcr &&& (0xff ^^^ SPCR_TXMD) else spcr ||| SPCR_TXMD
  let rspi := rspi_write8 rspi spcr RSPI_SPCR
  let o := rspi_pio_transfer rspi xfer.tx_buf xfer.rx_buf xfer.len script
  if o.ret < 0 then o
  else
    /- Wait for the last transmission -/
    let w := rspi_wait_for_tx_empty o.rspi o.script.head?
    ⟨0, w.2, o.rx, o.script.tail⟩

def rspi_rz_transfer_out_in (rspi : rspi_data) (xfer : spi_transfer) (script : List HwStep) :
    PioOut :=
  let rspi := rspi_rz_receive_init rspi
  let o := rspi_pio_transfer rspi xfer.tx_buf xfer.rx_buf xfer.len script
  if o.ret < 0 then o
  else
    let w := rspi_wait_for_tx_empty o.rspi o.script.head?
    ⟨0, w.2, o.rx, o.script.tail⟩

def qspi_transfer_out_in (rspi : rspi_data) (xfer : spi_transfer) (script : List HwStep) :
    PioOut :=
  let rspi := qspi_receive_init rspi
  let o := rspi_pio_transfer rspi xfer.tx_buf xfer.rx_buf xfer.len script
  if o.ret < 0 then o
  else
    let w := rspi_wait_for_tx_empty o.rspi o.script.head?
    ⟨0, w.2, o.rx, o.script.tail⟩

def qspi_transfer_out (rspi : rspi_data) (xfer : spi_transfer) (script : List HwStep) :
    PioOut :=
  let o := rspi_pio_transfer rspi xfer.tx_buf none xfer.len script
  if o.ret < 0 then ⟨o.ret, o.rspi, xfer.rx_buf, o.script⟩
  else
    let w := rspi_wait_for_tx_empty o.rspi o.script.head?
    ⟨0, w.2, xfer.rx_buf, o.script.tail⟩

def qspi_transfer_in (rspi : rspi_data) (xfer : spi_transfer) (script : List HwStep) :
    PioOut :=
  rspi_pio_transfer rspi none xfer.rx_buf xfer.len script

/-- What the environment decides during one call of a `transfer_one` hook. -/
structure Env where
  script : List HwStep
  dma : DmaEnv

/-- The DMA routines do not touch the receive buffer themselves; the bytes the
DMA engine stores are outside the embedding. -/
def rspi_transfer_one (rspi : rspi_data) (xfer : spi_transfer) (env : Env) : PioOut :=
  if rspi_is_dma rspi xfer = false then rspi_transfer_out_in rspi xfer env.script
  else if xfer.rx_buf.isSome then
    let r := rspi_send_receive_dma rspi xfer env.dma
    ⟨r.1, r.2, xfer.rx_buf, env.script⟩
  else
    let r := rspi_send_dma rspi xfer env.dma
    ⟨r.1, r.2, xfer.rx_buf, env.script⟩

def rspi_rz_transfer_one (rspi : rspi_data) (xfer : spi_transfer) (env : Env) : PioOut :=
  rspi_rz_transfer_out_in rspi xfer env.script

def qspi_transfer_one (rspi : rspi_data) (spi : spi_device) (xfer : spi_transfer) (env : Env) :
    PioOut :=
  if spi.mode &&& SPI_LOOP ≠ 0 then qspi_transfer_out_in rspi xfer env.script
  else if xfer.tx_nbits > SPI_NBITS_SINGLE then
    /- Quad or Dual SPI Write -/
    qspi_transfer_out rspi xfer env.script
  else if xfer.rx_nbits > SPI_NBITS_SINGLE then
    /- Quad or Dual SPI Read -/
    qspi_transfer_in rspi xfer env.script
  else
    /- Single SPI Transfer -/
    qspi_transfer_out_in rspi xfer env.script

/-- The hook `master->transfer_one = ops->transfer_one`. -/
def transfer_one (rspi : rspi_data) (spi : spi_device) (xfer : spi_transfer) (env : Env) :
    PioOut :=
  match rspi.ops with
  | Variant.legacy => rspi_transfer_one rspi xfer env
  | Variant.rz => rspi_rz_transfer_one rspi xfer env
  | Variant.qspi => qspi_transfer_one rspi spi xfer env

/-! ## Setup, sequencer and message hooks (lines 773-891) -/

def rspi_setup (rspi : rspi_data) (spi : spi_device) : Option (Int × rspi_data) :=
  let rspi := { rspi with max_speed_hz := spi.max_speed_hz }
  let rspi := { rspi with spcmd := SPCMD_SSLKP }
  let rspi :=
    { rspi with spcmd := if spi.mode &&& SPI_CPOL ≠ 0 then rspi.spcmd ||| SPCMD_CPOL
                         else rspi.spcmd }
  let rspi :=
    { rspi with spcmd := if spi.mode &&& SPI_CPHA ≠ 0 then rspi.spcmd ||| SPCMD_CPHA
                         else rspi.spcmd }
  /- CMOS output mode and MOSI signal from previous transfer -/
  let rspi := { rspi with sppcr := 0 }
  let rspi :=
    { rspi with sppcr := if spi.mode &&& SPI_LOOP ≠ 0 then rspi.sppcr ||| SPPCR_SPLP
                         else rspi.sppcr }
  match set_config_register rspi 8 with
  | none => none
  | some r => some (0, r.2)

def qspi_transfer_mode (xfer : spi_transfer) : Nat :=
  if xfer.tx_buf.isSome then
    if xfer.tx_nbits = SPI_NBITS_QUAD then SPCMD_SPIMOD_QUAD
    else if xfer.tx_nbits = SPI_NBITS_DUAL then SPCMD_SPIMOD_DUAL
    else 0
  else if xfer.rx_buf.isSome then
    if xfer.rx_nbits = SPI_NBITS_QUAD then SPCMD_SPIMOD_QUAD ||| SPCMD_SPRW
    else if xfer.rx_nbits = SPI_NBITS_DUAL then SPCMD_SPIMOD_DUAL ||| SPCMD_SPRW
    else 0
  else 0

/-- The body of `qspi_setup_sequencer` from the `list_for_each_entry` loop on,
with the locals `i`, `len` (`unsigned int`) and `current_mode` as arguments. -/
def qspi_sequencer_loop :
    List spi_transfer → rspi_data → Nat → Nat → Nat → Int × rspi_data
  | [], rspi, i, len, _ =>
    if i ≠ 0 then
      /- Set final transfer data length and sequence length -/
      let rspi := rspi_write32 rspi len (QSPI_SPBMUL (i - 1))
      (0, rspi_write8 rspi (i - 1) RSPI_SPSCR)
    else (0, rspi)
  | xfer :: rest, rspi, i, len, current_mode =>
    let mode := qspi_transfer_mode xfer
    if mode = current_mode then
      qspi_sequencer_loop rest rspi i ((len + xfer.len) % 4294967296) current_mode
    else
      /- Transfer mode change -/
      let rspi := if i ≠ 0 then rspi_write32 rspi len (QSPI_SPBMUL (i - 1)) else rspi
      if i ≥ QSPI_NUM_SPCMD then (-EINVAL, rspi)
      else
        /- Program transfer mode for this transfer -/
        let rspi := rspi_write16 rspi (rspi.spcmd ||| mode) (RSPI_SPCMD i)
        qspi_sequencer_loop rest rspi (i + 1) (xfer.len % 4294967296) mode

def qspi_setup_sequencer (rspi : rspi_data) (msg : spi_message) : Int × rspi_data :=
  qspi_sequencer_loop msg.transfers rspi 0 0 0xffff

def rspi_prepare_message (rspi : rspi_data) (msg : spi_message) : Int × rspi_data :=
  if msg.spi.mode &&& (SPI_TX_DUAL ||| SPI_TX_QUAD ||| SPI_RX_DUAL ||| SPI_RX_QUAD) ≠ 0 then
    /- Setup sequencer for messages with multiple transfer modes -/
    let s := qspi_setup_sequencer rspi msg
    if s.1 < 0 then s
    else
      let r := rspi_read8 s.2 RSPI_SPCR
      (0, rspi_write8 r.2 (r.1 ||| SPCR_SPE) RSPI_SPCR)
  else
    /- Enable SPI function in master mode -/
    let r := rspi_read8 rspi RSPI_SPCR
    (0, rspi_write8 r.2 (r.1 ||| SPCR_SPE) RSPI_SPCR)

def rspi_unprepare_message (rspi : rspi_data) (_msg : spi_message) : Int × rspi_data :=
  /- Disable SPI function -/
  let r := rspi_read8 rspi RSPI_SPCR
  let rspi := rspi_write8 r.2 (r.1 &&& (0xff ^^^ SPCR_SPE)) RSPI_SPCR
  /- Reset sequencer for Single SPI Transfers -/
  let rspi := rspi_write16 rspi rspi.spcmd RSPI_SPCMD0
  (0, rspi_write8 rspi 0 RSPI_SPSCR)

/-! ## Specification-side notions -/

/-- The divisor the spec asks for before the clamp: the mathematical ceiling
of `R / (2 * S)`. -/
def ideal_divisor (R S : Nat) : Int := ⌈(R : ℚ) / (2 * (S : ℚ))⌉

/-- The value an event stores at offset `off`, when it is a write there. -/
def wr_value (off : Nat) : Event → Option Nat
  | Event.wr _ o v => if o = off then some v else none
  | _ => none

/-- The value an event reads at offset `off`, when it is a read there. -/
def rd_value (off : Nat) : Event → Option Nat
  | Event.rd _ o v => if o = off then some v else none
  | _ => none

/-- The values stored at offset `off` by the writes of a trace, oldest first. -/
def writes_to (off : Nat) (evs : List Event) : List Nat :=
  evs.filterMap (wr_value off)

/-- The values the reads of a trace found at offset `off`, oldest first. -/
def reads_from (off : Nat) (evs : List Event) : List Nat :=
  evs.filterMap (rd_value off)

/-- The events a run added to the trace it started from. -/
def new_events (before after : rspi_data) : List Event :=
  after.trace.drop before.trace.length

/-- A controller right after `rspi_probe`: nothing programmed, nothing traced.
The interrupt lines are distinct (3 and 4). -/
def rspi_reset (ops : Variant) : rspi_data :=
  { ops := ops, max_speed_hz := 0, clk_rate := 0, spcmd := 0, spsr := 0, sppcr := 0,
    rx_irq := 3, tx_irq := 4, chan_tx := false, chan_rx := false,
    dma_callbacked := false, byte_access := false,
    regs := fun _ => 0, irq_depth := fun _ => 0, sg_mapped := fun _ => false, trace := [] }

/-- One more transfer of class `m` and byte length `l` in front of a list of
runs: it joins the first run when that has the same class and opens a run of
its own otherwise. -/
def merge_run (m l : Nat) : List (Nat × Nat) → List (Nat × Nat)
  | [] => [(m, l)]
  | (m', l') :: rs => if m = m' then (m', l + l') :: rs else (m, l) :: (m', l') :: rs

/-- The maximal runs of consecutive transfers of equal wire-mode class, each
with its class and the sum of the byte lengths of its transfers. -/
def mode_runs : List spi_transfer → List (Nat × Nat)
  | [] => []
  | x :: rest => merge_run (qspi_transfer_mode x) x.len (mode_runs rest)

/-- The register writes that program the runs `rs` into the command slots
`j, j + 1, ...`: per run the command word, then the length multiplier. -/
def slot_events (spcmd : Nat) : Nat → List (Nat × Nat) → List Event
  | _, [] => []
  | j, (m, l) :: rs =>
    Event.wr 16 (RSPI_SPCMD j) ((spcmd ||| m) % 65536) ::
      Event.wr 32 (QSPI_SPBMUL j) (l % 4294967296) :: slot_events spcmd (j + 1) rs

/-- The register window after the writes of a list of events. -/
def replay : List Event → (Nat → Nat) → (Nat → Nat)
  | [], regs => regs
  | Event.wr _ o v :: es, regs => replay es (poke regs o v)
  | _ :: es, regs => replay es regs

/-- The controller after a list of register writes: the window replayed, the
trace extended, every driver field untouched. -/
def apply_events (rspi : rspi_data) (evs : List Event) : rspi_data :=
  { rspi with regs := replay evs rspi.regs, trace := rspi.trace ++ evs }

/-- The gate of `rspi_prepare_message`: the device's mode flags name a dual or
quad direction. -/
def multi_bit_device (msg : spi_message) : Prop :=
  msg.spi.mode &&& (SPI_TX_DUAL ||| SPI_TX_QUAD ||| SPI_RX_DUAL ||| SPI_RX_QUAD) ≠ 0

instance (msg : spi_message) : Decidable (multi_bit_device msg) := by
  unfold multi_bit_device; infer_instance

/-- The offsets of the 16-bit writes of a trace (the command-slot registers
are the only 16-bit registers the driver writes), oldest first. -/
def cmd_slot_offsets : List Event → List Nat
  | [] => []
  | Event.wr 16 o _ :: es => o :: cmd_slot_offsets es
  | _ :: es => cmd_slot_offsets es

/-- A message of one run that is 4 GiB long: two single-wire transmit
transfers of `2147483648` bytes each. -/
def long_run_message : spi_message :=
  { spi := { mode := 0, max_speed_hz := 1000000 },
    transfers :=
      [ { tx_buf := some (List.replicate 2147483648 0), rx_buf := none, len := 2147483648,
          tx_nbits := SPI_NBITS_SINGLE, rx_nbits := SPI_NBITS_SINGLE },
        { tx_buf := some (List.replicate 2147483648 0), rx_buf := none, len := 2147483648,
          tx_nbits := SPI_NBITS_SINGLE, rx_nbits := SPI_NBITS_SINGLE } ] }

/-- A transfer of `len` bytes that is transmit-only with `tx_nbits` wires. -/
def tx_transfer (tx_nbits len : Nat) : spi_transfer :=
  { tx_buf := some (List.replicate len 0), rx_buf := none, len := len,
    tx_nbits := tx_nbits, rx_nbits := SPI_NBITS_SINGLE }

/-- The message of the spec's example: wire-modes single, single, dual, dual,
quad with byte lengths 1, 2, 3, 4, 5. -/
def three_run_message : spi_message :=
  { spi := { mode := SPI_TX_DUAL ||| SPI_TX_QUAD, max_speed_hz := 1000000 },
    transfers :=
      [ tx_transfer SPI_NBITS_SINGLE 1, tx_transfer SPI_NBITS_SINGLE 2,
        tx_transfer SPI_NBITS_DUAL 3, tx_transfer SPI_NBITS_DUAL 4,
        tx_transfer SPI_NBITS_QUAD 5 ] }

/-- Five runs (single, dual, single, dual, single) addressed to a device whose
mode flags `mode` are given. -/
def five_run_message (mode : Nat) : spi_message :=
  { spi := { mode := mode, max_speed_hz := 1000000 },
    transfers :=
      [ tx_transfer SPI_NBITS_SINGLE 1, tx_transfer SPI_NBITS_DUAL 1,
        tx_transfer SPI_NBITS_SINGLE 1, tx_transfer SPI_NBITS_DUAL 1,
        tx_transfer SPI_NBITS_SINGLE 1 ] }

/-- The controller as `rspi_wait_for_interrupt` leaves it right before it
blocks: status sampled and cached, interrupt source enabled. -/
def armed (rspi : rspi_data) (enable_bit : Nat) : rspi_data :=
  rspi_enable_irq { (rspi_read8 rspi RSPI_SPSR).2 with spsr := (rspi_read8 rspi RSPI_SPSR).1 }
    enable_bit

/-- No interrupt at all around a wait. -/
def quiet : WaitEnv := { irqs := [], late := [] }

/-- The events by which a PIO transfer is judged: the accesses to the data
register and the returns of `rspi_wait_for_interrupt`. -/
def pio_visible : Event → Bool
  | Event.wr _ o _ => decide (o = RSPI_SPDR)
  | Event.rd _ o _ => decide (o = RSPI_SPDR)
  | Event.waited _ => true
  | _ => false

/-- A stretch of trace with no access to the data register and no return of
`rspi_wait_for_interrupt`. -/
def Noise (evs : List Event) : Prop := ∀ e ∈ evs, pio_visible e = false

/-- The trace ends with a wait that timed out, and no wait timed out before. -/
def ends_at_first_timeout (evs : List Event) : Prop :=
  ∃ before, evs = before ++ [Event.waited (-ETIMEDOUT)] ∧ Event.waited (-ETIMEDOUT) ∉ before

/-- The byte the loop of `rspi_pio_transfer` hands to `rspi_data_out` for unit
`i`, when there is a transmit buffer. -/
def tx_unit (tx : Option (List Nat)) (i : Nat) : List Nat :=
  match tx with
  | none => []
  | some t => [t.getD i 0 % 256]

/-- The controller as `rspi_transfer_out_in` leaves it before it calls
`rspi_pio_transfer` (lines 659-666). -/
def legacy_pio_entry (rspi : rspi_data) (xfer : spi_transfer) : rspi_data :=
  rspi_write8
    (if xfer.rx_buf.isSome then rspi_receive_init (rspi_read8 rspi RSPI_SPCR).2
     else (rspi_read8 rspi RSPI_SPCR).2)
    (if xfer.rx_buf.isSome then (rspi_read8 rspi RSPI_SPCR).1 &&& (0xff ^^^ SPCR_TXMD)
     else (rspi_read8 rspi RSPI_SPCR).1 ||| SPCR_TXMD)
    RSPI_SPCR

/-- A peripheral step that shows both transmit-empty and receive-full. -/
def ready_step : HwStep := { spsr := 0xa0, spdr := none, wait := quiet }

/-- The status register shows transmit-empty and receive-full. -/
def Ready (rspi : rspi_data) : Prop :=
  rspi.regs RSPI_SPSR % 256 &&& SPSR_SPTEF ≠ 0 ∧ rspi.regs RSPI_SPSR % 256 &&& SPSR_SPRF ≠ 0

/-- A peripheral step under loopback: both flags are shown when the driver
waits, and nothing but the driver's own writes reaches the data register. -/
def LoopbackStep (st : HwStep) : Prop :=
  st.spsr % 256 &&& SPSR_SPTEF ≠ 0 ∧ st.spsr % 256 &&& SPSR_SPRF ≠ 0 ∧ st.spdr = none

instance (rspi : rspi_data) : Decidable (Ready rspi) := by
  unfold Ready; infer_instance

instance (st : HwStep) : Decidable (LoopbackStep st) := by
  unfold LoopbackStep; infer_instance

/-- The `int` a DMA routine returns once both buffers are mapped and both
descriptors prepared, from the value of the timed wait and the completion flag:
the three-way test of lines 520-523 and 624-627. -/
def dma_wait_result (env : DmaEnv) : Int :=
  if env.wait_ret > 0 ∧ env.callbacked = true then 0
  else if env.wait_ret = 0 then -ETIMEDOUT
  else env.wait_ret

/-- The events of a DMA attempt that concern mappings, descriptors, interrupt
lines, submissions and the timed wait. -/
def dma_visible : Event → Bool
  | Event.dma_map _ _ => true
  | Event.dma_unmap _ => true
  | Event.dma_prep _ _ => true
  | Event.dma_submit _ _ => true
  | Event.dma_waited _ => true
  | Event.disable_irq _ => true
  | Event.enable_irq _ => true
  | _ => false

/-- The DMA-related part of a trace. -/
def dma_view (evs : List Event) : List Event := evs.filter dma_visible

/-- Number of successful mappings in direction `d`. -/
def maps_in (d : Dir) (evs : List Event) : Nat :=
  evs.countP (fun e =>
    match e with
    | Event.dma_map d' n => decide (d' = d ∧ n ≠ 0)
    | _ => false)

/-- Number of unmappings in direction `d`. -/
def unmaps_in (d : Dir) (evs : List Event) : Nat :=
  evs.countP (fun e => decide (e = Event.dma_unmap d))

/-- Number of `disable_irq(line)` calls. -/
def disables_in (line : Int) (evs : List Event) : Nat :=
  evs.countP (fun e => decide (e = Event.disable_irq line))

/-- Number of `enable_irq(line)` calls. -/
def enables_in (line : Int) (evs : List Event) : Nat :=
  evs.countP (fun e => decide (e = Event.enable_irq line))

/-- The DMA-related events of `rspi_send_dma`, path by path. -/
def send_dma_view (rspi : rspi_data) (env : DmaEnv) : List Event :=
  if env.map_tx = 0 then [Event.dma_map Dir.to_device 0]
  else if env.prep_tx = false then
    [Event.dma_map Dir.to_device env.map_tx, Event.dma_prep Dir.to_device false,
     Event.dma_unmap Dir.to_device]
  else
    [Event.dma_map Dir.to_device env.map_tx, Event.dma_prep Dir.to_device true,
     Event.disable_irq rspi.tx_irq, Event.dma_submit Dir.to_device true,
     Event.dma_waited env.wait_ret, Event.enable_irq rspi.tx_irq,
     Event.dma_unmap Dir.to_device]

/-- The DMA-related events of `rspi_send_receive_dma`, path by path. -/
def send_receive_dma_view (rspi : rspi_data) (env : DmaEnv) : List Event :=
  if env.map_tx = 0 then [Event.dma_map Dir.to_device 0]
  else if env.prep_tx = false then
    [Event.dma_map Dir.to_device env.map_tx, Event.dma_prep Dir.to_device false,
     Event.dma_unmap Dir.to_device]
  else if env.map_rx = 0 then
    [Event.dma_map Dir.to_device env.map_tx, Event.dma_prep Dir.to_device true,
     Event.dma_map Dir.from_device 0, Event.dma_unmap Dir.to_device]
  else if env.prep_rx = false then
    [Event.dma_map Dir.to_device env.map_tx, Event.dma_prep Dir.to_device true,
     Event.dma_map Dir.from_device env.map_rx, Event.dma_prep Dir.from_device false,
     Event.dma_unmap Dir.from_device, Event.dma_unmap Dir.to_device]
  else
    [Event.dma_map Dir.to_device env.map_tx, Event.dma_prep Dir.to_device true,
     Event.dma_map Dir.from_device env.map_rx, Event.dma_prep Dir.from_device true,
     Event.disable_irq rspi.tx_irq] ++
    (if rspi.rx_irq ≠ rspi.tx_irq then [Event.disable_irq rspi.rx_irq] else []) ++
    [Event.dma_submit Dir.from_device true, Event.dma_submit Dir.to_device false,
     Event.dma_waited env.wait_ret, Event.enable_irq rspi.tx_irq] ++
    (if rspi.rx_irq ≠ rspi.tx_irq then [Event.enable_irq rspi.rx_irq] else []) ++
    [Event.dma_unmap Dir.from_device, Event.dma_unmap Dir.to_device]

/-- An environment in which both buffers map and both descriptors are built. -/
def dma_env (wait_ret : Int) (callbacked : Bool) : DmaEnv :=
  { map_tx := 1, prep_tx := true, map_rx := 1, prep_rx := true,
    callbacked := callbacked, wait_ret := wait_ret }

/-- An environment in which mapping the receive buffer fails. -/
def rx_map_fails : DmaEnv :=
  { map_tx := 1, prep_tx := true, map_rx := 0, prep_rx := true,
    callbacked := false, wait_ret := 0 }

/-- A transfer of three bytes in both directions. -/
def duplex_transfer : spi_transfer :=
  { tx_buf := some [1, 2, 3], rx_buf := some [0, 0, 0], len := 3,
    tx_nbits := SPI_NBITS_SINGLE, rx_nbits := SPI_NBITS_SINGLE }

/-- The controller with the register window, the interrupt-line depths, the
mapping flags and the completion flag replaced, and the trace extended: the
shape of every state the DMA routines go through. -/
def upd (rspi : rspi_data) (regs : Nat → Nat) (depth : Int → Nat) (mapped : Dir → Bool)
    (cb : Bool) (evs : List Event) : rspi_data :=
  { rspi with regs := regs, irq_depth := depth, sg_mapped := mapped, dma_callbacked := cb,
              trace := rspi.trace ++ evs }


/-- `y` comes from `x` by register accesses only: the register window may
differ, the trace is extended by events that concern neither DMA nor the
interrupt lines, everything else is as in `x`. -/
def RegOnly (x y : rspi_data) : Prop :=
  ∃ R W, y = upd x R x.irq_depth x.sg_mapped x.dma_callbacked W ∧ dma_view W = []


/-- The variant tag and the access-width flag of a controller: what decides the
width of a data-register access. -/
def width_key (s : rspi_data) : Variant × Bool := (s.ops, s.byte_access)

/-- The width, in bits, of the data-register access each variant's configure
routine selects: 16 on Legacy (`byte_access = 0`), 8 on RZ and QSPI
(`byte_access = 1`). -/
def data_width (ops : Variant) : Nat :=
  match ops with
  | Variant.legacy => 16
  | Variant.rz => 8
  | Variant.qspi => 8

/-- The states the driver's entry points lead to once the controller has been
configured: the result of a configure or of `rspi_setup` (which configures)
from any state, and from there any `prepare_message`, `transfer_one`, interrupt
delivery or `unprepare_message`, with any behaviour of the environment. -/
inductive Reachable : rspi_data → Prop
  | configure (s : rspi_data) (n : Int) (r : Int × rspi_data) :
      set_config_register s n = some r → Reachable r.2
  | setup (s : rspi_data) (spi : spi_device) (r : Int × rspi_data) :
      rspi_setup s spi = some r → Reachable r.2
  | prepare (s : rspi_data) (msg : spi_message) :
      Reachable s → Reachable (rspi_prepare_message s msg).2
  | transfer (s : rspi_data) (spi : spi_device) (xfer : spi_transfer) (env : Env) :
      Reachable s → Reachable (transfer_one s spi xfer env).rspi
  | irq (s : rspi_data) (e : IrqEvent) :
      Reachable s → Reachable (deliver_irq s e)
  | unprepare (s : rspi_data) (msg : spi_message) :
      Reachable s → Reachable (rspi_unprepare_message s msg).2

/-- A device at 1 MHz in mode 0. -/
def plain_device : spi_device := { mode := 0, max_speed_hz := 1000000 }

/-- A controller right after `rspi_probe` with a 100 MHz clock. -/
def probed (ops : Variant) : rspi_data := { rspi_reset ops with clk_rate := 100000000 }


/-- The controller after `rspi_setup` for `plain_device` on a freshly probed
controller. -/
def configured (ops : Variant) : rspi_data :=
  match rspi_setup (probed ops) plain_device with
  | some r => r.2
  | none => probed ops


/-- The cached fields of the controller context that only `rspi_setup` and the
configuration routines assign: command word, pin control, and the two DMA
channel handles (assigned at probe). -/
def cache_key (s : rspi_data) : Nat × Nat × Bool × Bool :=
  (s.spcmd, s.sppcr, s.chan_tx, s.chan_rx)


/-- The events of the register-level code of a transfer: byte writes, writes of
a data unit (8 or 16 bits wide, at the data register), reads, and the returns
of the wait primitives.  No other 16-bit write, no 32-bit write, and nothing
that concerns the DMA engine or the interrupt lines. -/
def reg_event : Event → Bool
  | Event.wr w o _ => decide (w = 8 ∨ (w = 16 ∧ o = RSPI_SPDR))
  | Event.rd _ _ _ => true
  | Event.wake_up => true
  | Event.slept _ => true
  | Event.waited _ => true
  | _ => false

/-- The events of a transfer by either engine. -/
def xfer_event (e : Event) : Bool := reg_event e || dma_visible e

/-- `y` comes from `x` by a run that only appended events satisfying `P` to the
trace. -/
def Ext (P : Event → Bool) (x y : rspi_data) : Prop :=
  ∃ W, y.trace = x.trace ++ W ∧ ∀ e ∈ W, P e = true


/-- The data-length field and delay-enable bits that `qspi_set_config_register`
merges into the cached command word (lines 350-358). -/
def qspi_enc (access_size : Int) : Nat :=
  (if access_size = 8 then SPCMD_SPB_8BIT
   else if access_size = 16 then SPCMD_SPB_16BIT
   else SPCMD_SPB_32BIT) ||| (SPCMD_SCKDEN ||| SPCMD_SLNDEN ||| SPCMD_SPNDEN)

/-- What each configuration routine merges into the cached command word. -/
def config_enc (ops : Variant) (access_size : Int) : Nat :=
  match ops with
  | Variant.legacy => SPCMD_SPB_8_TO_16 access_size
  | Variant.rz => SPCMD_SPB_8_TO_16 access_size
  | Variant.qspi => qspi_enc access_size

/-- The register writes of `rspi_set_config_register`, in order, for the cached
command word `c`, the cached pin control `p` and the divisor value `v`. -/
def legacy_config_events (c p : Nat) (access_size v : Int) : List Event :=
  [Event.wr 8 RSPI_SPPCR (p % 256),
   Event.wr 8 RSPI_SPBR ((clamp v 0 255).toNat % 256),
   Event.wr 8 RSPI_SPDCR 0,
   Event.wr 8 RSPI_SPCKD 0,
   Event.wr 8 RSPI_SSLND 0,
   Event.wr 8 RSPI_SPND 0,
   Event.wr 8 RSPI_SPCR2 0,
   Event.wr 16 RSPI_SPCMD0 ((c ||| SPCMD_SPB_8_TO_16 access_size) % 65536),
   Event.wr 8 RSPI_SPCR SPCR_MSTR]

/-- The register writes of `rspi_rz_set_config_register`, in order. -/
def rz_config_events (c p : Nat) (access_size v : Int) : List Event :=
  [Event.wr 8 RSPI_SPPCR (p % 256),
   Event.wr 8 RSPI_SPBR ((clamp v 0 255).toNat % 256),
   Event.wr 8 RSPI_SPDCR SPDCR_SPLBYTE,
   Event.wr 8 RSPI_SPCKD 0,
   Event.wr 8 RSPI_SSLND 0,
   Event.wr 8 RSPI_SPND 0,
   Event.wr 16 RSPI_SPCMD0 ((c ||| SPCMD_SPB_8_TO_16 access_size) % 65536),
   Event.wr 8 RSPI_SPCR SPCR_MSTR]

/-- The register writes of `qspi_set_config_register`, in order. -/
def qspi_config_events (c p : Nat) (access_size v : Int) : List Event :=
  [Event.wr 8 RSPI_SPPCR (p % 256),
   Event.wr 8 RSPI_SPBR ((clamp v 0 255).toNat % 256),
   Event.wr 8 RSPI_SPDCR 0,
   Event.wr 8 RSPI_SPCKD 0,
   Event.wr 8 RSPI_SSLND 0,
   Event.wr 8 RSPI_SPND 0,
   Event.wr 32 QSPI_SPBMUL0 0,
   Event.wr 8 QSPI_SPBFCR (SPBFCR_TXRST ||| SPBFCR_RXRST),
   Event.wr 8 QSPI_SPBFCR 0,
   Event.wr 16 RSPI_SPCMD0 ((c ||| qspi_enc access_size) % 65536),
   Event.wr 8 RSPI_SPCR (SPCR_SPE ||| SPCR_MSTR)]


/-- The divisor value the variant's configuration routine computes. -/
def config_spbr (s : rspi_data) : Option Int :=
  match s.ops with
  | Variant.legacy => rspi_spbr s
  | Variant.rz => rspi_spbr s
  | Variant.qspi => qspi_spbr s

/-- The register writes of the variant's configuration routine. -/
def config_events (ops : Variant) (c p : Nat) (access_size v : Int) : List Event :=
  match ops with
  | Variant.legacy => legacy_config_events c p access_size v
  | Variant.rz => rz_config_events c p access_size v
  | Variant.qspi => qspi_config_events c p access_size v

/-- The access-width flag the variant's configuration routine stores. -/
def config_byte (ops : Variant) : Bool :=
  match ops with
  | Variant.legacy => false
  | Variant.rz => true
  | Variant.qspi => true

/-- The command word `rspi_setup` caches before it configures (lines 779-783):
slave-select-keep, with the polarity and phase bits of the device's mode. -/
def setup_spcmd (mode : Nat) : Nat :=
  SPCMD_SSLKP ||| (if mode &&& SPI_CPOL ≠ 0 then SPCMD_CPOL else 0) |||
    (if mode &&& SPI_CPHA ≠ 0 then SPCMD_CPHA else 0)

/-- The pin-control value `rspi_setup` caches (lines 786-788). -/
def setup_sppcr (mode : Nat) : Nat :=
  if mode &&& SPI_LOOP ≠ 0 then SPPCR_SPLP else 0

/-- The controller context as `rspi_setup` leaves it right before it calls
`set_config_register`. -/
def setup_state (s : rspi_data) (spi : spi_device) : rspi_data :=
  { s with max_speed_hz := spi.max_speed_hz, spcmd := setup_spcmd spi.mode,
           sppcr := setup_sppcr spi.mode }


/-- Every 16-bit write that is not a data unit carries the slave-select-keep
bit. -/
def slot_ok : Event → Bool
  | Event.wr w o v => decide (w = 16 → o ≠ RSPI_SPDR → v &&& SPCMD_SSLKP = SPCMD_SSLKP)
  | _ => true

/-- What the cached command word is like after `rspi_setup`: slave-select-keep
set, the three wire-mode bits clear, within 16 bits. -/
def cmd_word_ok (c : Nat) : Prop :=
  c &&& SPCMD_SSLKP = SPCMD_SSLKP ∧ c &&& 0x0070 = 0 ∧ c < 65536

/-- The states the driver's entry points lead to from a call of `rspi_setup` on
the controller `b`: the result of that call, and from there any further
`rspi_setup`, configure, `prepare_message`, `transfer_one`, interrupt delivery
or `unprepare_message`, with any behaviour of the environment. -/
inductive AfterSetup (b : rspi_data) : rspi_data → Prop
  | setup (spi : spi_device) (r : Int × rspi_data) :
      rspi_setup b spi = some r → AfterSetup b r.2
  | setup_again (s : rspi_data) (spi : spi_device) (r : Int × rspi_data) :
      AfterSetup b s → rspi_setup s spi = some r → AfterSetup b r.2
  | configure (s : rspi_data) (n : Int) (r : Int × rspi_data) :
      AfterSetup b s → set_config_register s n = some r → AfterSetup b r.2
  | prepare (s : rspi_data) (msg : spi_message) :
      AfterSetup b s → AfterSetup b (rspi_prepare_message s msg).2
  | transfer (s : rspi_data) (spi : spi_device) (xfer : spi_transfer) (env : Env) :
      AfterSetup b s → AfterSetup b (transfer_one s spi xfer env).rspi
  | irq (s : rspi_data) (e : IrqEvent) :
      AfterSetup b s → AfterSetup b (deliver_irq s e)
  | unprepare (s : rspi_data) (msg : spi_message) :
      AfterSetup b s → AfterSetup b (rspi_unprepare_message s msg).2

/-- The register writes of `qspi_setup_sequencer` for the cached command word
`c` and the transfers `ts`: nothing for an empty message, the slots of the runs
and the sequence length for up to four runs, the slots of the first four runs
when there are more. -/
def sequencer_events (c : Nat) (ts : List spi_transfer) : List Event :=
  if (mode_runs ts).length = 0 then []
  else if (mode_runs ts).length ≤ 4 then
    slot_events c 0 (mode_runs ts) ++
      [Event.wr 8 RSPI_SPSCR (((mode_runs ts).length - 1) % 256)]
  else slot_events c 0 ((mode_runs ts).take 4)


/-- One single-wire transmit of three bytes, addressed to a device whose mode
flags allow dual-wire transmit. -/
def single_wire_message : spi_message :=
  { spi := { mode := SPI_TX_DUAL, max_speed_hz := 1000000 },
    transfers := [tx_transfer SPI_NBITS_SINGLE 3] }

/-- A single-wire transmit followed by a dual-wire transmit, addressed to a
device whose mode flags name no dual or quad direction. -/
def mixed_plain_message : spi_message :=
  { spi := { mode := 0, max_speed_hz := 1000000 },
    transfers := [tx_transfer SPI_NBITS_SINGLE 1, tx_transfer SPI_NBITS_DUAL 2] }


/-- The read of one data unit by `rspi_read_data`, as an event: 8 bits wide
under byte access, 16 bits wide otherwise. -/
def data_read_event (rspi : rspi_data) : Event :=
  if rspi.byte_access then Event.rd 8 RSPI_SPDR (rspi.regs RSPI_SPDR % 256)
  else Event.rd 16 RSPI_SPDR (rspi.regs RSPI_SPDR % 65536)

/-- The register accesses of `rspi_receive_init` (lines 533-543): the status
register is read; a data unit is read and dropped when receive-full shows; when
overrun shows, the status register is read again and written back with the
overrun flag cleared. -/
def receive_init_events (rspi : rspi_data) : List Event :=
  [Event.rd 8 RSPI_SPSR (rspi.regs RSPI_SPSR % 256)] ++
  (if rspi.regs RSPI_SPSR % 256 &&& SPSR_SPRF ≠ 0 then [data_read_event rspi] else []) ++
  (if rspi.regs RSPI_SPSR % 256 &&& SPSR_OVRF ≠ 0 then
    [Event.rd 8 RSPI_SPSR (rspi.regs RSPI_SPSR % 256),
     Event.wr 8 RSPI_SPSR (rspi.regs RSPI_SPSR % 256 &&& (0xff ^^^ SPSR_OVRF))]
   else [])

/-- The register accesses of `qspi_receive_init` (lines 552-561): the status
register is read; a data unit is read and dropped when receive-full shows; the
buffer-control register gets the two reset bits and then 0. -/
def qspi_receive_init_events (rspi : rspi_data) : List Event :=
  [Event.rd 8 RSPI_SPSR (rspi.regs RSPI_SPSR % 256)] ++
  (if rspi.regs RSPI_SPSR % 256 &&& SPSR_SPRF ≠ 0 then [data_read_event rspi] else []) ++
  [Event.wr 8 QSPI_SPBFCR (SPBFCR_TXRST ||| SPBFCR_RXRST), Event.wr 8 QSPI_SPBFCR 0]

/-- The register accesses of `rspi_transfer_out_in` before it calls
`rspi_pio_transfer` (lines 659-666): the control register is read, the receive
side is initialised only when the transfer has a receive buffer, and the
control register is written back with the transmit-only bit cleared or set. -/
def legacy_entry_events (rspi : rspi_data) (xfer : spi_transfer) : List Event :=
  [Event.rd 8 RSPI_SPCR (rspi.regs RSPI_SPCR % 256)] ++
  (if xfer.rx_buf.isSome then receive_init_events rspi else []) ++
  [Event.wr 8 RSPI_SPCR
    ((if xfer.rx_buf.isSome then rspi.regs RSPI_SPCR % 256 &&& (0xff ^^^ SPCR_TXMD)
      else rspi.regs RSPI_SPCR % 256 ||| SPCR_TXMD) % 256)]

/-- What every PIO wrapper does once the receive side is initialised: the PIO
transfer, and after a successful one the wait for the last transmission, whose
outcome is ignored. -/
def pio_and_last_wait (rspi : rspi_data) (tx rx : Option (List Nat)) (n : Nat)
    (script : List HwStep) : PioOut :=
  let o := rspi_pio_transfer rspi tx rx n script
  if o.ret < 0 then o
  else ⟨0, (rspi_wait_for_tx_empty o.rspi o.script.head?).2, o.rx, o.script.tail⟩

/-- A QSPI controller in byte access whose status register shows a stale
receive-full flag and a raised overrun flag (and transmit-empty), with the
stale unit 0x5a in the data register. -/
def stale_qspi : rspi_data :=
  { rspi_reset Variant.qspi with
      byte_access := true,
      regs := poke (poke (fun _ => 0) RSPI_SPSR 0xa1) RSPI_SPDR 0x5a }

/-- The Legacy controller in the same situation. -/
def stale_legacy : rspi_data :=
  { rspi_reset Variant.legacy with
      regs := poke (poke (fun _ => 0) RSPI_SPSR 0xa1) RSPI_SPDR 0x5a }

/-- A receive-only transfer of one unit. -/
def rx_transfer : spi_transfer :=
  { tx_buf := none, rx_buf := some [0], len := 1,
    tx_nbits := SPI_NBITS_SINGLE, rx_nbits := SPI_NBITS_QUAD }

/-- Modelled from the spec: the bus framework that queues messages is an
external collaborator of the driver and not part of the source file; its
`__spi_async` (`drivers/spi/spi.c`) tests every transfer of a message before
the master's `prepare_message` is called. This is the test for one transfer as
far as it reads the device's mode flags: with a transmit buffer, two wires need
`SPI_TX_DUAL` or `SPI_TX_QUAD` and four wires need `SPI_TX_QUAD` among the
flags; with a receive buffer the same holds of `SPI_RX_DUAL` and
`SPI_RX_QUAD`. A message with a transfer that fails the test is turned down
with `-EINVAL` and never reaches the driver. -/
def flags_allow (mode : Nat) (xfer : spi_transfer) : Prop :=
  (xfer.tx_buf.isSome = true →
    (xfer.tx_nbits = SPI_NBITS_DUAL → mode &&& (SPI_TX_DUAL ||| SPI_TX_QUAD) ≠ 0) ∧
    (xfer.tx_nbits = SPI_NBITS_QUAD → mode &&& SPI_TX_QUAD ≠ 0)) ∧
  (xfer.rx_buf.isSome = true →
    (xfer.rx_nbits = SPI_NBITS_DUAL → mode &&& (SPI_RX_DUAL ||| SPI_RX_QUAD) ≠ 0) ∧
    (xfer.rx_nbits = SPI_NBITS_QUAD → mode &&& SPI_RX_QUAD ≠ 0))

instance (mode : Nat) (xfer : spi_transfer) : Decidable (flags_allow mode xfer) := by
  unfold flags_allow; infer_instance

/-- A message as the SPI core hands it to `prepare_message`: every transfer
has passed `flags_allow` for the flags of the message's device. -/
def core_accepts (msg : spi_message) : Prop :=
  ∀ x ∈ msg.transfers, flags_allow msg.spi.mode x

instance (msg : spi_message) : Decidable (core_accepts msg) := by
  unfold core_accepts; infer_instance

/-! # Theorems -/

theorem ideal_divisor_eq (R S : Nat) (hS : 1 ≤ S) :
    ideal_divisor R S = (((R + 2 * S - 1) / (2 * S) : Nat) : Int) := by
  unfold ideal_divisor
  rw [Int.ceil_eq_iff]
  have hd : 0 < 2 * S := by omega
  have hdq : (0 : ℚ) < 2 * (S : ℚ) := by exact_mod_cast hd
  have h1 : (R + 2 * S - 1) / (2 * S) * (2 * S) ≤ R + 2 * S - 1 := Nat.div_mul_le_self _ _
  have h2 : R + 2 * S - 1 < ((R + 2 * S - 1) / (2 * S) + 1) * (2 * S) := by
    have := Nat.lt_div_mul_add (a := R + 2 * S - 1) hd
    nlinarith [this]
  generalize (R + 2 * S - 1) / (2 * S) = q at h1 h2 ⊢
  constructor
  · rw [lt_div_iff₀ hdq]
    have : (q : ℚ) * (2 * S) < R + 2 * S := by
      have h3 : q * (2 * S) < R + 2 * S := by omega
      exact_mod_cast h3
    push_cast
    linarith
  · rw [div_le_iff₀ hdq]
    have h3 : R ≤ q * (2 * S) := by
      have : (q + 1) * (2 * S) = q * (2 * S) + 2 * S := by ring
      omega
    exact_mod_cast h3

theorem div_round_up_no_wrap (rspi : rspi_data) (hS : 1 ≤ rspi.max_speed_hz)
    (hS2 : rspi.max_speed_hz < 2147483648)
    (hR : rspi.clk_rate + 2 * rspi.max_speed_hz ≤ 4294967296) :
    DIV_ROUND_UP (rspi.clk_rate % 2 ^ BITS_PER_LONG) (2 * rspi.max_speed_hz % 4294967296)
      = some ((rspi.clk_rate + 2 * rspi.max_speed_hz - 1) / (2 * rspi.max_speed_hz)) := by
  have e1 : 2 * rspi.max_speed_hz % 4294967296 = 2 * rspi.max_speed_hz := Nat.mod_eq_of_lt (by omega)
  have e2 : rspi.clk_rate % 2 ^ BITS_PER_LONG = rspi.clk_rate :=
    Nat.mod_eq_of_lt (by simp only [BITS_PER_LONG]; omega)
  have e3 : (rspi.clk_rate + 2 * rspi.max_speed_hz + (2 ^ BITS_PER_LONG - 1)) % 2 ^ BITS_PER_LONG
      = rspi.clk_rate + 2 * rspi.max_speed_hz - 1 := by
    simp only [BITS_PER_LONG]; omega
  unfold DIV_ROUND_UP
  rw [e1, e2, if_neg (by omega), e3]


theorem div_round_up_lt (R S : Nat) (hS : 1 ≤ S) (hR : R + 2 * S ≤ 4294967296) :
    (R + 2 * S - 1) / (2 * S) < 2147483648 := by
  rw [Nat.div_lt_iff_lt_mul (by omega)]
  omega

theorem rspi_spbr_no_wrap (rspi : rspi_data) (hS : 1 ≤ rspi.max_speed_hz)
    (hS2 : rspi.max_speed_hz < 2147483648)
    (hR : rspi.clk_rate + 2 * rspi.max_speed_hz ≤ 4294967296) :
    rspi_spbr rspi = some (ideal_divisor rspi.clk_rate rspi.max_speed_hz - 1) := by
  unfold rspi_spbr
  rw [div_round_up_no_wrap rspi hS hS2 hR, ideal_divisor_eq _ _ hS]
  have hq := div_round_up_lt rspi.clk_rate rspi.max_speed_hz hS hR
  generalize (rspi.clk_rate + 2 * rspi.max_speed_hz - 1) / (2 * rspi.max_speed_hz) = q at hq ⊢
  simp only [Option.map_some', Option.some.injEq, int_of_ulong, BITS_PER_LONG]
  rcases Nat.eq_zero_or_pos q with h0 | hpos
  · subst h0; decide
  · have e : (q + (2 ^ 32 - 1)) % 2 ^ 32 = q - 1 := by omega
    rw [e, Nat.mod_eq_of_lt (by omega), if_pos (by omega)]
    omega

theorem qspi_spbr_no_wrap (rspi : rspi_data) (hS : 1 ≤ rspi.max_speed_hz)
    (hS2 : rspi.max_speed_hz < 2147483648)
    (hR : rspi.clk_rate + 2 * rspi.max_speed_hz ≤ 4294967296) :
    qspi_spbr rspi = some (ideal_divisor rspi.clk_rate rspi.max_speed_hz) := by
  unfold qspi_spbr
  rw [div_round_up_no_wrap rspi hS hS2 hR, ideal_divisor_eq _ _ hS]
  have hq := div_round_up_lt rspi.clk_rate rspi.max_speed_hz hS hR
  generalize (rspi.clk_rate + 2 * rspi.max_speed_hz - 1) / (2 * rspi.max_speed_hz) = q at hq ⊢
  simp only [Option.map_some', Option.some.injEq, int_of_ulong]
  rw [Nat.mod_eq_of_lt (by omega), if_pos (by omega)]

theorem clamp_range (v : Int) : 0 ≤ clamp v 0 255 ∧ clamp v 0 255 ≤ 255 := by
  unfold clamp
  simp only
  split_ifs <;> omega

theorem clamp_byte (v : Int) : (clamp v 0 255).toNat % 256 = (clamp v 0 255).toNat := by
  have h := clamp_range v
  apply Nat.mod_eq_of_lt
  omega

theorem clamp_cast (v : Int) : (((clamp v 0 255).toNat : Nat) : Int) = clamp v 0 255 := by
  have h := clamp_range v
  omega

theorem rspi_spbr_write8 (rspi : rspi_data) (d o : Nat) :
    rspi_spbr (rspi_write8 rspi d o) = rspi_spbr rspi := rfl

theorem qspi_spbr_write8 (rspi : rspi_data) (d o : Nat) :
    qspi_spbr (rspi_write8 rspi d o) = qspi_spbr rspi := rfl

@[simp] theorem rspi_write8_trace (rspi : rspi_data) (d o : Nat) :
    (rspi_write8 rspi d o).trace = rspi.trace ++ [Event.wr 8 o (d % 256)] := rfl

@[simp] theorem rspi_write16_trace (rspi : rspi_data) (d o : Nat) :
    (rspi_write16 rspi d o).trace = rspi.trace ++ [Event.wr 16 o (d % 65536)] := rfl

@[simp] theorem rspi_write32_trace (rspi : rspi_data) (d o : Nat) :
    (rspi_write32 rspi d o).trace = rspi.trace ++ [Event.wr 32 o (d % 4294967296)] := rfl

@[simp] theorem emit_trace (rspi : rspi_data) (e : Event) :
    (emit rspi e).trace = rspi.trace ++ [e] := rfl

theorem new_events_eq (a b : rspi_data) (l : List Event) (h : b.trace = a.trace ++ l) :
    new_events a b = l := by
  simp [new_events, h]

theorem legacy_config_spbr (rspi : rspi_data) (n v : Int) (h : rspi_spbr rspi = some v) :
    ∃ r, rspi_set_config_register rspi n = some r ∧ r.1 = 0 ∧
      r.2.regs RSPI_SPBR = (clamp v 0 255).toNat % 256 ∧
      writes_to RSPI_SPBR (new_events rspi r.2) = [(clamp v 0 255).toNat % 256] := by
  simp only [rspi_set_config_register, rspi_spbr_write8, h]
  refine ⟨_, rfl, rfl, rfl, ?_⟩
  rw [new_events_eq rspi _ _ (by
    simp only [rspi_write8_trace, rspi_write16_trace, List.append_assoc]; rfl)]
  rfl

theorem rz_config_spbr (rspi : rspi_data) (n v : Int) (h : rspi_spbr rspi = some v) :
    ∃ r, rspi_rz_set_config_register rspi n = some r ∧ r.1 = 0 ∧
      r.2.regs RSPI_SPBR = (clamp v 0 255).toNat % 256 ∧
      writes_to RSPI_SPBR (new_events rspi r.2) = [(clamp v 0 255).toNat % 256] := by
  simp only [rspi_rz_set_config_register, rspi_spbr_write8, h]
  refine ⟨_, rfl, rfl, rfl, ?_⟩
  rw [new_events_eq rspi _ _ (by
    simp only [rspi_write8_trace, rspi_write16_trace, List.append_assoc]; rfl)]
  rfl

theorem qspi_config_spbr (rspi : rspi_data) (n v : Int) (h : qspi_spbr rspi = some v) :
    ∃ r, qspi_set_config_register rspi n = some r ∧ r.1 = 0 ∧
      r.2.regs RSPI_SPBR = (clamp v 0 255).toNat % 256 ∧
      writes_to RSPI_SPBR (new_events rspi r.2) = [(clamp v 0 255).toNat % 256] := by
  simp only [qspi_set_config_register, qspi_spbr_write8, h]
  refine ⟨_, rfl, rfl, rfl, ?_⟩
  rw [new_events_eq rspi _ _ (by
    simp only [rspi_write8_trace, rspi_write16_trace, rspi_write32_trace, List.append_assoc]
    rfl)]
  rfl

/-- C1 (amended): as long as the 32-bit arithmetic of the source does not wrap
(`1 ≤ S < 2147483648`, so that `2 * S` fits a `u32`, and `R + 2 * S - 1 < 4294967296`, so
that the rounding sum fits an `unsigned long`), each configuration routine
succeeds, reports no error, and the one value it writes to the bit-rate divisor
register (offset 0x0a) is `clamp(ceil(R / (2 S)) - 1, 0, 255)` for Legacy and RZ
and `clamp(ceil(R / (2 S)), 0, 255)` for QSPI, with the mathematical ceiling; the
value lies in `[0, 255]`. -/
theorem bit_rate_divisor_no_wrap (rspi : rspi_data) (access_size : Int)
    (hS : 1 ≤ rspi.max_speed_hz) (hS2 : rspi.max_speed_hz < 2147483648)
    (hR : rspi.clk_rate + 2 * rspi.max_speed_hz ≤ 4294967296) :
    (∃ r, rspi_set_config_register rspi access_size = some r ∧ r.1 = 0 ∧
      ((r.2.regs RSPI_SPBR : Nat) : Int)
        = clamp (ideal_divisor rspi.clk_rate rspi.max_speed_hz - 1) 0 255 ∧
      (writes_to RSPI_SPBR (new_events rspi r.2)).map Int.ofNat
        = [clamp (ideal_divisor rspi.clk_rate rspi.max_speed_hz - 1) 0 255]) ∧
    (∃ r, rspi_rz_set_config_register rspi access_size = some r ∧ r.1 = 0 ∧
      ((r.2.regs RSPI_SPBR : Nat) : Int)
        = clamp (ideal_divisor rspi.clk_rate rspi.max_speed_hz - 1) 0 255 ∧
      (writes_to RSPI_SPBR (new_events rspi r.2)).map Int.ofNat
        = [clamp (ideal_divisor rspi.clk_rate rspi.max_speed_hz - 1) 0 255]) ∧
    (∃ r, qspi_set_config_register rspi access_size = some r ∧ r.1 = 0 ∧
      ((r.2.regs RSPI_SPBR : Nat) : Int)
        = clamp (ideal_divisor rspi.clk_rate rspi.max_speed_hz) 0 255 ∧
      (writes_to RSPI_SPBR (new_events rspi r.2)).map Int.ofNat
        = [clamp (ideal_divisor rspi.clk_rate rspi.max_speed_hz) 0 255]) ∧
    (0 ≤ clamp (ideal_divisor rspi.clk_rate rspi.max_speed_hz - 1) 0 255 ∧
      clamp (ideal_divisor rspi.clk_rate rspi.max_speed_hz - 1) 0 255 ≤ 255) ∧
    (0 ≤ clamp (ideal_divisor rspi.clk_rate rspi.max_speed_hz) 0 255 ∧
      clamp (ideal_divisor rspi.clk_rate rspi.max_speed_hz) 0 255 ≤ 255) := by
  have hl := rspi_spbr_no_wrap rspi hS hS2 hR
  have hq := qspi_spbr_no_wrap rspi hS hS2 hR
  refine ⟨?_, ?_, ?_, clamp_range _, clamp_range _⟩
  · obtain ⟨r, h1, h2, h3, h4⟩ := legacy_config_spbr rspi access_size _ hl
    refine ⟨r, h1, h2, ?_, ?_⟩
    · rw [h3, clamp_byte, clamp_cast]
    · rw [h4, clamp_byte]; simp only [List.map, Int.ofNat_eq_coe, clamp_cast]
  · obtain ⟨r, h1, h2, h3, h4⟩ := rz_config_spbr rspi access_size _ hl
    refine ⟨r, h1, h2, ?_, ?_⟩
    · rw [h3, clamp_byte, clamp_cast]
    · rw [h4, clamp_byte]; simp only [List.map, Int.ofNat_eq_coe, clamp_cast]
  · obtain ⟨r, h1, h2, h3, h4⟩ := qspi_config_spbr rspi access_size _ hq
    refine ⟨r, h1, h2, ?_, ?_⟩
    · rw [h3, clamp_byte, clamp_cast]
    · rw [h4, clamp_byte]; simp only [List.map, Int.ofNat_eq_coe, clamp_cast]

theorem bit_rate_divisor_no_wrap_witness :
    ∃ r, qspi_set_config_register
        { rspi_reset Variant.qspi with clk_rate := 97500000, max_speed_hz := 30000000 } 8
          = some r ∧ r.1 = 0 ∧
      ((r.2.regs RSPI_SPBR : Nat) : Int) = clamp (ideal_divisor 97500000 30000000) 0 255 :=
  let h := (bit_rate_divisor_no_wrap
    { rspi_reset Variant.qspi with clk_rate := 97500000, max_speed_hz := 30000000 } 8
    (by decide) (by decide) (by decide)).2.2.1
  ⟨h.choose, h.choose_spec.1, h.choose_spec.2.1, h.choose_spec.2.2.1⟩

/-- C1 (counterexample): with `S = 2147483648 + 1` the product `2 * S` wraps to 2 in
`u32`, so for `R = 1000` the Legacy routine writes 255 and the QSPI routine
writes 255, while the claimed values are `clamp(ceil(R / (2 S)) - 1, 0, 255) = 0`
and `clamp(ceil(R / (2 S)), 0, 255) = 1`. -/
theorem bit_rate_divisor_wraps :
    1 ≤ 2147483649 ∧ 2147483649 < 4294967296 ∧
    (rspi_set_config_register
        { rspi_reset Variant.legacy with clk_rate := 1000, max_speed_hz := 2147483649 } 8).map
      (fun r => r.2.regs RSPI_SPBR) = some 255 ∧
    clamp (ideal_divisor 1000 2147483649 - 1) 0 255 = 0 ∧
    (qspi_set_config_register
        { rspi_reset Variant.qspi with clk_rate := 1000, max_speed_hz := 2147483649 } 8).map
      (fun r => r.2.regs RSPI_SPBR) = some 255 ∧
    clamp (ideal_divisor 1000 2147483649) 0 255 = 1 := by
  refine ⟨by decide, by decide, by decide, ?_, by decide, ?_⟩
  · rw [ideal_divisor_eq _ _ (by decide)]; decide
  · rw [ideal_divisor_eq _ _ (by decide)]; decide

theorem replay_append (a b : List Event) (regs : Nat → Nat) :
    replay (a ++ b) regs = replay b (replay a regs) := by
  induction a generalizing regs with
  | nil => rfl
  | cons e es ih => cases e <;> simp [replay, ih]

theorem apply_events_nil (rspi : rspi_data) : apply_events rspi [] = rspi := by
  simp [apply_events, replay]

theorem apply_events_append (rspi : rspi_data) (a b : List Event) :
    apply_events (apply_events rspi a) b = apply_events rspi (a ++ b) := by
  simp [apply_events, replay_append]

theorem rspi_write8_eq (rspi : rspi_data) (d o : Nat) :
    rspi_write8 rspi d o = apply_events rspi [Event.wr 8 o (d % 256)] := rfl

theorem rspi_write16_eq (rspi : rspi_data) (d o : Nat) :
    rspi_write16 rspi d o = apply_events rspi [Event.wr 16 o (d % 65536)] := rfl

theorem rspi_write32_eq (rspi : rspi_data) (d o : Nat) :
    rspi_write32 rspi d o = apply_events rspi [Event.wr 32 o (d % 4294967296)] := rfl

@[simp] theorem apply_events_spcmd (rspi : rspi_data) (evs : List Event) :
    (apply_events rspi evs).spcmd = rspi.spcmd := rfl

@[simp] theorem apply_events_trace (rspi : rspi_data) (evs : List Event) :
    (apply_events rspi evs).trace = rspi.trace ++ evs := rfl

@[simp] theorem apply_events_regs (rspi : rspi_data) (evs : List Event) :
    (apply_events rspi evs).regs = replay evs rspi.regs := rfl

theorem merge_run_head (m l : Nat) (rs : List (Nat × Nat)) :
    ∃ l' rs', merge_run m l rs = (m, l') :: rs' := by
  cases rs with
  | nil => exact ⟨l, [], rfl⟩
  | cons r rs =>
    obtain ⟨m', l'⟩ := r
    by_cases h : m = m'
    · subst h; exact ⟨l + l', rs, by simp [merge_run]⟩
    · exact ⟨l, (m', l') :: rs, by simp [merge_run, h]⟩

theorem merge_run_same (m l l' : Nat) (rs : List (Nat × Nat)) :
    merge_run m l (merge_run m l' rs) = merge_run m (l + l') rs := by
  cases rs with
  | nil => simp [merge_run]
  | cons r rs =>
    obtain ⟨m', l''⟩ := r
    by_cases h : m = m'
    · subst h; simp [merge_run, Nat.add_assoc]
    · simp [merge_run, h]

theorem merge_run_other (m l m' l' : Nat) (rs : List (Nat × Nat)) (h : m' ≠ m) :
    merge_run m l (merge_run m' l' rs) = (m, l) :: merge_run m' l' rs := by
  obtain ⟨l'', rs', e⟩ := merge_run_head m' l' rs
  rw [e]
  simp [merge_run, Ne.symm h]

theorem merge_run_length_pos (m l : Nat) (rs : List (Nat × Nat)) :
    0 < (merge_run m l rs).length := by
  obtain ⟨l', rs', e⟩ := merge_run_head m l rs
  rw [e]; simp

theorem qspi_transfer_mode_cases (x : spi_transfer) :
    qspi_transfer_mode x = 0 ∨ qspi_transfer_mode x = 0x20 ∨ qspi_transfer_mode x = 0x40 ∨
    qspi_transfer_mode x = 0x30 ∨ qspi_transfer_mode x = 0x50 := by
  unfold qspi_transfer_mode
  split_ifs <;> decide

theorem qspi_transfer_mode_ne (x : spi_transfer) : qspi_transfer_mode x ≠ 0xffff := by
  rcases qspi_transfer_mode_cases x with h | h | h | h | h <;> rw [h] <;> decide

/-- The loop with slot `p` open: the runs that remain fit the four slots. -/
theorem sequencer_loop_ok (rest : List spi_transfer) :
    ∀ (rspi : rspi_data) (p len L cur : Nat), len = L % 4294967296 →
      p + (merge_run cur L (mode_runs rest)).length ≤ 4 →
      qspi_sequencer_loop rest rspi (p + 1) len cur =
        (0, apply_events rspi
          ((slot_events rspi.spcmd p (merge_run cur L (mode_runs rest))).tail ++
            [Event.wr 8 RSPI_SPSCR
              ((p + (merge_run cur L (mode_runs rest)).length - 1) % 256)])) := by
  induction rest with
  | nil =>
    intro rspi p len L cur hlen _
    simp only [qspi_sequencer_loop, mode_runs, merge_run, slot_events, List.tail_cons,
      List.length_singleton, Nat.add_sub_cancel, rspi_write32_eq, rspi_write8_eq,
      apply_events_append, hlen, Nat.mod_mod]
    simp
  | cons x rest ih =>
    intro rspi p len L cur hlen hk
    by_cases hm : qspi_transfer_mode x = cur
    · subst hm
      have := ih rspi p ((len + x.len) % 4294967296) (L + x.len) (qspi_transfer_mode x)
        (by rw [hlen]; omega) (by
          rw [← merge_run_same]; exact hk)
      simp only [qspi_sequencer_loop, if_true]
      rw [this, mode_runs, merge_run_same]
    · have e := merge_run_other cur L (qspi_transfer_mode x) x.len (mode_runs rest) hm
      have hpos := merge_run_length_pos (qspi_transfer_mode x) x.len (mode_runs rest)
      simp only [mode_runs, e, List.length_cons] at hk ⊢
      have hp : ¬ (p + 1 ≥ QSPI_NUM_SPCMD) := by simp only [QSPI_NUM_SPCMD]; omega
      have := ih (rspi_write16 (rspi_write32 rspi len (QSPI_SPBMUL p))
          ((rspi_write32 rspi len (QSPI_SPBMUL p)).spcmd ||| qspi_transfer_mode x)
          (RSPI_SPCMD (p + 1)))
        (p + 1) (x.len % 4294967296) x.len (qspi_transfer_mode x) rfl (by omega)
      simp only [qspi_sequencer_loop, if_neg hm, if_neg hp, Nat.add_sub_cancel,
        if_pos (Nat.succ_ne_zero p)]
      rw [this]
      obtain ⟨l', rs', e'⟩ := merge_run_head (qspi_transfer_mode x) x.len (mode_runs rest)
      simp only [e', slot_events, List.tail_cons, rspi_write32_eq, rspi_write16_eq,
        apply_events_append, apply_events_spcmd, hlen, Nat.mod_mod, List.length_cons]
      congr 2
      simp
      omega


/-- The loop with slot `p` open: more runs remain than slots. -/
theorem sequencer_loop_err (rest : List spi_transfer) :
    ∀ (rspi : rspi_data) (p len L cur : Nat), len = L % 4294967296 → p ≤ 3 →
      4 < p + (merge_run cur L (mode_runs rest)).length →
      qspi_sequencer_loop rest rspi (p + 1) len cur =
        (-EINVAL, apply_events rspi
          (slot_events rspi.spcmd p
            ((merge_run cur L (mode_runs rest)).take (4 - p))).tail) := by
  induction rest with
  | nil =>
    intro rspi p len L cur _ hp hk
    simp [mode_runs, merge_run] at hk
    omega
  | cons x rest ih =>
    intro rspi p len L cur hlen hp hk
    by_cases hm : qspi_transfer_mode x = cur
    · subst hm
      have := ih rspi p ((len + x.len) % 4294967296) (L + x.len) (qspi_transfer_mode x)
        (by rw [hlen]; omega) hp (by rw [← merge_run_same]; exact hk)
      simp only [qspi_sequencer_loop, if_true]
      rw [this, mode_runs, merge_run_same]
    · have e := merge_run_other cur L (qspi_transfer_mode x) x.len (mode_runs rest) hm
      simp only [mode_runs, e, List.length_cons] at hk ⊢
      obtain ⟨q, hq⟩ : ∃ q, 4 - p = q + 1 := ⟨3 - p, by omega⟩
      simp only [qspi_sequencer_loop, if_neg hm, Nat.add_sub_cancel,
        if_pos (Nat.succ_ne_zero p), hq, List.take_succ_cons, slot_events, List.tail_cons]
      by_cases hp4 : p + 1 ≥ QSPI_NUM_SPCMD
      · have hq0 : q = 0 := by simp only [QSPI_NUM_SPCMD] at hp4; omega
        subst hq0
        simp only [if_pos hp4, List.take_zero, slot_events, rspi_write32_eq, hlen, Nat.mod_mod]
      · simp only [QSPI_NUM_SPCMD] at hp4
        have := ih (rspi_write16 (rspi_write32 rspi len (QSPI_SPBMUL p))
            ((rspi_write32 rspi len (QSPI_SPBMUL p)).spcmd ||| qspi_transfer_mode x)
            (RSPI_SPCMD (p + 1)))
          (p + 1) (x.len % 4294967296) x.len (qspi_transfer_mode x) rfl (by omega) (by omega)
        rw [if_neg (by simp only [QSPI_NUM_SPCMD]; omega), this]
        obtain ⟨l', rs', e'⟩ := merge_run_head (qspi_transfer_mode x) x.len (mode_runs rest)
        have hq' : 4 - (p + 1) = q := by omega
        obtain ⟨q', hq''⟩ : ∃ q', q = q' + 1 := ⟨q - 1, by omega⟩
        simp only [e', hq', hq'', List.take_succ_cons, slot_events, List.tail_cons,
          rspi_write32_eq, rspi_write16_eq, apply_events_append, apply_events_spcmd, hlen,
          Nat.mod_mod]
        rfl

theorem setup_sequencer_ok (rspi : rspi_data) (msg : spi_message)
    (h1 : 1 ≤ (mode_runs msg.transfers).length) (h4 : (mode_runs msg.transfers).length ≤ 4) :
    qspi_setup_sequencer rspi msg =
      (0, apply_events rspi
        (slot_events rspi.spcmd 0 (mode_runs msg.transfers) ++
          [Event.wr 8 RSPI_SPSCR (((mode_runs msg.transfers).length - 1) % 256)])) := by
  unfold qspi_setup_sequencer
  cases hts : msg.transfers with
  | nil => rw [hts] at h1; simp [mode_runs] at h1
  | cons x rest =>
    rw [hts] at h1 h4
    simp only [mode_runs] at h1 h4 ⊢
    have := sequencer_loop_ok rest
      (rspi_write16 rspi (rspi.spcmd ||| qspi_transfer_mode x) (RSPI_SPCMD 0))
      0 (x.len % 4294967296) x.len (qspi_transfer_mode x) rfl (by omega)
    simp only [qspi_sequencer_loop, if_neg (qspi_transfer_mode_ne x), QSPI_NUM_SPCMD]
    simp only [ne_eq, not_true_eq_false, if_false, ge_iff_le, Nat.not_succ_le_zero,
      Nat.zero_add] at this ⊢
    rw [this]
    obtain ⟨l', rs', e'⟩ := merge_run_head (qspi_transfer_mode x) x.len (mode_runs rest)
    simp only [e', slot_events, List.tail_cons, rspi_write16_eq, apply_events_append,
      apply_events_spcmd, List.length_cons]
    simp

theorem setup_sequencer_err (rspi : rspi_data) (msg : spi_message)
    (h4 : 4 < (mode_runs msg.transfers).length) :
    qspi_setup_sequencer rspi msg =
      (-EINVAL, apply_events rspi
        (slot_events rspi.spcmd 0 ((mode_runs msg.transfers).take 4))) := by
  unfold qspi_setup_sequencer
  cases hts : msg.transfers with
  | nil => rw [hts] at h4; simp [mode_runs] at h4
  | cons x rest =>
    rw [hts] at h4
    simp only [mode_runs] at h4 ⊢
    have := sequencer_loop_err rest
      (rspi_write16 rspi (rspi.spcmd ||| qspi_transfer_mode x) (RSPI_SPCMD 0))
      0 (x.len % 4294967296) x.len (qspi_transfer_mode x) rfl (by omega) (by omega)
    simp only [qspi_sequencer_loop, if_neg (qspi_transfer_mode_ne x), QSPI_NUM_SPCMD]
    simp only [ne_eq, not_true_eq_false, if_false, ge_iff_le, Nat.not_succ_le_zero,
      Nat.zero_add] at this ⊢
    rw [this]
    obtain ⟨l', rs', e'⟩ := merge_run_head (qspi_transfer_mode x) x.len (mode_runs rest)
    simp only [e', List.take_succ_cons, slot_events, List.tail_cons, rspi_write16_eq,
      apply_events_append, apply_events_spcmd, Nat.sub_zero]
    rfl

/-- C2 (amended): for every message whose transfers form `k` maximal runs of
equal wire-mode class with `1 ≤ k ≤ 4`, `qspi_setup_sequencer` succeeds; what it
adds to the trace is, run after run, the command word of slot `j` (cached word
OR class of run `j`) and the length of slot `j`, then `k - 1` in the
sequence-length register; the only command slots written are `0 .. k - 1`, in
that order; afterwards slot register `j` holds cached word OR class, length
register `j` holds the sum of the byte lengths of run `j` modulo `4294967296` (the
sum itself when it is below `4294967296`), and the sequence-length register holds
`k - 1`. -/
theorem sequencer_programs_runs (rspi : rspi_data) (msg : spi_message)
    (h1 : 1 ≤ (mode_runs msg.transfers).length) (h4 : (mode_runs msg.transfers).length ≤ 4) :
    (qspi_setup_sequencer rspi msg).1 = 0 ∧
    new_events rspi (qspi_setup_sequencer rspi msg).2 =
      slot_events rspi.spcmd 0 (mode_runs msg.transfers) ++
        [Event.wr 8 RSPI_SPSCR ((mode_runs msg.transfers).length - 1)] ∧
    cmd_slot_offsets (new_events rspi (qspi_setup_sequencer rspi msg).2) =
      (List.range (mode_runs msg.transfers).length).map RSPI_SPCMD ∧
    (∀ j m l, (mode_runs msg.transfers)[j]? = some (m, l) →
      (qspi_setup_sequencer rspi msg).2.regs (RSPI_SPCMD j) = (rspi.spcmd ||| m) % 65536 ∧
      (qspi_setup_sequencer rspi msg).2.regs (QSPI_SPBMUL j) = l % 4294967296 ∧
      (l < 4294967296 → (qspi_setup_sequencer rspi msg).2.regs (QSPI_SPBMUL j) = l)) ∧
    (qspi_setup_sequencer rspi msg).2.regs RSPI_SPSCR = (mode_runs msg.transfers).length - 1 := by
  rw [setup_sequencer_ok rspi msg h1 h4]
  have hk : ((mode_runs msg.transfers).length - 1) % 256
      = (mode_runs msg.transfers).length - 1 := Nat.mod_eq_of_lt (by omega)
  rw [hk]
  generalize mode_runs msg.transfers = R at h1 h4 ⊢
  refine ⟨rfl, new_events_eq _ _ _ rfl, ?_, ?_, ?_⟩
  · rw [new_events_eq _ _ _ rfl]
    rcases R with _ | ⟨⟨m0, l0⟩, _ | ⟨⟨m1, l1⟩, _ | ⟨⟨m2, l2⟩, _ | ⟨⟨m3, l3⟩, _ | ⟨r4, R⟩⟩⟩⟩⟩
    · simp at h1
    · rfl
    · rfl
    · rfl
    · rfl
    · simp at h4
  · intro j m l hj
    have key : (apply_events rspi (slot_events rspi.spcmd 0 R ++
          [Event.wr 8 RSPI_SPSCR (R.length - 1)])).regs (RSPI_SPCMD j)
          = (rspi.spcmd ||| m) % 65536 ∧
        (apply_events rspi (slot_events rspi.spcmd 0 R ++
          [Event.wr 8 RSPI_SPSCR (R.length - 1)])).regs (QSPI_SPBMUL j) = l % 4294967296 := by
      rcases R with _ | ⟨⟨m0, l0⟩, _ | ⟨⟨m1, l1⟩, _ | ⟨⟨m2, l2⟩, _ | ⟨⟨m3, l3⟩, _ | ⟨r4, R⟩⟩⟩⟩⟩
      · simp at h1
      · rcases j with _ | j
        · simp at hj; obtain ⟨rfl, rfl⟩ := hj; exact ⟨rfl, rfl⟩
        · simp at hj
      · rcases j with _ | _ | j
        · simp at hj; obtain ⟨rfl, rfl⟩ := hj; exact ⟨rfl, rfl⟩
        · simp at hj; obtain ⟨rfl, rfl⟩ := hj; exact ⟨rfl, rfl⟩
        · simp at hj
      · rcases j with _ | _ | _ | j
        · simp at hj; obtain ⟨rfl, rfl⟩ := hj; exact ⟨rfl, rfl⟩
        · simp at hj; obtain ⟨rfl, rfl⟩ := hj; exact ⟨rfl, rfl⟩
        · simp at hj; obtain ⟨rfl, rfl⟩ := hj; exact ⟨rfl, rfl⟩
        · simp at hj
      · rcases j with _ | _ | _ | _ | j
        · simp at hj; obtain ⟨rfl, rfl⟩ := hj; exact ⟨rfl, rfl⟩
        · simp at hj; obtain ⟨rfl, rfl⟩ := hj; exact ⟨rfl, rfl⟩
        · simp at hj; obtain ⟨rfl, rfl⟩ := hj; exact ⟨rfl, rfl⟩
        · simp at hj; obtain ⟨rfl, rfl⟩ := hj; exact ⟨rfl, rfl⟩
        · simp at hj
      · simp at h4
    refine ⟨key.1, key.2, fun hl => ?_⟩
    rw [key.2, Nat.mod_eq_of_lt hl]
  · rcases R with _ | ⟨⟨m0, l0⟩, _ | ⟨⟨m1, l1⟩, _ | ⟨⟨m2, l2⟩, _ | ⟨⟨m3, l3⟩, _ | ⟨r4, R⟩⟩⟩⟩⟩
    · simp at h1
    · rfl
    · rfl
    · rfl
    · rfl
    · simp at h4

theorem sequencer_programs_runs_witness :
    (qspi_setup_sequencer (rspi_reset Variant.qspi) three_run_message).1 = 0 ∧
    new_events (rspi_reset Variant.qspi)
        (qspi_setup_sequencer (rspi_reset Variant.qspi) three_run_message).2 =
      [Event.wr 16 0x10 0x00, Event.wr 32 0x1c (1 + 2),
       Event.wr 16 0x12 0x20, Event.wr 32 0x20 (3 + 4),
       Event.wr 16 0x14 0x40, Event.wr 32 0x24 5,
       Event.wr 8 0x08 2] :=
  have h := sequencer_programs_runs (rspi_reset Variant.qspi) three_run_message
    (by decide) (by decide)
  ⟨h.1, h.2.1.trans (by decide)⟩

/-- C2 (counterexample): two single-wire transfers of `2147483648` bytes form one
run whose byte lengths sum to `4294967296`; the sequencer succeeds and leaves 0,
not the sum, in length-multiplier register 0. -/
theorem sequencer_length_wraps :
    mode_runs long_run_message.transfers = [(0, 4294967296)] ∧
    (qspi_setup_sequencer (rspi_reset Variant.qspi) long_run_message).1 = 0 ∧
    (qspi_setup_sequencer (rspi_reset Variant.qspi) long_run_message).2.regs (QSPI_SPBMUL 0) = 0 ∧
    (0 : Nat) ≠ 2147483648 + 2147483648 := by
  refine ⟨by decide, by decide, by decide, by decide⟩

theorem prepare_message_gated (rspi : rspi_data) (msg : spi_message)
    (hg : multi_bit_device msg) (herr : (qspi_setup_sequencer rspi msg).1 < 0) :
    rspi_prepare_message rspi msg = qspi_setup_sequencer rspi msg := by
  unfold multi_bit_device at hg
  simp only [rspi_prepare_message, if_pos hg, if_pos herr]

theorem prepare_message_ungated (rspi : rspi_data) (msg : spi_message)
    (hg : ¬ multi_bit_device msg) :
    rspi_prepare_message rspi msg =
      (0, rspi_write8 (rspi_read8 rspi RSPI_SPCR).2
        ((rspi_read8 rspi RSPI_SPCR).1 ||| SPCR_SPE) RSPI_SPCR) := by
  unfold multi_bit_device at hg
  simp only [rspi_prepare_message, if_neg hg]

theorem slot_events_take4_free (spcmd : Nat) (R : List (Nat × Nat)) (i v : Nat) (hi : 4 ≤ i) :
    Event.wr 16 (RSPI_SPCMD i) v ∉ slot_events spcmd 0 (R.take 4) ∧
    Event.wr 32 (QSPI_SPBMUL i) v ∉ slot_events spcmd 0 (R.take 4) := by
  rcases R with _ | ⟨⟨m0, l0⟩, _ | ⟨⟨m1, l1⟩, _ | ⟨⟨m2, l2⟩, _ | ⟨⟨m3, l3⟩, R⟩⟩⟩⟩ <;>
    simp [slot_events, RSPI_SPCMD, QSPI_SPBMUL, RSPI_SPCMD0, QSPI_SPBMUL0] <;> omega

theorem land_lor_zero (a b c : Nat) (h : a &&& (b ||| c) = 0) : a &&& b = 0 ∧ a &&& c = 0 := by
  have key : ∀ i, (a.testBit i && (b.testBit i || c.testBit i)) = false := by
    intro i
    have := congrArg (fun z => Nat.testBit z i) h
    simpa using this
  constructor <;>
  · apply Nat.eq_of_testBit_eq
    intro i
    have k := key i
    simp only [Nat.testBit_and, Nat.zero_testBit]
    cases ha : a.testBit i <;> cases hb : b.testBit i <;> cases hc : c.testBit i <;>
      simp_all

/-- Without a dual or quad flag on the device, a transfer the SPI core accepts
has the single-wire class. -/
theorem plain_device_single (mode : Nat) (x : spi_transfer)
    (hm : mode &&& (SPI_TX_DUAL ||| SPI_TX_QUAD ||| SPI_RX_DUAL ||| SPI_RX_QUAD) = 0)
    (hx : flags_allow mode x) : qspi_transfer_mode x = 0 := by
  obtain ⟨h1, hrq⟩ := land_lor_zero _ _ _ hm
  obtain ⟨h2, hrd⟩ := land_lor_zero _ _ _ h1
  obtain ⟨htd, htq⟩ := land_lor_zero _ _ _ h2
  have hrdq : mode &&& (SPI_RX_DUAL ||| SPI_RX_QUAD) = 0 := by
    rw [Nat.and_or_distrib_left, hrd, hrq]; rfl
  unfold qspi_transfer_mode
  by_cases ht : x.tx_buf.isSome = true
  · rw [if_pos ht]
    have := hx.1 ht
    by_cases hq : x.tx_nbits = SPI_NBITS_QUAD
    · exact absurd htq (this.2 hq)
    · rw [if_neg hq]
      by_cases hd : x.tx_nbits = SPI_NBITS_DUAL
      · exact absurd h2 (this.1 hd)
      · rw [if_neg hd]
  · rw [if_neg ht]
    by_cases hr : x.rx_buf.isSome = true
    · rw [if_pos hr]
      have := hx.2 hr
      by_cases hq : x.rx_nbits = SPI_NBITS_QUAD
      · exact absurd hrq (this.2 hq)
      · rw [if_neg hq]
        by_cases hd : x.rx_nbits = SPI_NBITS_DUAL
        · exact absurd hrdq (this.1 hd)
        · rw [if_neg hd]
    · rw [if_neg hr]

/-- Transfers of one class form at most one run. -/
theorem mode_runs_one_class (c : Nat) (ts : List spi_transfer)
    (h : ∀ x ∈ ts, qspi_transfer_mode x = c) :
    mode_runs ts = [] ∨ ∃ l, mode_runs ts = [(c, l)] := by
  induction ts with
  | nil => exact Or.inl rfl
  | cons x rest ih =>
    have hx : qspi_transfer_mode x = c := h x (by simp)
    rcases ih (fun y hy => h y (List.mem_cons_of_mem _ hy)) with e | ⟨l, e⟩
    · exact Or.inr ⟨x.len, by simp only [mode_runs, e, hx, merge_run]⟩
    · exact Or.inr ⟨x.len + l, by simp only [mode_runs, e, hx, merge_run, if_true]⟩

/-- More than one run in a message the SPI core accepts: the device carries a
dual or quad flag, so `rspi_prepare_message` runs the sequencer. -/
theorem runs_open_gate (msg : spi_message) (hacc : core_accepts msg)
    (h : 1 < (mode_runs msg.transfers).length) : multi_bit_device msg := by
  unfold multi_bit_device
  intro hm
  rcases mode_runs_one_class 0 msg.transfers
      (fun x hx => plain_device_single _ x hm (hacc x hx)) with e | ⟨l, e⟩
  · rw [e] at h; simp at h
  · rw [e] at h; simp at h

/-- The sequencer on more than four runs: it fails with `-EINVAL` having
programmed the first four runs and nothing else. -/
theorem sequencer_overflow (rspi : rspi_data) (msg : spi_message)
    (h : 4 < (mode_runs msg.transfers).length) :
    (qspi_setup_sequencer rspi msg).1 = -EINVAL ∧
    new_events rspi (qspi_setup_sequencer rspi msg).2 =
      slot_events rspi.spcmd 0 ((mode_runs msg.transfers).take 4) := by
  have hs := setup_sequencer_err rspi msg h
  exact ⟨by rw [hs], by rw [hs]; exact new_events_eq _ _ _ rfl⟩

/-- C3: for every message whose transfers form more than 4 maximal runs of
equal wire-mode class, `qspi_setup_sequencer` fails with `-EINVAL` and
`rspi_prepare_message` returns that error. The message is one the SPI core
hands over (`core_accepts`: each transfer's wire width is allowed by the
device's mode flags), so the device carries a dual or quad flag and
`rspi_prepare_message` runs the sequencer. The failure comes after the first
four runs are programmed and before anything of the fifth: the writes are those
of the first four runs, and no 16-bit command-slot write goes to
`RSPI_SPCMD(i)` (offset 0x10 + 2i) and no 32-bit length write goes to
`QSPI_SPBMUL(i)` (offset 0x1c + 4i) for any `i ≥ 4`. Command words are written
with 16-bit accesses and lengths with 32-bit accesses, which tells the two
register files apart where their offsets meet (0x1c is `QSPI_SPBMUL(0)`). -/
theorem fifth_mode_rejected (rspi : rspi_data) (msg : spi_message)
    (hacc : core_accepts msg) (h : 4 < (mode_runs msg.transfers).length) :
    (qspi_setup_sequencer rspi msg).1 = -EINVAL ∧
    (rspi_prepare_message rspi msg).1 = -EINVAL ∧
    rspi_prepare_message rspi msg = qspi_setup_sequencer rspi msg ∧
    new_events rspi (rspi_prepare_message rspi msg).2 =
      slot_events rspi.spcmd 0 ((mode_runs msg.transfers).take 4) ∧
    (∀ i v, 4 ≤ i →
      Event.wr 16 (RSPI_SPCMD i) v ∉ new_events rspi (qspi_setup_sequencer rspi msg).2 ∧
      Event.wr 32 (QSPI_SPBMUL i) v ∉ new_events rspi (qspi_setup_sequencer rspi msg).2) ∧
    (∀ i v, 4 ≤ i →
      Event.wr 16 (RSPI_SPCMD i) v ∉ new_events rspi (rspi_prepare_message rspi msg).2 ∧
      Event.wr 32 (QSPI_SPBMUL i) v ∉ new_events rspi (rspi_prepare_message rspi msg).2) ∧
    (∀ i, RSPI_SPCMD i = 0x10 + 2 * i ∧ QSPI_SPBMUL i = 0x1c + 4 * i) := by
  obtain ⟨hret, hev⟩ := sequencer_overflow rspi msg h
  have hneg : (qspi_setup_sequencer rspi msg).1 < 0 := by rw [hret]; decide
  have hg : multi_bit_device msg := runs_open_gate msg hacc (by omega)
  have hp := prepare_message_gated rspi msg hg hneg
  refine ⟨hret, by rw [hp]; exact hret, hp, by rw [hp]; exact hev,
    fun i v hi => ?_, fun i v hi => ?_, fun i => ⟨by simp only [RSPI_SPCMD, RSPI_SPCMD0]; omega,
      by simp only [QSPI_SPBMUL, QSPI_SPBMUL0]; omega⟩⟩
  · rw [hev]; exact slot_events_take4_free _ _ i v hi
  · rw [hp, hev]; exact slot_events_take4_free _ _ i v hi

theorem fifth_mode_rejected_witness :
    core_accepts (five_run_message SPI_TX_DUAL) ∧
    (mode_runs (five_run_message SPI_TX_DUAL).transfers).length = 5 ∧
    (rspi_prepare_message (rspi_reset Variant.qspi) (five_run_message SPI_TX_DUAL)).1 = -EINVAL ∧
    new_events (rspi_reset Variant.qspi)
        (rspi_prepare_message (rspi_reset Variant.qspi) (five_run_message SPI_TX_DUAL)).2 =
      [Event.wr 16 0x10 0x00, Event.wr 32 0x1c 1, Event.wr 16 0x12 0x20, Event.wr 32 0x20 1,
       Event.wr 16 0x14 0x00, Event.wr 32 0x24 1, Event.wr 16 0x16 0x20, Event.wr 32 0x28 1] :=
  have h := fifth_mode_rejected (rspi_reset Variant.qspi) (five_run_message SPI_TX_DUAL)
    (by decide) (by decide)
  ⟨by decide, by decide, h.2.1, h.2.2.2.1.trans (by decide)⟩

@[simp] theorem poke_same (regs : Nat → Nat) (o v : Nat) : poke regs o v o = v := by
  simp [poke]

theorem poke_other (regs : Nat → Nat) (o v o' : Nat) (h : o' ≠ o) :
    poke regs o v o' = regs o' := by
  simp [poke, h]

theorem deliver_irq_spsr (rspi : rspi_data) (e : IrqEvent) :
    (deliver_irq rspi e).spsr = e.spsr % 256 := by
  unfold deliver_irq
  simp only
  split_ifs with h
  · simp only [rspi_irq_mux, rspi_read8, poke_same]
    split_ifs <;> rfl
  · cases e.line
    · simp only [rspi_irq_rx, rspi_read8, poke_same]
      split_ifs <;> rfl
    · simp only [rspi_irq_tx, rspi_read8, poke_same]
      split_ifs <;> rfl

theorem deliver_irq_lines (rspi : rspi_data) (e : IrqEvent) :
    (deliver_irq rspi e).rx_irq = rspi.rx_irq ∧ (deliver_irq rspi e).tx_irq = rspi.tx_irq := by
  unfold deliver_irq
  simp only
  split_ifs with h
  · simp only [rspi_irq_mux, rspi_read8]
    split_ifs <;> exact ⟨rfl, rfl⟩
  · cases e.line
    · simp only [rspi_irq_rx, rspi_read8]
      split_ifs <;> exact ⟨rfl, rfl⟩
    · simp only [rspi_irq_tx, rspi_read8]
      split_ifs <;> exact ⟨rfl, rfl⟩

theorem run_irqs_append (rspi : rspi_data) (a b : List IrqEvent) :
    run_irqs rspi (a ++ b) = run_irqs (run_irqs rspi a) b := by
  simp [run_irqs, List.foldl_append]

theorem run_irqs_lines (irqs : List IrqEvent) :
    ∀ rspi : rspi_data, (run_irqs rspi irqs).rx_irq = rspi.rx_irq ∧
      (run_irqs rspi irqs).tx_irq = rspi.tx_irq := by
  induction irqs with
  | nil => intro rspi; exact ⟨rfl, rfl⟩
  | cons e es ih =>
    intro rspi
    have h1 := ih (deliver_irq rspi e)
    have h2 := deliver_irq_lines rspi e
    simp only [run_irqs, List.foldl_cons] at h1 ⊢
    exact ⟨h1.1.trans h2.1, h1.2.trans h2.2⟩

/-- The cached status after a series of interrupts is the last status sampled. -/
theorem run_irqs_spsr (irqs : List IrqEvent) :
    ∀ rspi : rspi_data, (run_irqs rspi irqs).spsr =
      match irqs.getLast? with
      | none => rspi.spsr
      | some e => e.spsr % 256 := by
  induction irqs using List.reverseRecOn with
  | nil => intro rspi; rfl
  | append_singleton l e _ =>
    intro rspi
    rw [run_irqs_append]
    simp only [run_irqs, List.foldl_cons, List.foldl_nil, List.getLast?_append, List.getLast?_singleton]
    simp
    exact deliver_irq_spsr _ e

theorem run_irqs_quiet (irqs : List IrqEvent) (rspi : rspi_data) (mask : Nat)
    (h0 : rspi.spsr &&& mask = 0) (h : ∀ e ∈ irqs, e.spsr % 256 &&& mask = 0) :
    (run_irqs rspi irqs).spsr &&& mask = 0 := by
  rw [run_irqs_spsr]
  cases hl : irqs.getLast? with
  | none => simpa using h0
  | some e => exact h e (List.mem_of_getLast?_eq_some hl)

theorem wait_unfold_blocked (rspi : rspi_data) (wait_mask enable_bit : Nat) (w : WaitEnv)
    (h : rspi.regs RSPI_SPSR % 256 &&& wait_mask = 0) :
    rspi_wait_for_interrupt rspi wait_mask enable_bit w =
      if (wait_event_timeout (armed rspi enable_bit) wait_mask w.irqs).1 = 0 ∧
          ¬ ((run_irqs (wait_event_timeout (armed rspi enable_bit) wait_mask w.irqs).2
                w.late).spsr &&& wait_mask ≠ 0) then
        (-ETIMEDOUT,
          emit (run_irqs (wait_event_timeout (armed rspi enable_bit) wait_mask w.irqs).2 w.late)
            (Event.waited (-ETIMEDOUT)))
      else
        (0,
          emit (run_irqs (wait_event_timeout (armed rspi enable_bit) wait_mask w.irqs).2 w.late)
            (Event.waited 0)) := by
  have h' : ¬ ((rspi_read8 rspi RSPI_SPSR).1 &&& wait_mask ≠ 0) := by
    simpa [rspi_read8] using h
  simp only [rspi_wait_for_interrupt, if_neg h', armed]

theorem armed_spsr (rspi : rspi_data) (enable_bit : Nat) :
    (armed rspi enable_bit).spsr = rspi.regs RSPI_SPSR % 256 := rfl

theorem wait_event_timeout_blocked (rspi : rspi_data) (mask : Nat) (irqs : List IrqEvent)
    (h : rspi.spsr &&& mask = 0) :
    wait_event_timeout rspi mask irqs =
      ((if (run_irqs rspi irqs).spsr &&& mask ≠ 0 then 1 else 0),
        emit (run_irqs rspi irqs)
          (Event.slept (if (run_irqs rspi irqs).spsr &&& mask ≠ 0 then 1 else 0))) := by
  simp only [wait_event_timeout, h, ne_eq, not_true_eq_false, if_false]

@[simp] theorem emit_spsr (rspi : rspi_data) (ev : Event) : (emit rspi ev).spsr = rspi.spsr := rfl

theorem run_irqs_emit_spsr (rspi : rspi_data) (ev : Event) (irqs : List IrqEvent) :
    (run_irqs (emit rspi ev) irqs).spsr =
      match irqs.getLast? with
      | none => rspi.spsr
      | some e => e.spsr % 256 := by
  rw [run_irqs_spsr]; rfl

/-- Timeout happens exactly when no sample of the status register shows the
flag: not the one at call time, not the last one of the wait, not the last one
before the waiter looks again. -/
theorem wait_timeout_iff (rspi : rspi_data) (wait_mask enable_bit : Nat) (w : WaitEnv) :
    (rspi_wait_for_interrupt rspi wait_mask enable_bit w).1 = -ETIMEDOUT ↔
      (rspi.regs RSPI_SPSR % 256 &&& wait_mask = 0 ∧
        (∀ e, w.irqs.getLast? = some e → e.spsr % 256 &&& wait_mask = 0) ∧
        (∀ e, w.late.getLast? = some e → e.spsr % 256 &&& wait_mask = 0)) := by
  by_cases h : rspi.regs RSPI_SPSR % 256 &&& wait_mask = 0
  · rw [wait_unfold_blocked rspi wait_mask enable_bit w h,
      wait_event_timeout_blocked _ _ _ (by rw [armed_spsr]; exact h)]
    simp only [run_irqs_emit_spsr, run_irqs_spsr, armed_spsr]
    cases hi : w.irqs.getLast? with
    | none =>
      cases hl : w.late.getLast? with
      | none => simp [h, ETIMEDOUT, run_irqs_spsr, hi, armed_spsr]
      | some e =>
        by_cases he : e.spsr % 256 &&& wait_mask = 0 <;>
          simp [h, he, ETIMEDOUT, run_irqs_spsr, hi, armed_spsr]
    | some e =>
      by_cases he : e.spsr % 256 &&& wait_mask = 0
      · cases hl : w.late.getLast? with
        | none => simp [h, he, ETIMEDOUT, run_irqs_spsr, hi, armed_spsr]
        | some e' =>
          by_cases he' : e'.spsr % 256 &&& wait_mask = 0 <;>
            simp [h, he, he', ETIMEDOUT, run_irqs_spsr, hi, armed_spsr]
      · simp [h, he, ETIMEDOUT, run_irqs_spsr, hi, armed_spsr]
  · have h' : (rspi_read8 rspi RSPI_SPSR).1 &&& wait_mask ≠ 0 := by simpa [rspi_read8] using h
    simp [rspi_wait_for_interrupt, h', h, ETIMEDOUT]


theorem land_mod_clear (x m b : Nat) (h : m &&& b = 0) : (x &&& m) % 256 &&& b = 0 := by
  apply Nat.eq_of_testBit_eq
  intro i
  have hi := congrArg (fun n => n.testBit i) h
  have e : (256 : Nat) = 2 ^ 8 := by norm_num
  simp only [Nat.testBit_and, Nat.zero_testBit] at hi
  rw [e]
  simp only [Nat.testBit_and, Nat.testBit_mod_two_pow, Nat.zero_testBit]
  revert hi
  cases x.testBit i <;> cases m.testBit i <;> cases b.testBit i <;> simp

theorem lor_mod_keep (x b : Nat) : (x ||| b) % 256 &&& b = b % 256 := by
  apply Nat.eq_of_testBit_eq
  intro i
  have e : (256 : Nat) = 2 ^ 8 := by norm_num
  rw [e]
  simp only [Nat.testBit_and, Nat.testBit_or, Nat.testBit_mod_two_pow]
  cases x.testBit i <;> cases b.testBit i <;> simp

theorem rspi_disable_irq_spcr (rspi : rspi_data) (d : Nat) :
    (rspi_disable_irq rspi d).regs RSPI_SPCR
      = (rspi.regs RSPI_SPCR % 256 &&& (0xff ^^^ (d % 256))) % 256 := by
  simp [rspi_disable_irq, rspi_read8, rspi_write8, emit]

theorem rspi_irq_mux_tef (rspi : rspi_data) (hf : rspi.regs RSPI_SPSR % 256 &&& SPSR_SPTEF ≠ 0) :
    (rspi_irq_mux rspi).2.regs RSPI_SPCR &&& SPCR_SPTIE = 0 := by
  by_cases h1 : rspi.regs RSPI_SPSR % 256 &&& SPSR_SPRF = 0
  · simp only [rspi_irq_mux, rspi_read8, hf, h1, ne_eq, not_false_eq_true, not_true_eq_false,
      if_true, if_false]
    rw [if_pos (by decide)]
    show (rspi_disable_irq _ _).regs RSPI_SPCR &&& SPCR_SPTIE = 0
    rw [rspi_disable_irq_spcr]
    exact land_mod_clear _ _ _ (by decide)
  · simp only [rspi_irq_mux, rspi_read8, hf, h1, ne_eq, not_false_eq_true, not_true_eq_false,
      if_true, if_false]
    rw [if_pos (by decide)]
    show (rspi_disable_irq _ _).regs RSPI_SPCR &&& SPCR_SPTIE = 0
    rw [rspi_disable_irq_spcr]
    exact land_mod_clear _ _ _ (by decide)

theorem rspi_irq_mux_rf (rspi : rspi_data) (hf : rspi.regs RSPI_SPSR % 256 &&& SPSR_SPRF ≠ 0) :
    (rspi_irq_mux rspi).2.regs RSPI_SPCR &&& SPCR_SPRIE = 0 := by
  by_cases h1 : rspi.regs RSPI_SPSR % 256 &&& SPSR_SPTEF = 0
  · simp only [rspi_irq_mux, rspi_read8, hf, h1, ne_eq, not_false_eq_true, not_true_eq_false,
      if_true, if_false]
    rw [if_pos (by decide)]
    show (rspi_disable_irq _ _).regs RSPI_SPCR &&& SPCR_SPRIE = 0
    rw [rspi_disable_irq_spcr]
    exact land_mod_clear _ _ _ (by decide)
  · simp only [rspi_irq_mux, rspi_read8, hf, h1, ne_eq, not_false_eq_true, not_true_eq_false,
      if_true, if_false]
    rw [if_pos (by decide)]
    show (rspi_disable_irq _ _).regs RSPI_SPCR &&& SPCR_SPRIE = 0
    rw [rspi_disable_irq_spcr]
    exact land_mod_clear _ _ _ (by decide)

theorem rspi_irq_tx_tef (rspi : rspi_data) (hf : rspi.regs RSPI_SPSR % 256 &&& SPSR_SPTEF ≠ 0) :
    (rspi_irq_tx rspi).2.regs RSPI_SPCR &&& SPCR_SPTIE = 0 := by
  simp only [rspi_irq_tx, rspi_read8, hf, ne_eq, not_false_eq_true, if_true]
  show (rspi_disable_irq _ _).regs RSPI_SPCR &&& SPCR_SPTIE = 0
  rw [rspi_disable_irq_spcr]
  exact land_mod_clear _ _ _ (by decide)

theorem rspi_irq_rx_rf (rspi : rspi_data) (hf : rspi.regs RSPI_SPSR % 256 &&& SPSR_SPRF ≠ 0) :
    (rspi_irq_rx rspi).2.regs RSPI_SPCR &&& SPCR_SPRIE = 0 := by
  simp only [rspi_irq_rx, rspi_read8, hf, ne_eq, not_false_eq_true, if_true]
  show (rspi_disable_irq _ _).regs RSPI_SPCR &&& SPCR_SPRIE = 0
  rw [rspi_disable_irq_spcr]
  exact land_mod_clear _ _ _ (by decide)

theorem deliver_irq_clears_tx (rspi : rspi_data) (e : IrqEvent)
    (hl : rspi.rx_irq = rspi.tx_irq ∨ e.line = IrqLine.tx)
    (hf : e.spsr % 256 &&& SPSR_SPTEF ≠ 0) :
    (deliver_irq rspi e).regs RSPI_SPCR &&& SPCR_SPTIE = 0 := by
  unfold deliver_irq
  simp only
  split_ifs with h
  · exact rspi_irq_mux_tef _ (by simpa using hf)
  · rcases hl with hl | hl
    · exact absurd hl h
    · rw [hl]
      exact rspi_irq_tx_tef _ (by simpa using hf)

theorem deliver_irq_clears_rx (rspi : rspi_data) (e : IrqEvent)
    (hl : rspi.rx_irq = rspi.tx_irq ∨ e.line = IrqLine.rx)
    (hf : e.spsr % 256 &&& SPSR_SPRF ≠ 0) :
    (deliver_irq rspi e).regs RSPI_SPCR &&& SPCR_SPRIE = 0 := by
  unfold deliver_irq
  simp only
  split_ifs with h
  · exact rspi_irq_mux_rf _ (by simpa using hf)
  · rcases hl with hl | hl
    · exact absurd hl h
    · rw [hl]
      exact rspi_irq_rx_rf _ (by simpa using hf)

@[simp] theorem emit_regs (rspi : rspi_data) (ev : Event) : (emit rspi ev).regs = rspi.regs := rfl

theorem run_irqs_nil (rspi : rspi_data) : run_irqs rspi [] = rspi := rfl

theorem armed_regs_spcr (rspi : rspi_data) (enable_bit : Nat) :
    (armed rspi enable_bit).regs RSPI_SPCR = (rspi.regs RSPI_SPCR % 256 ||| enable_bit) % 256 := by
  simp [armed, rspi_enable_irq, rspi_read8, rspi_write8, emit]

theorem armed_lines (rspi : rspi_data) (enable_bit : Nat) :
    (armed rspi enable_bit).rx_irq = rspi.rx_irq ∧ (armed rspi enable_bit).tx_irq = rspi.tx_irq :=
  ⟨rfl, rfl⟩

/-- The register window when a blocked call returns with no late interrupt. -/
theorem wait_blocked_regs (rspi : rspi_data) (wait_mask enable_bit : Nat) (irqs : List IrqEvent)
    (h : rspi.regs RSPI_SPSR % 256 &&& wait_mask = 0) :
    (rspi_wait_for_interrupt rspi wait_mask enable_bit ⟨irqs, []⟩).2.regs =
      (run_irqs (armed rspi enable_bit) irqs).regs := by
  rw [wait_unfold_blocked rspi wait_mask enable_bit _ h,
    wait_event_timeout_blocked _ _ _ (by rw [armed_spsr]; exact h)]
  simp only [run_irqs_nil]
  split_ifs <;> rfl

/-- An early return of the waiter: the result and the state it leaves. -/
theorem wait_at_once (rspi : rspi_data) (wait_mask enable_bit : Nat) (w : WaitEnv)
    (h : rspi.regs RSPI_SPSR % 256 &&& wait_mask ≠ 0) :
    rspi_wait_for_interrupt rspi wait_mask enable_bit w =
      (0, { rspi with
              spsr := rspi.regs RSPI_SPSR % 256,
              trace := rspi.trace ++
                [Event.rd 8 RSPI_SPSR (rspi.regs RSPI_SPSR % 256), Event.waited 0] }) := by
  have h' : (rspi_read8 rspi RSPI_SPSR).1 &&& wait_mask ≠ 0 := by simpa [rspi_read8] using h
  simp only [rspi_wait_for_interrupt, if_pos h']
  simp [rspi_read8, emit]

/-- C5: when the status register already shows a bit of the mask at call time,
`rspi_wait_for_interrupt` returns 0 at once, whatever the interrupts around it
would be: the only thing it does is read the status register and cache the
value read; it does not write the control register or any other register, and
it does not sleep. -/
theorem wait_returns_at_once (rspi : rspi_data) (wait_mask enable_bit : Nat) (w : WaitEnv)
    (h : rspi.regs RSPI_SPSR % 256 &&& wait_mask ≠ 0) :
    rspi_wait_for_interrupt rspi wait_mask enable_bit w =
      (0, { rspi with
              spsr := rspi.regs RSPI_SPSR % 256,
              trace := rspi.trace ++
                [Event.rd 8 RSPI_SPSR (rspi.regs RSPI_SPSR % 256), Event.waited 0] }) ∧
    (rspi_wait_for_interrupt rspi wait_mask enable_bit w).1 = 0 ∧
    (rspi_wait_for_interrupt rspi wait_mask enable_bit w).2.spsr = rspi.regs RSPI_SPSR % 256 ∧
    (rspi_wait_for_interrupt rspi wait_mask enable_bit w).2.regs = rspi.regs ∧
    new_events rspi (rspi_wait_for_interrupt rspi wait_mask enable_bit w).2 =
      [Event.rd 8 RSPI_SPSR (rspi.regs RSPI_SPSR % 256), Event.waited 0] ∧
    (∀ width v, Event.wr width RSPI_SPCR v ∉
      new_events rspi (rspi_wait_for_interrupt rspi wait_mask enable_bit w).2) ∧
    (∀ r, Event.slept r ∉
      new_events rspi (rspi_wait_for_interrupt rspi wait_mask enable_bit w).2) := by
  have e := wait_at_once rspi wait_mask enable_bit w h
  have ev : new_events rspi (rspi_wait_for_interrupt rspi wait_mask enable_bit w).2 =
      [Event.rd 8 RSPI_SPSR (rspi.regs RSPI_SPSR % 256), Event.waited 0] := by
    rw [e]; exact new_events_eq _ _ _ rfl
  refine ⟨e, ?_, ?_, ?_, ev, ?_, ?_⟩
  · rw [e]
  · rw [e]
  · rw [e]
  · intro width v; rw [ev]; simp
  · intro r; rw [ev]; simp

theorem wait_returns_at_once_witness :
    rspi_wait_for_interrupt { rspi_reset Variant.rz with regs := poke (fun _ => 0) RSPI_SPSR 0xa0 }
        SPSR_SPTEF SPCR_SPTIE ⟨[⟨IrqLine.tx, 0x20⟩], []⟩ =
      (0, { rspi_reset Variant.rz with
              regs := poke (fun _ => 0) RSPI_SPSR 0xa0, spsr := 0xa0,
              trace := [Event.rd 8 RSPI_SPSR 0xa0, Event.waited 0] }) :=
  (wait_returns_at_once { rspi_reset Variant.rz with regs := poke (fun _ => 0) RSPI_SPSR 0xa0 }
    SPSR_SPTEF SPCR_SPTIE ⟨[⟨IrqLine.tx, 0x20⟩], []⟩ (by decide)).1

theorem wait_result_cases (rspi : rspi_data) (wait_mask enable_bit : Nat) (w : WaitEnv) :
    (rspi_wait_for_interrupt rspi wait_mask enable_bit w).1 = 0 ∨
      (rspi_wait_for_interrupt rspi wait_mask enable_bit w).1 = -ETIMEDOUT := by
  by_cases h : rspi.regs RSPI_SPSR % 256 &&& wait_mask = 0
  · rw [wait_unfold_blocked rspi wait_mask enable_bit w h]
    split_ifs
    · exact Or.inr rfl
    · exact Or.inl rfl
  · exact Or.inl (by rw [wait_at_once rspi wait_mask enable_bit w h])

/-- C4 (amended): `rspi_wait_for_interrupt` returns 0 or `-ETIMEDOUT`, and
`-ETIMEDOUT` exactly when no sample of the status register shows a bit of the
mask (at call time, at the end of the wait, before the waiter looks again); in
particular it times out when the flag never becomes set.  The waiter itself
only ever sets the interrupt enable bit: after a timeout during which no
interrupt was served the control register holds the old value OR the enable
bit (the bit is still set); when the wait ends with the interrupt of the awaited
flag (transmit-empty with `SPCR_SPTIE` served by `rspi_irq_tx` or
`rspi_irq_mux`, receive-full with `SPCR_SPRIE` served by `rspi_irq_rx` or
`rspi_irq_mux`) the handler has cleared the bit and the call succeeds; on
immediate success the register window is untouched. -/
theorem wait_timeout_and_enable_bit (rspi : rspi_data) (wait_mask enable_bit : Nat)
    (w : WaitEnv) :
    ((rspi_wait_for_interrupt rspi wait_mask enable_bit w).1 = 0 ∨
      (rspi_wait_for_interrupt rspi wait_mask enable_bit w).1 = -ETIMEDOUT) ∧
    ((rspi_wait_for_interrupt rspi wait_mask enable_bit w).1 = -ETIMEDOUT ↔
      (rspi.regs RSPI_SPSR % 256 &&& wait_mask = 0 ∧
        (∀ e, w.irqs.getLast? = some e → e.spsr % 256 &&& wait_mask = 0) ∧
        (∀ e, w.late.getLast? = some e → e.spsr % 256 &&& wait_mask = 0))) ∧
    (rspi.regs RSPI_SPSR % 256 &&& wait_mask = 0 →
      (∀ e ∈ w.irqs ++ w.late, e.spsr % 256 &&& wait_mask = 0) →
      (rspi_wait_for_interrupt rspi wait_mask enable_bit w).1 = -ETIMEDOUT) ∧
    (rspi.regs RSPI_SPSR % 256 &&& wait_mask = 0 →
      (rspi_wait_for_interrupt rspi wait_mask enable_bit quiet).1 = -ETIMEDOUT ∧
      (rspi_wait_for_interrupt rspi wait_mask enable_bit quiet).2.regs RSPI_SPCR =
        (rspi.regs RSPI_SPCR % 256 ||| enable_bit) % 256 ∧
      (rspi_wait_for_interrupt rspi wait_mask enable_bit quiet).2.regs RSPI_SPCR &&& enable_bit =
        enable_bit % 256) ∧
    (∀ irqs e, rspi.regs RSPI_SPSR % 256 &&& SPSR_SPTEF = 0 →
      (rspi.rx_irq = rspi.tx_irq ∨ e.line = IrqLine.tx) → e.spsr % 256 &&& SPSR_SPTEF ≠ 0 →
      (rspi_wait_for_interrupt rspi SPSR_SPTEF SPCR_SPTIE ⟨irqs ++ [e], []⟩).1 = 0 ∧
      (rspi_wait_for_interrupt rspi SPSR_SPTEF SPCR_SPTIE ⟨irqs ++ [e], []⟩).2.regs RSPI_SPCR
        &&& SPCR_SPTIE = 0) ∧
    (∀ irqs e, rspi.regs RSPI_SPSR % 256 &&& SPSR_SPRF = 0 →
      (rspi.rx_irq = rspi.tx_irq ∨ e.line = IrqLine.rx) → e.spsr % 256 &&& SPSR_SPRF ≠ 0 →
      (rspi_wait_for_interrupt rspi SPSR_SPRF SPCR_SPRIE ⟨irqs ++ [e], []⟩).1 = 0 ∧
      (rspi_wait_for_interrupt rspi SPSR_SPRF SPCR_SPRIE ⟨irqs ++ [e], []⟩).2.regs RSPI_SPCR
        &&& SPCR_SPRIE = 0) ∧
    (rspi.regs RSPI_SPSR % 256 &&& wait_mask ≠ 0 →
      (rspi_wait_for_interrupt rspi wait_mask enable_bit w).2.regs = rspi.regs) := by
  have hiff := wait_timeout_iff rspi wait_mask enable_bit
  refine ⟨wait_result_cases rspi wait_mask enable_bit w, hiff w, ?_, ?_, ?_, ?_, ?_⟩
  · intro h0 hq
    rw [hiff w]
    refine ⟨h0, fun e he => hq e ?_, fun e he => hq e ?_⟩
    · exact List.mem_append_left _ (List.mem_of_getLast?_eq_some he)
    · exact List.mem_append_right _ (List.mem_of_getLast?_eq_some he)
  · intro h0
    have hr := wait_blocked_regs rspi wait_mask enable_bit [] h0
    have hq : (⟨[], []⟩ : WaitEnv) = quiet := rfl
    rw [hq, run_irqs_nil] at hr
    refine ⟨(hiff quiet).2 ⟨h0, by simp [quiet], by simp [quiet]⟩, ?_, ?_⟩
    · rw [hr, armed_regs_spcr]
    · rw [hr, armed_regs_spcr, lor_mod_keep]
  · intro irqs e h0 hl hf
    have hr := wait_blocked_regs rspi SPSR_SPTEF SPCR_SPTIE (irqs ++ [e]) h0
    constructor
    · have hno := mt (wait_timeout_iff rspi SPSR_SPTEF SPCR_SPTIE ⟨irqs ++ [e], []⟩).1
        (by simp only [List.getLast?_append, List.getLast?_singleton]; simp [hf])
      rcases wait_result_cases rspi SPSR_SPTEF SPCR_SPTIE ⟨irqs ++ [e], []⟩ with h | h
      · exact h
      · exact absurd h hno
    · rw [hr, run_irqs_append]
      have hl' := run_irqs_lines irqs (armed rspi SPCR_SPTIE)
      exact deliver_irq_clears_tx _ e (by
        rcases hl with hl | hl
        · left; rw [hl'.1, hl'.2]; exact hl
        · right; exact hl) hf
  · intro irqs e h0 hl hf
    have hr := wait_blocked_regs rspi SPSR_SPRF SPCR_SPRIE (irqs ++ [e]) h0
    constructor
    · have hno := mt (wait_timeout_iff rspi SPSR_SPRF SPCR_SPRIE ⟨irqs ++ [e], []⟩).1
        (by simp only [List.getLast?_append, List.getLast?_singleton]; simp [hf])
      rcases wait_result_cases rspi SPSR_SPRF SPCR_SPRIE ⟨irqs ++ [e], []⟩ with h | h
      · exact h
      · exact absurd h hno
    · rw [hr, run_irqs_append]
      have hl' := run_irqs_lines irqs (armed rspi SPCR_SPRIE)
      exact deliver_irq_clears_rx _ e (by
        rcases hl with hl | hl
        · left; rw [hl'.1, hl'.2]; exact hl
        · right; exact hl) hf
  · intro h
    rw [wait_at_once rspi wait_mask enable_bit w h]

/-- C4 (counterexample): the flag never shows and no interrupt is served; the
call times out and returns with the transmit interrupt enable bit set in the
control register, where it was clear before the call. -/
theorem timeout_leaves_enable_bit_set :
    (rspi_reset Variant.legacy).regs RSPI_SPCR &&& SPCR_SPTIE = 0 ∧
    (rspi_wait_for_interrupt (rspi_reset Variant.legacy) SPSR_SPTEF SPCR_SPTIE quiet).1
      = -ETIMEDOUT ∧
    (rspi_wait_for_interrupt (rspi_reset Variant.legacy) SPSR_SPTEF SPCR_SPTIE quiet).2.regs
      RSPI_SPCR &&& SPCR_SPTIE = SPCR_SPTIE ∧
    SPCR_SPTIE ≠ 0 := by
  refine ⟨by decide, by decide, by decide, by decide⟩


theorem wait_woken_example :
    (rspi_wait_for_interrupt (rspi_reset Variant.legacy) SPSR_SPTEF SPCR_SPTIE
        ⟨[⟨IrqLine.rx, 0x80⟩] ++ [⟨IrqLine.tx, 0x20⟩], []⟩).1 = 0 ∧
    (rspi_wait_for_interrupt (rspi_reset Variant.legacy) SPSR_SPTEF SPCR_SPTIE
        ⟨[⟨IrqLine.rx, 0x80⟩] ++ [⟨IrqLine.tx, 0x20⟩], []⟩).2.regs RSPI_SPCR
      &&& SPCR_SPTIE = 0 :=
  (wait_timeout_and_enable_bit (rspi_reset Variant.legacy) SPSR_SPTEF SPCR_SPTIE quiet).2.2.2.2.1
    [⟨IrqLine.rx, 0x80⟩] ⟨IrqLine.tx, 0x20⟩ (by decide) (Or.inr rfl) (by decide)

theorem noise_nil : Noise [] := by simp [Noise]

theorem noise_append {a b : List Event} (ha : Noise a) (hb : Noise b) : Noise (a ++ b) := by
  intro e he
  rcases List.mem_append.1 he with h | h
  · exact ha e h
  · exact hb e h

theorem noise_writes {W : List Event} (h : Noise W) : writes_to RSPI_SPDR W = [] := by
  unfold writes_to
  rw [List.filterMap_eq_nil_iff]
  intro e he
  have := h e he
  cases e <;> simp_all [pio_visible, wr_value]

theorem noise_reads {W : List Event} (h : Noise W) : reads_from RSPI_SPDR W = [] := by
  unfold reads_from
  rw [List.filterMap_eq_nil_iff]
  intro e he
  have := h e he
  cases e <;> simp_all [pio_visible, rd_value]

theorem noise_waited {W : List Event} (h : Noise W) (r : Int) : Event.waited r ∉ W := by
  intro he
  have := h _ he
  simp [pio_visible] at this

theorem writes_to_append (off : Nat) (a b : List Event) :
    writes_to off (a ++ b) = writes_to off a ++ writes_to off b := by
  simp [writes_to, List.filterMap_append]

theorem reads_from_append (off : Nat) (a b : List Event) :
    reads_from off (a ++ b) = reads_from off a ++ reads_from off b := by
  simp [reads_from, List.filterMap_append]

theorem rspi_disable_irq_trace (rspi : rspi_data) (d : Nat) :
    ∃ W, Noise W ∧ (rspi_disable_irq rspi d).trace = rspi.trace ++ W := by
  refine ⟨[Event.rd 8 RSPI_SPCR (rspi.regs RSPI_SPCR % 256),
    Event.wr 8 RSPI_SPCR ((rspi.regs RSPI_SPCR % 256 &&& (0xff ^^^ (d % 256))) % 256)], ?_, ?_⟩
  · intro e he
    simp at he
    rcases he with rfl | rfl <;> rfl
  · simp [rspi_disable_irq, rspi_read8, rspi_write8, emit]

theorem rspi_enable_irq_trace (rspi : rspi_data) (d : Nat) :
    ∃ W, Noise W ∧ (rspi_enable_irq rspi d).trace = rspi.trace ++ W := by
  refine ⟨[Event.rd 8 RSPI_SPCR (rspi.regs RSPI_SPCR % 256),
    Event.wr 8 RSPI_SPCR ((rspi.regs RSPI_SPCR % 256 ||| d) % 256)], ?_, ?_⟩
  · intro e he
    simp at he
    rcases he with rfl | rfl <;> rfl
  · simp [rspi_enable_irq, rspi_read8, rspi_write8, emit]

theorem noise_rd_spsr (v : Nat) : Noise [Event.rd 8 RSPI_SPSR v] := by
  intro e he
  simp at he
  subst he
  rfl

theorem noise_wake : Noise [Event.wake_up] := by
  intro e he
  simp at he
  subst he
  rfl

theorem noise_slept (r : Nat) : Noise [Event.slept r] := by
  intro e he
  simp at he
  subst he
  rfl

/-- A handler body: status cached, then possibly one enable bit dropped and the
waiters woken. -/
theorem handler_trace (rspi : rspi_data) (v d : Nat) (c : Prop) [Decidable c] (a b : Nat) :
    ∃ W, Noise W ∧
      (if c then (a, emit (rspi_disable_irq
          { (rspi_read8 rspi RSPI_SPSR).2 with spsr := v } d) Event.wake_up)
        else (b, { (rspi_read8 rspi RSPI_SPSR).2 with spsr := v })).2.trace
        = rspi.trace ++ W := by
  split_ifs
  · obtain ⟨W, hW, hT⟩ := rspi_disable_irq_trace
      { (rspi_read8 rspi RSPI_SPSR).2 with spsr := v } d
    refine ⟨[Event.rd 8 RSPI_SPSR (rspi.regs RSPI_SPSR % 256)] ++ W ++ [Event.wake_up],
      noise_append (noise_append (noise_rd_spsr _) hW) noise_wake, ?_⟩
    simp only [emit_trace, hT]
    simp [rspi_read8, emit]
  · exact ⟨[Event.rd 8 RSPI_SPSR (rspi.regs RSPI_SPSR % 256)], noise_rd_spsr _, rfl⟩

theorem deliver_irq_trace (rspi : rspi_data) (e : IrqEvent) :
    ∃ W, Noise W ∧ (deliver_irq rspi e).trace = rspi.trace ++ W := by
  unfold deliver_irq
  simp only
  split_ifs with h
  · exact handler_trace _ _ _ _ _ _
  · cases e.line
    · exact handler_trace _ _ _ _ _ _
    · exact handler_trace _ _ _ _ _ _

theorem run_irqs_trace (irqs : List IrqEvent) :
    ∀ rspi : rspi_data, ∃ W, Noise W ∧ (run_irqs rspi irqs).trace = rspi.trace ++ W := by
  induction irqs with
  | nil => intro rspi; exact ⟨[], noise_nil, by simp [run_irqs]⟩
  | cons e es ih =>
    intro rspi
    obtain ⟨W1, h1, t1⟩ := deliver_irq_trace rspi e
    obtain ⟨W2, h2, t2⟩ := ih (deliver_irq rspi e)
    refine ⟨W1 ++ W2, noise_append h1 h2, ?_⟩
    simp only [run_irqs, List.foldl_cons] at t2 ⊢
    rw [t2, t1, List.append_assoc]

theorem wait_event_timeout_trace (rspi : rspi_data) (mask : Nat) (irqs : List IrqEvent) :
    ∃ W, Noise W ∧ (wait_event_timeout rspi mask irqs).2.trace = rspi.trace ++ W := by
  unfold wait_event_timeout
  split_ifs
  · exact ⟨[], noise_nil, by simp⟩
  · obtain ⟨W, hW, hT⟩ := run_irqs_trace irqs rspi
    exact ⟨W ++ [Event.slept (if (run_irqs rspi irqs).spsr &&& mask ≠ 0 then 1 else 0)],
      noise_append hW (noise_slept _), by simp only [emit_trace, hT, List.append_assoc]⟩

/-- What a call of `rspi_wait_for_interrupt` adds to the trace: noise, then the
record of its own return. -/
theorem wait_trace (rspi : rspi_data) (wait_mask enable_bit : Nat) (w : WaitEnv) :
    ∃ W, Noise W ∧
      (rspi_wait_for_interrupt rspi wait_mask enable_bit w).2.trace =
        rspi.trace ++ W ++
          [Event.waited (rspi_wait_for_interrupt rspi wait_mask enable_bit w).1] := by
  by_cases h : rspi.regs RSPI_SPSR % 256 &&& wait_mask = 0
  · obtain ⟨W1, h1, t1⟩ := rspi_enable_irq_trace
      { (rspi_read8 rspi RSPI_SPSR).2 with spsr := (rspi_read8 rspi RSPI_SPSR).1 } enable_bit
    obtain ⟨W2, h2, t2⟩ := wait_event_timeout_trace (armed rspi enable_bit) wait_mask w.irqs
    obtain ⟨W3, h3, t3⟩ := run_irqs_trace w.late
      (wait_event_timeout (armed rspi enable_bit) wait_mask w.irqs).2
    refine ⟨[Event.rd 8 RSPI_SPSR (rspi.regs RSPI_SPSR % 256)] ++ W1 ++ W2 ++ W3,
      noise_append (noise_append (noise_append (noise_rd_spsr _) h1) h2) h3, ?_⟩
    rw [wait_unfold_blocked rspi wait_mask enable_bit w h]
    have t1' : (armed rspi enable_bit).trace =
        rspi.trace ++ [Event.rd 8 RSPI_SPSR (rspi.regs RSPI_SPSR % 256)] ++ W1 := by
      rw [armed, t1]; simp [rspi_read8, emit]
    split_ifs <;> simp only [emit_trace, t3, t2, t1', List.append_assoc]
  · have := wait_at_once rspi wait_mask enable_bit w h
    rw [this]
    exact ⟨[Event.rd 8 RSPI_SPSR (rspi.regs RSPI_SPSR % 256)], noise_rd_spsr _, by simp⟩

theorem hw_step_trace (rspi : rspi_data) (st : Option HwStep) :
    (hw_step rspi st).trace = rspi.trace := by
  cases st with
  | none => rfl
  | some s => rfl

theorem ends_of_noise {W : List Event} (h : Noise W) :
    ends_at_first_timeout (W ++ [Event.waited (-ETIMEDOUT)]) :=
  ⟨W, rfl, noise_waited h _⟩

theorem waited_ok_not_timeout : Event.waited 0 ≠ Event.waited (-ETIMEDOUT) := by decide

theorem rspi_write_data_trace (rspi : rspi_data) (d : Nat) :
    ∃ width, (rspi_write_data rspi (d % 256)).trace =
      rspi.trace ++ [Event.wr width RSPI_SPDR (d % 256)] := by
  by_cases hb : rspi.byte_access = true
  · exact ⟨8, by simp only [rspi_write_data, if_pos hb, rspi_write8_trace, Nat.mod_mod]⟩
  · refine ⟨16, ?_⟩
    have : d % 256 % 65536 = d % 256 := by omega
    simp only [rspi_write_data, if_neg hb, rspi_write16_trace, this]

theorem rspi_read_data_trace (rspi : rspi_data) :
    ∃ width, (rspi_read_data rspi).2.trace =
      rspi.trace ++ [Event.rd width RSPI_SPDR (rspi_read_data rspi).1] := by
  by_cases hb : rspi.byte_access = true
  · exact ⟨8, by simp only [rspi_read_data, if_pos hb, rspi_read8, emit_trace]⟩
  · exact ⟨16, by simp only [rspi_read_data, if_neg hb, rspi_read16, emit_trace]⟩

theorem mem_tail_two {W : List Event} {a b : Event} (hW : Noise W)
    (ha : a ≠ Event.waited (-ETIMEDOUT)) (hb : b ≠ Event.waited (-ETIMEDOUT)) :
    Event.waited (-ETIMEDOUT) ∉ W ++ [a, b] := by
  intro hm
  rcases List.mem_append.1 hm with hm | hm
  · exact noise_waited hW _ hm
  · simp only [List.mem_cons, List.mem_singleton, List.not_mem_nil, or_false] at hm
    rcases hm with hm | hm
    · exact ha hm.symm
    · exact hb hm.symm

/-- One call of `rspi_data_out`: either the wait succeeds and the unit is
written, or the wait times out and nothing is written. -/
theorem data_out_spec (rspi : rspi_data) (data : Nat) (st : Option HwStep) :
    ∃ E, (rspi_data_out rspi data st).2.trace = rspi.trace ++ E ∧
      reads_from RSPI_SPDR E = [] ∧
      (((rspi_data_out rspi data st).1 = 0 ∧ writes_to RSPI_SPDR E = [data % 256] ∧
          Event.waited (-ETIMEDOUT) ∉ E) ∨
        ((rspi_data_out rspi data st).1 = -ETIMEDOUT ∧ writes_to RSPI_SPDR E = [] ∧
          ends_at_first_timeout E)) := by
  obtain ⟨W, hW, hT⟩ := wait_trace (hw_step rspi st) SPSR_SPTEF SPCR_SPTIE (step_wait st)
  rw [hw_step_trace] at hT
  rcases wait_result_cases (hw_step rspi st) SPSR_SPTEF SPCR_SPTIE (step_wait st) with h | h
  · rw [h] at hT
    have hlt : ¬ ((rspi_wait_for_tx_empty rspi st).1 < 0) := by
      simp only [rspi_wait_for_tx_empty, h]; decide
    have e : rspi_data_out rspi data st =
        (0, rspi_write_data (rspi_wait_for_tx_empty rspi st).2 (data % 256)) := by
      simp only [rspi_data_out, if_neg hlt]
    obtain ⟨width, hw⟩ := rspi_write_data_trace (rspi_wait_for_tx_empty rspi st).2 data
    rw [e]
    refine ⟨W ++ [Event.waited 0, Event.wr width RSPI_SPDR (data % 256)], ?_, ?_,
      Or.inl ⟨rfl, ?_, ?_⟩⟩
    · show (rspi_write_data _ _).trace = _
      rw [hw]
      show (rspi_wait_for_interrupt _ _ _ _).2.trace ++ _ = _
      rw [hT]; simp
    · rw [reads_from_append, noise_reads hW]; rfl
    · rw [writes_to_append, noise_writes hW]
      simp [writes_to, wr_value]
    · exact mem_tail_two hW (by decide) (by simp)
  · rw [h] at hT
    have hlt : (rspi_wait_for_tx_empty rspi st).1 < 0 := by
      simp only [rspi_wait_for_tx_empty, h]; decide
    have e : rspi_data_out rspi data st =
        ((rspi_wait_for_tx_empty rspi st).1, (rspi_wait_for_tx_empty rspi st).2) := by
      simp only [rspi_data_out, if_pos hlt]
    rw [e]
    refine ⟨W ++ [Event.waited (-ETIMEDOUT)], ?_, ?_, Or.inr ⟨h, ?_, ends_of_noise hW⟩⟩
    · show (rspi_wait_for_interrupt _ _ _ _).2.trace = _
      rw [hT]; simp
    · rw [reads_from_append, noise_reads hW]; rfl
    · rw [writes_to_append, noise_writes hW]; rfl

/-- One call of `rspi_data_in`: either the wait succeeds and one unit is read
and returned as a byte, or the wait times out and nothing is read. -/
theorem data_in_spec (rspi : rspi_data) (st : Option HwStep) :
    ∃ E, (rspi_data_in rspi st).2.trace = rspi.trace ++ E ∧
      writes_to RSPI_SPDR E = [] ∧
      ((∃ v, (rspi_data_in rspi st).1 = ((v % 256 : Nat) : Int) ∧
          reads_from RSPI_SPDR E = [v] ∧ Event.waited (-ETIMEDOUT) ∉ E) ∨
        ((rspi_data_in rspi st).1 = -ETIMEDOUT ∧ reads_from RSPI_SPDR E = [] ∧
          ends_at_first_timeout E)) := by
  obtain ⟨W, hW, hT⟩ := wait_trace (hw_step rspi st) SPSR_SPRF SPCR_SPRIE (step_wait st)
  rw [hw_step_trace] at hT
  rcases wait_result_cases (hw_step rspi st) SPSR_SPRF SPCR_SPRIE (step_wait st) with h | h
  · rw [h] at hT
    have hlt : ¬ ((rspi_wait_for_rx_full rspi st).1 < 0) := by
      simp only [rspi_wait_for_rx_full, h]; decide
    have e : rspi_data_in rspi st =
        ((((rspi_read_data (rspi_wait_for_rx_full rspi st).2).1 % 256 : Nat) : Int),
          (rspi_read_data (rspi_wait_for_rx_full rspi st).2).2) := by
      simp only [rspi_data_in, if_neg hlt]
    obtain ⟨width, hw⟩ := rspi_read_data_trace (rspi_wait_for_rx_full rspi st).2
    rw [e]
    refine ⟨W ++ [Event.waited 0,
        Event.rd width RSPI_SPDR (rspi_read_data (rspi_wait_for_rx_full rspi st).2).1], ?_, ?_,
      Or.inl ⟨(rspi_read_data (rspi_wait_for_rx_full rspi st).2).1, rfl, ?_, ?_⟩⟩
    · show (rspi_read_data _).2.trace = _
      rw [hw]
      show (rspi_wait_for_interrupt _ _ _ _).2.trace ++ _ = _
      rw [hT]; simp
    · rw [writes_to_append, noise_writes hW]; rfl
    · rw [reads_from_append, noise_reads hW]
      simp [reads_from, rd_value]
    · exact mem_tail_two hW (by decide) (by simp)
  · rw [h] at hT
    have hlt : (rspi_wait_for_rx_full rspi st).1 < 0 := by
      simp only [rspi_wait_for_rx_full, h]; decide
    have e : rspi_data_in rspi st =
        ((rspi_wait_for_rx_full rspi st).1, (rspi_wait_for_rx_full rspi st).2) := by
      simp only [rspi_data_in, if_pos hlt]
    rw [e]
    refine ⟨W ++ [Event.waited (-ETIMEDOUT)], ?_, ?_, Or.inr ⟨h, ?_, ends_of_noise hW⟩⟩
    · show (rspi_wait_for_interrupt _ _ _ _).2.trace = _
      rw [hT]; simp
    · rw [writes_to_append, noise_writes hW]; rfl
    · rw [reads_from_append, noise_reads hW]; rfl

theorem tx_half_spec (tx : Option (List Nat)) (i : Nat) (rspi : rspi_data)
    (rx : Option (List Nat)) (script : List HwStep) :
    (pio_tx_half tx i rspi rx script).rx = rx ∧
    ∃ E, (pio_tx_half tx i rspi rx script).rspi.trace = rspi.trace ++ E ∧
      reads_from RSPI_SPDR E = [] ∧
      (((pio_tx_half tx i rspi rx script).ret = 0 ∧ Event.waited (-ETIMEDOUT) ∉ E ∧
          writes_to RSPI_SPDR E = tx_unit tx i) ∨
        ((pio_tx_half tx i rspi rx script).ret = -ETIMEDOUT ∧ tx.isSome ∧
          writes_to RSPI_SPDR E = [] ∧ ends_at_first_timeout E)) := by
  cases tx with
  | none =>
    exact ⟨rfl, [], by simp [pio_tx_half], rfl, Or.inl ⟨rfl, by simp, rfl⟩⟩
  | some t =>
    obtain ⟨E, hT, hR, h⟩ := data_out_spec rspi (t.getD i 0) script.head?
    refine ⟨rfl, E, hT, hR, ?_⟩
    rcases h with ⟨h1, h2, h3⟩ | ⟨h1, h2, h3⟩
    · exact Or.inl ⟨h1, h3, h2⟩
    · exact Or.inr ⟨h1, rfl, h2, h3⟩

theorem rx_half_spec (i : Nat) (rspi : rspi_data) (rx : Option (List Nat))
    (script : List HwStep) :
    ∃ E, (pio_rx_half i rspi rx script).rspi.trace = rspi.trace ++ E ∧
      writes_to RSPI_SPDR E = [] ∧
      (((pio_rx_half i rspi rx script).ret = 0 ∧ Event.waited (-ETIMEDOUT) ∉ E ∧
          ((rx = none ∧ reads_from RSPI_SPDR E = [] ∧ (pio_rx_half i rspi rx script).rx = none) ∨
            (∃ r v, rx = some r ∧ reads_from RSPI_SPDR E = [v] ∧
              (pio_rx_half i rspi rx script).rx = some (r.set i (v % 256))))) ∨
        ((pio_rx_half i rspi rx script).ret = -ETIMEDOUT ∧ rx.isSome ∧
          reads_from RSPI_SPDR E = [] ∧ (pio_rx_half i rspi rx script).rx = rx ∧
          ends_at_first_timeout E)) := by
  cases rx with
  | none =>
    exact ⟨[], by simp [pio_rx_half], rfl, Or.inl ⟨rfl, by simp, Or.inl ⟨rfl, rfl, rfl⟩⟩⟩
  | some r =>
    obtain ⟨E, hT, hW, h⟩ := data_in_spec rspi script.head?
    rcases h with ⟨v, h1, h2, h3⟩ | ⟨h1, h2, h3⟩
    · have hlt : ¬ ((rspi_data_in rspi script.head?).1 < 0) := by rw [h1]; omega
      have e : pio_rx_half i rspi (some r) script =
          ⟨0, (rspi_data_in rspi script.head?).2,
            some (r.set i (rspi_data_in rspi script.head?).1.toNat), script.tail⟩ := by
        simp only [pio_rx_half, if_neg hlt]
      rw [e]
      refine ⟨E, hT, hW, Or.inl ⟨rfl, h3, Or.inr ⟨r, v, rfl, h2, ?_⟩⟩⟩
      rw [h1]; rfl
    · have hlt : (rspi_data_in rspi script.head?).1 < 0 := by rw [h1]; decide
      have e : pio_rx_half i rspi (some r) script =
          ⟨(rspi_data_in rspi script.head?).1, (rspi_data_in rspi script.head?).2,
            some r, script.tail⟩ := by
        simp only [pio_rx_half, if_pos hlt]
      rw [e]
      exact ⟨E, hT, hW, Or.inr ⟨h1, rfl, h2, rfl, h3⟩⟩

theorem take_succ_set (r : List Nat) (i v : Nat) (h : i < r.length) :
    (r.set i v).take (i + 1) = r.take i ++ [v] := by
  induction r generalizing i with
  | nil => simp at h
  | cons a r ih =>
    cases i with
    | zero => simp
    | succ i =>
      simp only [List.length_cons, Nat.add_lt_add_iff_right] at h
      simp [ih i h]

theorem drop_succ_set (r : List Nat) (i v k : Nat) :
    (r.set i v).drop (i + 1 + k) = r.drop (i + 1 + k) := by
  rw [List.drop_set_of_lt]
  omega

theorem drop_take_one (t : List Nat) (i k : Nat) (h : i < t.length) :
    ((t.drop i).take (k + 1)).map (fun b => b % 256) =
      (t.getD i 0 % 256) :: ((t.drop (i + 1)).take k).map (fun b => b % 256) := by
  rw [List.drop_eq_getElem_cons h, List.take_succ_cons, List.map_cons,
    List.getD_eq_getElem _ _ h]

theorem pio_loop_zero (tx : Option (List Nat)) (i : Nat) (rspi : rspi_data)
    (rx : Option (List Nat)) (script : List HwStep) :
    rspi_pio_loop tx 0 i rspi rx script = ⟨0, rspi, rx, script⟩ := rfl

theorem pio_loop_succ (tx : Option (List Nat)) (n i : Nat) (rspi : rspi_data)
    (rx : Option (List Nat)) (script : List HwStep) :
    rspi_pio_loop tx (n + 1) i rspi rx script =
      if (pio_tx_half tx i rspi rx script).ret < 0 then pio_tx_half tx i rspi rx script
      else if (pio_rx_half i (pio_tx_half tx i rspi rx script).rspi
          (pio_tx_half tx i rspi rx script).rx (pio_tx_half tx i rspi rx script).script).ret < 0
        then pio_rx_half i (pio_tx_half tx i rspi rx script).rspi
          (pio_tx_half tx i rspi rx script).rx (pio_tx_half tx i rspi rx script).script
      else rspi_pio_loop tx n (i + 1)
        (pio_rx_half i (pio_tx_half tx i rspi rx script).rspi
          (pio_tx_half tx i rspi rx script).rx (pio_tx_half tx i rspi rx script).script).rspi
        (pio_rx_half i (pio_tx_half tx i rspi rx script).rspi
          (pio_tx_half tx i rspi rx script).rx (pio_tx_half tx i rspi rx script).script).rx
        (pio_rx_half i (pio_tx_half tx i rspi rx script).rspi
          (pio_tx_half tx i rspi rx script).rx (pio_tx_half tx i rspi rx script).script).script := by
  rfl

theorem pio_loop_ret_cases (tx : Option (List Nat)) :
    ∀ (n i : Nat) (rspi : rspi_data) (rx : Option (List Nat)) (script : List HwStep),
      (rspi_pio_loop tx n i rspi rx script).ret = 0 ∨
        (rspi_pio_loop tx n i rspi rx script).ret = -ETIMEDOUT := by
  intro n
  induction n with
  | zero => intro i rspi rx script; exact Or.inl rfl
  | succ n ih =>
    intro i rspi rx script
    rw [pio_loop_succ]
    obtain ⟨_, E1, _, _, h1⟩ := tx_half_spec tx i rspi rx script
    generalize pio_tx_half tx i rspi rx script = o at h1 ⊢
    rcases h1 with ⟨hret1, _⟩ | ⟨hret1, _⟩
    · rw [if_neg (by rw [hret1]; decide)]
      obtain ⟨E2, _, _, h2⟩ := rx_half_spec i o.rspi o.rx o.script
      generalize pio_rx_half i o.rspi o.rx o.script = d at h2 ⊢
      rcases h2 with ⟨hret2, _⟩ | ⟨hret2, _⟩
      · rw [if_neg (by rw [hret2]; decide)]
        exact ih _ _ _ _
      · rw [if_pos (by rw [hret2]; decide)]
        exact Or.inr hret2
    · rw [if_pos (by rw [hret1]; decide)]
      exact Or.inr hret1

theorem pio_transfer_ret_cases (rspi : rspi_data) (tx rx : Option (List Nat)) (n : Nat)
    (script : List HwStep) :
    (rspi_pio_transfer rspi tx rx n script).ret = 0 ∨
      (rspi_pio_transfer rspi tx rx n script).ret = -ETIMEDOUT :=
  pio_loop_ret_cases tx n 0 rspi rx script

theorem hw_step_loopback (rspi : rspi_data) (o : Option HwStep) (hr : Ready rspi)
    (ho : ∀ st, o = some st → LoopbackStep st) :
    Ready (hw_step rspi o) ∧ (hw_step rspi o).regs RSPI_SPDR = rspi.regs RSPI_SPDR ∧
      (hw_step rspi o).byte_access = rspi.byte_access := by
  cases o with
  | none => exact ⟨hr, rfl, rfl⟩
  | some st =>
    obtain ⟨h1, h2, h3⟩ := ho st rfl
    refine ⟨?_, ?_, rfl⟩
    · simp only [Ready, hw_step, h3, poke_same]
      exact ⟨h1, h2⟩
    · simp only [hw_step, h3]
      exact poke_other _ _ _ _ (by decide)

theorem data_out_loopback (rspi : rspi_data) (d : Nat) (o : Option HwStep) (hr : Ready rspi)
    (ho : ∀ st, o = some st → LoopbackStep st) :
    (rspi_data_out rspi d o).1 = 0 ∧ (rspi_data_out rspi d o).2.regs RSPI_SPDR = d % 256 ∧
      Ready (rspi_data_out rspi d o).2 := by
  obtain ⟨h1, _, _⟩ := hw_step_loopback rspi o hr ho
  have hw := wait_at_once (hw_step rspi o) SPSR_SPTEF SPCR_SPTIE (step_wait o) h1.1
  have e : rspi_data_out rspi d o =
      (0, rspi_write_data (rspi_wait_for_tx_empty rspi o).2 (d % 256)) := by
    have hlt : ¬ ((rspi_wait_for_tx_empty rspi o).1 < 0) := by
      simp only [rspi_wait_for_tx_empty, hw]; decide
    simp only [rspi_data_out, if_neg hlt]
  rw [e]
  refine ⟨rfl, ?_, ?_⟩ <;> simp only [rspi_wait_for_tx_empty, hw, rspi_write_data]
  · split_ifs
    · simp [rspi_write8]
    · simp only [rspi_write16, poke_same]; omega
  · split_ifs
    · simp only [Ready, rspi_write8]
      rw [poke_other _ _ _ _ (by decide)]
      exact h1
    · simp only [Ready, rspi_write16]
      rw [poke_other _ _ _ _ (by decide)]
      exact h1

theorem data_in_loopback (rspi : rspi_data) (o : Option HwStep) (hr : Ready rspi)
    (ho : ∀ st, o = some st → LoopbackStep st) :
    (rspi_data_in rspi o).1 = ((rspi.regs RSPI_SPDR % 256 : Nat) : Int) ∧
      Ready (rspi_data_in rspi o).2 := by
  obtain ⟨h1, h2, _⟩ := hw_step_loopback rspi o hr ho
  have hw := wait_at_once (hw_step rspi o) SPSR_SPRF SPCR_SPRIE (step_wait o) h1.2
  have e : rspi_data_in rspi o =
      ((((rspi_read_data (rspi_wait_for_rx_full rspi o).2).1 % 256 : Nat) : Int),
        (rspi_read_data (rspi_wait_for_rx_full rspi o).2).2) := by
    have hlt : ¬ ((rspi_wait_for_rx_full rspi o).1 < 0) := by
      simp only [rspi_wait_for_rx_full, hw]; decide
    simp only [rspi_data_in, if_neg hlt]
  rw [e]
  simp only [rspi_wait_for_rx_full, hw, rspi_read_data]
  refine ⟨?_, ?_⟩
  · split_ifs
    · simp only [rspi_read8, h2, Nat.mod_mod]
    · simp only [rspi_read16, h2]
      congr 1
      omega
  · split_ifs
    · exact h1
    · exact h1

theorem pio_loop_loopback (tx : List Nat) :
    ∀ (n i : Nat) (rspi : rspi_data) (r : List Nat) (script : List HwStep),
      Ready rspi → (∀ st ∈ script, LoopbackStep st) → i + n ≤ tx.length →
      r.length = tx.length →
      (rspi_pio_loop (some tx) n i rspi (some r) script).ret = 0 ∧
      (rspi_pio_loop (some tx) n i rspi (some r) script).rx =
        some (r.take i ++ ((tx.drop i).take n).map (fun b => b % 256) ++ r.drop (i + n)) := by
  intro n
  induction n with
  | zero =>
    intro i rspi r script _ _ _ _
    simp [pio_loop_zero]
  | succ n ih =>
    intro i rspi r script hr hs hi hl
    have ho1 : ∀ st, script.head? = some st → LoopbackStep st :=
      fun st h => hs st (List.mem_of_mem_head? (by rw [h]; rfl))
    have hs1 : ∀ st ∈ script.tail, LoopbackStep st := fun st h => hs st (List.mem_of_mem_tail h)
    have ho2 : ∀ st, script.tail.head? = some st → LoopbackStep st :=
      fun st h => hs1 st (List.mem_of_mem_head? (by rw [h]; rfl))
    have hs2 : ∀ st ∈ script.tail.tail, LoopbackStep st :=
      fun st h => hs1 st (List.mem_of_mem_tail h)
    obtain ⟨a1, a2, a3⟩ := data_out_loopback rspi (tx.getD i 0) script.head? hr ho1
    obtain ⟨b1, b2⟩ := data_in_loopback (rspi_data_out rspi (tx.getD i 0) script.head?).2
      script.tail.head? a3 ho2
    rw [a2, Nat.mod_mod] at b1
    have e1 : pio_tx_half (some tx) i rspi (some r) script =
        ⟨(rspi_data_out rspi (tx.getD i 0) script.head?).1,
          (rspi_data_out rspi (tx.getD i 0) script.head?).2, some r, script.tail⟩ := rfl
    have e2 : pio_rx_half i (rspi_data_out rspi (tx.getD i 0) script.head?).2 (some r)
        script.tail =
        ⟨0, (rspi_data_in (rspi_data_out rspi (tx.getD i 0) script.head?).2
            script.tail.head?).2, some (r.set i (tx.getD i 0 % 256)), script.tail.tail⟩ := by
      have hlt : ¬ ((rspi_data_in (rspi_data_out rspi (tx.getD i 0) script.head?).2
          script.tail.head?).1 < 0) := by rw [b1]; omega
      simp only [pio_rx_half, if_neg hlt, b1]
      rfl
    rw [pio_loop_succ, e1]
    simp only [a1, lt_self_iff_false, if_false]
    rw [e2]
    simp only [lt_self_iff_false, if_false]
    obtain ⟨c1, c2⟩ := ih (i + 1) _ (r.set i (tx.getD i 0 % 256)) script.tail.tail b2 hs2
      (by omega) (by rw [List.length_set]; exact hl)
    refine ⟨c1, ?_⟩
    rw [c2, take_succ_set r i _ (by omega), drop_succ_set, drop_take_one tx i n (by omega)]
    simp [Nat.add_assoc, Nat.add_comm 1]

/-- C7: PIO loopback round trip.  When the data register gives back the unit
last written to it and the status register shows transmit-empty and
receive-full at every wait, the bidirectional transfer
`rspi_pio_transfer(tx, rx, N)` of a byte sequence `tx` of any length `N`
returns 0 and leaves `rx` equal to `tx`, in the 8-bit and in the 16-bit
access-width mode alike. -/
theorem pio_loopback_round_trip (rspi : rspi_data) (tx rx : List Nat) (script : List HwStep)
    (hbytes : ∀ b ∈ tx, b < 256) (hlen : rx.length = tx.length) (hready : Ready rspi)
    (hloop : ∀ st ∈ script, LoopbackStep st) :
    (rspi_pio_transfer rspi (some tx) (some rx) tx.length script).ret = 0 ∧
    (rspi_pio_transfer rspi (some tx) (some rx) tx.length script).rx = some tx ∧
    (rspi_pio_transfer { rspi with byte_access := true } (some tx) (some rx) tx.length
      script).rx = some tx ∧
    (rspi_pio_transfer { rspi with byte_access := false } (some tx) (some rx) tx.length
      script).rx = some tx := by
  have key : ∀ s : rspi_data, Ready s →
      (rspi_pio_transfer s (some tx) (some rx) tx.length script).ret = 0 ∧
      (rspi_pio_transfer s (some tx) (some rx) tx.length script).rx = some tx := by
    intro s hs
    obtain ⟨c1, c2⟩ := pio_loop_loopback tx tx.length 0 s rx script hs hloop (by omega) hlen
    refine ⟨c1, ?_⟩
    show (rspi_pio_loop (some tx) tx.length 0 s (some rx) script).rx = some tx
    rw [c2]
    have hm : tx.map (fun b => b % 256) = tx := by
      conv_rhs => rw [← List.map_id tx]
      apply List.map_congr_left
      intro b hb
      exact Nat.mod_eq_of_lt (hbytes b hb)
    simp [← hlen, hm]
  exact ⟨(key rspi hready).1, (key rspi hready).2,
    (key { rspi with byte_access := true } hready).2,
    (key { rspi with byte_access := false } hready).2⟩

theorem pio_loopback_round_trip_witness :
    (rspi_pio_transfer { rspi_reset Variant.legacy with regs := poke (fun _ => 0) RSPI_SPSR 0xa0 }
      (some [0x5a, 0xff]) (some [0, 0]) [0x5a, 0xff].length
      [ready_step, ready_step, ready_step, ready_step]).rx = some [0x5a, 0xff] :=
  (pio_loopback_round_trip
    { rspi_reset Variant.legacy with regs := poke (fun _ => 0) RSPI_SPSR 0xa0 }
    [0x5a, 0xff] [0, 0] [ready_step, ready_step, ready_step, ready_step]
    (by decide) (by decide) (by decide) (by decide)).2.1

@[simp] theorem upd_tx_irq (s : rspi_data) (r d m c W) : (upd s r d m c W).tx_irq = s.tx_irq := rfl
@[simp] theorem upd_rx_irq (s : rspi_data) (r d m c W) : (upd s r d m c W).rx_irq = s.rx_irq := rfl
@[simp] theorem upd_byte_access (s : rspi_data) (r d m c W) :
    (upd s r d m c W).byte_access = s.byte_access := rfl
@[simp] theorem upd_regs (s : rspi_data) (r d m c W) : (upd s r d m c W).regs = r := rfl
@[simp] theorem upd_irq_depth (s : rspi_data) (r d m c W) : (upd s r d m c W).irq_depth = d := rfl
@[simp] theorem upd_sg_mapped (s : rspi_data) (r d m c W) : (upd s r d m c W).sg_mapped = m := rfl
@[simp] theorem upd_dma_callbacked (s : rspi_data) (r d m c W) :
    (upd s r d m c W).dma_callbacked = c := rfl
@[simp] theorem upd_trace (s : rspi_data) (r d m c W) :
    (upd s r d m c W).trace = s.trace ++ W := rfl

theorem upd_self (s : rspi_data) :
    s = upd s s.regs s.irq_depth s.sg_mapped s.dma_callbacked [] := by
  cases s; simp [upd]

theorem upd_upd (s : rspi_data) (r d m c W r' d' m' c' W') :
    upd (upd s r d m c W) r' d' m' c' W' = upd s r' d' m' c' (W ++ W') := by
  simp [upd]

theorem upd_map_sg (s : rspi_data) (r d m c W) (dir : Dir) (n : Nat) :
    rspi_dma_map_sg (upd s r d m c W) dir n =
      (n, upd s r d (set_mapped m dir (decide (n ≠ 0))) c (W ++ [Event.dma_map dir n])) := by
  simp [rspi_dma_map_sg, upd, emit, set_mapped]

theorem upd_unmap_sg (s : rspi_data) (r d m c W) (dir : Dir) :
    rspi_dma_unmap_sg (upd s r d m c W) dir =
      upd s r d (set_mapped m dir false) c (W ++ [Event.dma_unmap dir]) := by
  simp [rspi_dma_unmap_sg, upd, emit, set_mapped]

theorem upd_prep (s : rspi_data) (r d m c W) (dir : Dir) (ok : Bool) :
    dmaengine_prep_slave_sg (upd s r d m c W) dir ok =
      (ok, upd s r d m c (W ++ [Event.dma_prep dir ok])) := by
  simp [dmaengine_prep_slave_sg, upd, emit]

theorem upd_disable_irq (s : rspi_data) (r d m c W) (line : Int) :
    disable_irq (upd s r d m c W) line =
      upd s r (depth_up d line) m c (W ++ [Event.disable_irq line]) := by
  simp [disable_irq, upd, emit, depth_up]

theorem upd_enable_irq (s : rspi_data) (r d m c W) (line : Int) :
    enable_irq (upd s r d m c W) line =
      upd s r (depth_down d line) m c (W ++ [Event.enable_irq line]) := by
  simp [enable_irq, upd, emit, depth_down]

theorem upd_read8 (s : rspi_data) (r d m c W) (o : Nat) :
    rspi_read8 (upd s r d m c W) o =
      (r o % 256, upd s r d m c (W ++ [Event.rd 8 o (r o % 256)])) := by
  simp [rspi_read8, upd, emit]

theorem upd_write8 (s : rspi_data) (r d m c W) (v o : Nat) :
    rspi_write8 (upd s r d m c W) v o =
      upd s (poke r o (v % 256)) d m c (W ++ [Event.wr 8 o (v % 256)]) := by
  simp [rspi_write8, upd]

theorem upd_rspi_enable_irq (s : rspi_data) (r d m c W) (e : Nat) :
    rspi_enable_irq (upd s r d m c W) e =
      upd s (poke r RSPI_SPCR ((r RSPI_SPCR % 256 ||| e) % 256)) d m c
        (W ++ [Event.rd 8 RSPI_SPCR (r RSPI_SPCR % 256),
          Event.wr 8 RSPI_SPCR ((r RSPI_SPCR % 256 ||| e) % 256)]) := by
  simp [rspi_enable_irq, upd_read8, upd_write8]

theorem upd_rspi_disable_irq (s : rspi_data) (r d m c W) (e : Nat) :
    rspi_disable_irq (upd s r d m c W) e =
      upd s (poke r RSPI_SPCR ((r RSPI_SPCR % 256 &&& (0xff ^^^ (e % 256))) % 256)) d m c
        (W ++ [Event.rd 8 RSPI_SPCR (r RSPI_SPCR % 256),
          Event.wr 8 RSPI_SPCR ((r RSPI_SPCR % 256 &&& (0xff ^^^ (e % 256))) % 256)]) := by
  simp [rspi_disable_irq, upd_read8, upd_write8]

theorem upd_dma_submit (s : rspi_data) (r d m c W) (dir : Dir) (cb : Bool) :
    dma_submit (upd s r d m c W) dir cb = upd s r d m c (W ++ [Event.dma_submit dir cb]) := by
  simp [dma_submit, upd, emit]

theorem upd_clear_flag (s : rspi_data) (r d m c W) :
    set_dma_callbacked (upd s r d m c W) false = upd s r d m false W := rfl

theorem upd_wait (s : rspi_data) (r d m c W) (env : DmaEnv) :
    wait_event_interruptible_timeout (upd s r d m c W) env =
      (env.wait_ret, upd s r d m (env.callbacked || c)
        (W ++ ((if env.callbacked = true then [Event.wake_up] else []) ++
          [Event.dma_waited env.wait_ret]))) := by
  cases h : env.callbacked <;>
    simp [wait_event_interruptible_timeout, rspi_dma_complete, set_dma_callbacked, upd, emit, h]

theorem dma_view_append (a b : List Event) : dma_view (a ++ b) = dma_view a ++ dma_view b := by
  simp [dma_view]

theorem depth_down_up (d : Int → Nat) (l : Int) : depth_down (depth_up d l) l = d := by
  funext x
  simp only [depth_down, depth_up]
  split_ifs <;> omega

theorem depth_down_up_two (d : Int → Nat) (a b : Int) :
    depth_down (depth_down (depth_up (depth_up d a) b) a) b = d := by
  funext x
  simp only [depth_down, depth_up]
  split_ifs <;> omega

theorem regonly_refl (x : rspi_data) : RegOnly x x :=
  ⟨x.regs, [], upd_self x, rfl⟩

theorem regonly_trans {x y z : rspi_data} (h1 : RegOnly x y) (h2 : RegOnly y z) :
    RegOnly x z := by
  obtain ⟨R1, W1, e1, v1⟩ := h1
  obtain ⟨R2, W2, e2, v2⟩ := h2
  refine ⟨R2, W1 ++ W2, ?_, by rw [dma_view_append, v1, v2]; rfl⟩
  rw [e2, e1, upd_upd]
  simp

theorem regonly_read8 (x : rspi_data) (o : Nat) : RegOnly x (rspi_read8 x o).2 :=
  ⟨x.regs, [Event.rd 8 o (x.regs o % 256)], by
    conv_lhs => rw [upd_self x, upd_read8]
    simp, rfl⟩

theorem regonly_read16 (x : rspi_data) (o : Nat) : RegOnly x (rspi_read16 x o).2 :=
  ⟨x.regs, [Event.rd 16 o (x.regs o % 65536)], by
    cases x; simp [rspi_read16, emit, upd], rfl⟩

theorem regonly_write8 (x : rspi_data) (v o : Nat) : RegOnly x (rspi_write8 x v o) :=
  ⟨poke x.regs o (v % 256), [Event.wr 8 o (v % 256)], by
    conv_lhs => rw [upd_self x, upd_write8]
    simp, rfl⟩

theorem regonly_read_data (x : rspi_data) : RegOnly x (rspi_read_data x).2 := by
  unfold rspi_read_data
  split_ifs
  · exact regonly_read8 x _
  · exact regonly_read16 x _

/-- `rspi_receive_init` touches the register window and the trace only, and
none of its events concerns DMA or the interrupt lines. -/
theorem regonly_receive_init (x : rspi_data) : RegOnly x (rspi_receive_init x) := by
  unfold rspi_receive_init
  simp only
  have h1 : RegOnly x (if (rspi_read8 x RSPI_SPSR).1 &&& SPSR_SPRF ≠ 0
      then (rspi_read_data (rspi_read8 x RSPI_SPSR).2).2 else (rspi_read8 x RSPI_SPSR).2) := by
    split_ifs
    · exact regonly_trans (regonly_read8 x _) (regonly_read_data _)
    · exact regonly_read8 x _
  split_ifs
  all_goals first
    | exact regonly_trans h1 (regonly_trans (regonly_read8 _ _) (regonly_write8 _ _ _))
    | exact h1
    | (simp only [*, ne_eq, not_true_eq_false, not_false_eq_true, if_true, if_false] at h1
       first
       | exact regonly_trans h1 (regonly_trans (regonly_read8 _ _) (regonly_write8 _ _ _))
       | exact h1)

theorem set_mapped_twice (m : Dir → Bool) (dir : Dir) (a b : Bool) :
    set_mapped (set_mapped m dir a) dir b = set_mapped m dir b := by
  funext d
  simp only [set_mapped]
  split_ifs <;> rfl

theorem set_mapped_swap (m : Dir → Bool) (a b : Bool) :
    set_mapped (set_mapped (set_mapped m Dir.to_device a) Dir.from_device b) Dir.to_device false
      = set_mapped (set_mapped m Dir.to_device false) Dir.from_device b := by
  funext d
  cases d <;> simp [set_mapped]

theorem send_dma_run_upd (s : rspi_data) (r d m c W) (env : DmaEnv) :
    ∃ R' W', send_dma_run (upd s r d m c W) env =
        (dma_wait_result env, upd s R' d m env.callbacked (W ++ W')) ∧
      dma_view W' = [Event.disable_irq s.tx_irq, Event.dma_submit Dir.to_device true,
        Event.dma_waited env.wait_ret, Event.enable_irq s.tx_irq] := by
  simp only [send_dma_run, upd_disable_irq, upd_tx_irq, upd_read8, upd_write8,
    upd_rspi_enable_irq, upd_clear_flag, upd_dma_submit, upd_wait, upd_rspi_disable_irq,
    upd_enable_irq, upd_dma_callbacked, Bool.or_false, depth_down_up, List.append_assoc]
  refine ⟨_, _, rfl, ?_⟩
  cases env.callbacked <;> rfl

theorem send_receive_dma_run_upd (s : rspi_data) (r d m c W) (env : DmaEnv) :
    ∃ R' W', send_receive_dma_run (upd s r d m c W) env =
        (dma_wait_result env, upd s R' d m env.callbacked (W ++ W')) ∧
      dma_view W' =
        [Event.disable_irq s.tx_irq] ++
        (if s.rx_irq ≠ s.tx_irq then [Event.disable_irq s.rx_irq] else []) ++
        [Event.dma_submit Dir.from_device true, Event.dma_submit Dir.to_device false,
          Event.dma_waited env.wait_ret, Event.enable_irq s.tx_irq] ++
        (if s.rx_irq ≠ s.tx_irq then [Event.enable_irq s.rx_irq] else []) := by
  obtain ⟨R1, W1, e1, v1⟩ := regonly_receive_init (upd s r d m c W)
  rw [upd_upd] at e1
  simp only [upd_irq_depth, upd_sg_mapped, upd_dma_callbacked] at e1
  by_cases hne : s.rx_irq = s.tx_irq
  · simp only [send_receive_dma_run, e1, upd_disable_irq, upd_tx_irq, upd_rx_irq, upd_read8,
      upd_write8, upd_rspi_enable_irq, upd_clear_flag, upd_dma_submit, upd_wait,
      upd_rspi_disable_irq, upd_enable_irq, upd_dma_callbacked, Bool.or_false, depth_down_up,
      List.append_assoc, hne, ne_eq, not_true_eq_false, if_false]
    refine ⟨_, _, rfl, ?_⟩
    rw [dma_view_append, v1]
    cases env.callbacked <;> rfl
  · simp only [send_receive_dma_run, e1, upd_disable_irq, upd_tx_irq, upd_rx_irq, upd_read8,
      upd_write8, upd_rspi_enable_irq, upd_clear_flag, upd_dma_submit, upd_wait,
      upd_rspi_disable_irq, upd_enable_irq, upd_dma_callbacked, Bool.or_false,
      depth_down_up_two, List.append_assoc, hne, ne_eq, not_false_eq_true, if_true]
    refine ⟨_, _, rfl, ?_⟩
    rw [dma_view_append, v1]
    cases env.callbacked <;> rfl

theorem send_dma_upd (s : rspi_data) (r d m c W) (t : spi_transfer) (env : DmaEnv) :
    ∃ R' W', rspi_send_dma (upd s r d m c W) t env =
        ((if env.map_tx = 0 then -EFAULT else if env.prep_tx = false then - EIO
          else dma_wait_result env),
         upd s R' d (set_mapped m Dir.to_device false)
           (if env.map_tx = 0 then c else if env.prep_tx = false then c else env.callbacked)
           (W ++ W')) ∧
      dma_view W' = send_dma_view s env := by
  by_cases h1 : env.map_tx = 0
  · refine ⟨r, [Event.dma_map Dir.to_device 0], ?_, by simp [send_dma_view, h1, dma_view,
      dma_visible]⟩
    simp [rspi_send_dma, upd_map_sg, h1]
  · by_cases h2 : env.prep_tx = false
    · refine ⟨r, [Event.dma_map Dir.to_device env.map_tx, Event.dma_prep Dir.to_device false,
        Event.dma_unmap Dir.to_device], ?_, by simp [send_dma_view, h1, h2, dma_view,
          dma_visible]⟩
      simp [rspi_send_dma, upd_map_sg, upd_prep, upd_unmap_sg, h1, h2, set_mapped_twice]
    · have h2' : env.prep_tx = true := by simpa using h2
      obtain ⟨R', W', e, v⟩ := send_dma_run_upd s r d
        (set_mapped m Dir.to_device (decide (env.map_tx ≠ 0))) c
        (W ++ ([Event.dma_map Dir.to_device env.map_tx] ++
          [Event.dma_prep Dir.to_device env.prep_tx])) env
      refine ⟨R', [Event.dma_map Dir.to_device env.map_tx,
        Event.dma_prep Dir.to_device true] ++ W' ++ [Event.dma_unmap Dir.to_device], ?_, ?_⟩
      · simp only [h2', List.append_assoc] at e
        simp only [rspi_send_dma, upd_map_sg, upd_prep, h1, h2', if_false, List.append_assoc,
          Bool.true_eq_false, e, upd_unmap_sg, set_mapped_twice]
        simp
      · rw [dma_view_append, dma_view_append, v]
        simp [send_dma_view, h1, h2', dma_view, dma_visible]

theorem send_receive_dma_upd (s : rspi_data) (r d m c W) (t : spi_transfer) (env : DmaEnv) :
    ∃ R' W', rspi_send_receive_dma (upd s r d m c W) t env =
        ((if env.map_tx = 0 then -EFAULT else if env.prep_tx = false then - EIO
          else if env.map_rx = 0 then -EFAULT else if env.prep_rx = false then - EIO
          else dma_wait_result env),
         upd s R' d
           (if env.map_tx = 0 then set_mapped m Dir.to_device false
            else if env.prep_tx = false then set_mapped m Dir.to_device false
            else set_mapped (set_mapped m Dir.to_device false) Dir.from_device false)
           (if env.map_tx = 0 then c else if env.prep_tx = false then c
            else if env.map_rx = 0 then c else if env.prep_rx = false then c
            else env.callbacked)
           (W ++ W')) ∧
      dma_view W' = send_receive_dma_view s env := by
  by_cases h1 : env.map_tx = 0
  · refine ⟨r, [Event.dma_map Dir.to_device 0], ?_, by simp [send_receive_dma_view, h1,
      dma_view, dma_visible]⟩
    simp [rspi_send_receive_dma, upd_map_sg, h1]
  · by_cases h2 : env.prep_tx = false
    · refine ⟨r, [Event.dma_map Dir.to_device env.map_tx, Event.dma_prep Dir.to_device false,
        Event.dma_unmap Dir.to_device], ?_, by simp [send_receive_dma_view, h1, h2, dma_view,
          dma_visible]⟩
      simp [rspi_send_receive_dma, upd_map_sg, upd_prep, upd_unmap_sg, h1, h2, set_mapped_twice]
    · have h2' : env.prep_tx = true := by simpa using h2
      by_cases h3 : env.map_rx = 0
      · refine ⟨r, [Event.dma_map Dir.to_device env.map_tx, Event.dma_prep Dir.to_device true,
          Event.dma_map Dir.from_device 0, Event.dma_unmap Dir.to_device], ?_,
          by simp [send_receive_dma_view, h1, h2', h3, dma_view, dma_visible]⟩
        simp [rspi_send_receive_dma, upd_map_sg, upd_prep, upd_unmap_sg, h1, h2', h3,
          set_mapped_swap]
      · by_cases h4 : env.prep_rx = false
        · refine ⟨r, [Event.dma_map Dir.to_device env.map_tx,
            Event.dma_prep Dir.to_device true, Event.dma_map Dir.from_device env.map_rx,
            Event.dma_prep Dir.from_device false, Event.dma_unmap Dir.from_device,
            Event.dma_unmap Dir.to_device], ?_,
            by simp [send_receive_dma_view, h1, h2', h3, h4, dma_view, dma_visible]⟩
          simp [rspi_send_receive_dma, upd_map_sg, upd_prep, upd_unmap_sg, h1, h2', h3, h4,
            set_mapped_swap, set_mapped_twice]
        · have h4' : env.prep_rx = true := by simpa using h4
          obtain ⟨R', W', e, v⟩ := send_receive_dma_run_upd s r d
            (set_mapped (set_mapped m Dir.to_device (decide (env.map_tx ≠ 0))) Dir.from_device
              (decide (env.map_rx ≠ 0))) c
            (W ++ ([Event.dma_map Dir.to_device env.map_tx] ++
              ([Event.dma_prep Dir.to_device env.prep_tx] ++
                ([Event.dma_map Dir.from_device env.map_rx] ++
                  [Event.dma_prep Dir.from_device env.prep_rx])))) env
          refine ⟨R', [Event.dma_map Dir.to_device env.map_tx,
            Event.dma_prep Dir.to_device true, Event.dma_map Dir.from_device env.map_rx,
            Event.dma_prep Dir.from_device true] ++ W' ++
            [Event.dma_unmap Dir.from_device, Event.dma_unmap Dir.to_device], ?_, ?_⟩
          · simp only [h2', h4', List.append_assoc] at e
            simp only [rspi_send_receive_dma, upd_map_sg, upd_prep, h1, h2', h3, h4', if_false,
              List.append_assoc, Bool.true_eq_false, e, upd_unmap_sg, set_mapped_twice,
              set_mapped_swap]
            simp
          · rw [dma_view_append, dma_view_append, v]
            simp [send_receive_dma_view, h1, h2', h3, h4', dma_view, dma_visible]

theorem new_events_upd (s : rspi_data) (r d m c W) : new_events s (upd s r d m c W) = W := by
  simp [new_events, upd]

theorem maps_in_view (d : Dir) (W : List Event) : maps_in d (dma_view W) = maps_in d W := by
  simp only [maps_in, dma_view, List.countP_filter]
  congr 1
  funext e
  cases e <;> simp [dma_visible]

theorem unmaps_in_view (d : Dir) (W : List Event) :
    unmaps_in d (dma_view W) = unmaps_in d W := by
  simp only [unmaps_in, dma_view, List.countP_filter]
  congr 1
  funext e
  cases e <;> simp [dma_visible]

theorem disables_in_view (l : Int) (W : List Event) :
    disables_in l (dma_view W) = disables_in l W := by
  simp only [disables_in, dma_view, List.countP_filter]
  congr 1
  funext e
  cases e <;> simp [dma_visible]

theorem enables_in_view (l : Int) (W : List Event) :
    enables_in l (dma_view W) = enables_in l W := by
  simp only [enables_in, dma_view, List.countP_filter]
  congr 1
  funext e
  cases e <;> simp [dma_visible]

/-- Effect of `rspi_send_dma` on the result, the ghost state and the trace. -/
theorem send_dma_effect (rspi : rspi_data) (t : spi_transfer) (env : DmaEnv) :
    (rspi_send_dma rspi t env).1 =
        (if env.map_tx = 0 then -EFAULT else if env.prep_tx = false then - EIO
          else dma_wait_result env) ∧
      (rspi_send_dma rspi t env).2.irq_depth = rspi.irq_depth ∧
      (rspi_send_dma rspi t env).2.sg_mapped =
        set_mapped rspi.sg_mapped Dir.to_device false ∧
      (rspi_send_dma rspi t env).2.dma_callbacked =
        (if env.map_tx = 0 then rspi.dma_callbacked
         else if env.prep_tx = false then rspi.dma_callbacked else env.callbacked) ∧
      dma_view (new_events rspi (rspi_send_dma rspi t env).2) = send_dma_view rspi env := by
  obtain ⟨R, W, e, v⟩ := send_dma_upd rspi rspi.regs rspi.irq_depth rspi.sg_mapped
    rspi.dma_callbacked [] t env
  rw [← upd_self] at e
  rw [e]
  simp only [upd_irq_depth, upd_sg_mapped, upd_dma_callbacked, new_events_upd, List.nil_append]
  exact ⟨trivial, trivial, trivial, trivial, v⟩

/-- Effect of `rspi_send_receive_dma` on the result, the ghost state and the
trace. -/
theorem send_receive_dma_effect (rspi : rspi_data) (t : spi_transfer) (env : DmaEnv) :
    (rspi_send_receive_dma rspi t env).1 =
        (if env.map_tx = 0 then -EFAULT else if env.prep_tx = false then - EIO
          else if env.map_rx = 0 then -EFAULT else if env.prep_rx = false then - EIO
          else dma_wait_result env) ∧
      (rspi_send_receive_dma rspi t env).2.irq_depth = rspi.irq_depth ∧
      (rspi_send_receive_dma rspi t env).2.sg_mapped =
        (if env.map_tx = 0 then set_mapped rspi.sg_mapped Dir.to_device false
         else if env.prep_tx = false then set_mapped rspi.sg_mapped Dir.to_device false
         else set_mapped (set_mapped rspi.sg_mapped Dir.to_device false) Dir.from_device
           false) ∧
      (rspi_send_receive_dma rspi t env).2.dma_callbacked =
        (if env.map_tx = 0 then rspi.dma_callbacked
         else if env.prep_tx = false then rspi.dma_callbacked
         else if env.map_rx = 0 then rspi.dma_callbacked
         else if env.prep_rx = false then rspi.dma_callbacked else env.callbacked) ∧
      dma_view (new_events rspi (rspi_send_receive_dma rspi t env).2) =
        send_receive_dma_view rspi env := by
  obtain ⟨R, W, e, v⟩ := send_receive_dma_upd rspi rspi.regs rspi.irq_depth rspi.sg_mapped
    rspi.dma_callbacked [] t env
  rw [← upd_self] at e
  rw [e]
  simp only [upd_irq_depth, upd_sg_mapped, upd_dma_callbacked, new_events_upd, List.nil_append]
  exact ⟨trivial, trivial, trivial, trivial, v⟩

theorem send_dma_view_balance (rspi : rspi_data) (env : DmaEnv) (d : Dir) (line : Int) :
    unmaps_in d (send_dma_view rspi env) = maps_in d (send_dma_view rspi env) ∧
      maps_in d (send_dma_view rspi env) ≤ 1 ∧
      enables_in line (send_dma_view rspi env) = disables_in line (send_dma_view rspi env) ∧
      disables_in line (send_dma_view rspi env) ≤ 1 := by
  unfold send_dma_view
  by_cases h1 : env.map_tx = 0
  · simp [h1, unmaps_in, maps_in, enables_in, disables_in]
  · by_cases h2 : env.prep_tx = false
    · cases d <;> simp [h1, h2, unmaps_in, maps_in, enables_in, disables_in]
    · by_cases hl : rspi.tx_irq = line <;>
        cases d <;> simp [h1, h2, hl, unmaps_in, maps_in, enables_in, disables_in,
          List.countP_cons]

theorem send_receive_dma_view_balance (rspi : rspi_data) (env : DmaEnv) (d : Dir)
    (line : Int) :
    unmaps_in d (send_receive_dma_view rspi env) =
        maps_in d (send_receive_dma_view rspi env) ∧
      maps_in d (send_receive_dma_view rspi env) ≤ 1 ∧
      enables_in line (send_receive_dma_view rspi env) =
        disables_in line (send_receive_dma_view rspi env) ∧
      disables_in line (send_receive_dma_view rspi env) ≤ 1 := by
  unfold send_receive_dma_view
  by_cases h1 : env.map_tx = 0
  · simp [h1, unmaps_in, maps_in, enables_in, disables_in]
  · by_cases h2 : env.prep_tx = false
    · cases d <;> simp [h1, h2, unmaps_in, maps_in, enables_in, disables_in]
    · by_cases h3 : env.map_rx = 0
      · cases d <;> simp [h1, h2, h3, unmaps_in, maps_in, enables_in, disables_in,
          List.countP_cons]
      · by_cases h4 : env.prep_rx = false
        · cases d <;> simp [h1, h2, h3, h4, unmaps_in, maps_in, enables_in, disables_in,
            List.countP_cons]
        · by_cases hl : line = rspi.tx_irq
          · subst hl
            by_cases hrt : rspi.rx_irq = rspi.tx_irq <;> cases d <;>
              simp [h1, h2, h3, h4, hrt, unmaps_in, maps_in, enables_in, disables_in,
                List.countP_cons, List.countP_append]
          · have hl' : ¬ rspi.tx_irq = line := fun h => hl h.symm
            by_cases hr : line = rspi.rx_irq
            · subst hr
              cases d <;>
                simp [h1, h2, h3, h4, hl, hl', unmaps_in, maps_in, enables_in, disables_in,
                  List.countP_cons, List.countP_append]
            · have hr' : ¬ rspi.rx_irq = line := fun h => hr h.symm
              by_cases hrt : rspi.rx_irq = rspi.tx_irq <;> cases d <;>
                simp [h1, h2, h3, h4, hl, hl', hr, hr', hrt, unmaps_in, maps_in, enables_in,
                  disables_in, List.countP_cons, List.countP_append]

/-- C8: DMA unwind. For `rspi_send_dma` and `rspi_send_receive_dma` and every
behaviour of the collaborators, the DMA-related events of the call are exactly
those listed path by path in `send_dma_view` / `send_receive_dma_view`. Hence
in each direction the call unmaps as often as it successfully mapped, at most
once; on each interrupt line it calls `enable_irq` as often as `disable_irq`,
at most once (the receive line is touched only when distinct from the transmit
line); the disable depth of every line on return is the one on entry; the
transmit buffer is not mapped on return and the receive buffer is mapped on
return only if it already was on entry. In particular, when the transmit side
is ready and mapping the receive buffer fails, `rspi_send_receive_dma` returns
`-EFAULT`, its DMA-related events are the two mappings, the transmit descriptor
and one unmapping of the transmit buffer (no `disable_irq`, no submission, no
wait), lines that were enabled on entry are enabled on return, and the
completion flag is never written. -/
theorem dma_unwind (rspi : rspi_data) (t : spi_transfer) (env : DmaEnv) :
    (dma_view (new_events rspi (rspi_send_dma rspi t env).2) = send_dma_view rspi env ∧
      dma_view (new_events rspi (rspi_send_receive_dma rspi t env).2) =
        send_receive_dma_view rspi env) ∧
    (∀ (d : Dir) (line : Int),
      unmaps_in d (new_events rspi (rspi_send_dma rspi t env).2) =
          maps_in d (new_events rspi (rspi_send_dma rspi t env).2) ∧
        maps_in d (new_events rspi (rspi_send_dma rspi t env).2) ≤ 1 ∧
        enables_in line (new_events rspi (rspi_send_dma rspi t env).2) =
          disables_in line (new_events rspi (rspi_send_dma rspi t env).2) ∧
        disables_in line (new_events rspi (rspi_send_dma rspi t env).2) ≤ 1 ∧
        unmaps_in d (new_events rspi (rspi_send_receive_dma rspi t env).2) =
          maps_in d (new_events rspi (rspi_send_receive_dma rspi t env).2) ∧
        maps_in d (new_events rspi (rspi_send_receive_dma rspi t env).2) ≤ 1 ∧
        enables_in line (new_events rspi (rspi_send_receive_dma rspi t env).2) =
          disables_in line (new_events rspi (rspi_send_receive_dma rspi t env).2) ∧
        disables_in line (new_events rspi (rspi_send_receive_dma rspi t env).2) ≤ 1 ∧
        (rspi.rx_irq = rspi.tx_irq →
          disables_in rspi.rx_irq (new_events rspi (rspi_send_receive_dma rspi t env).2) ≤ 1)) ∧
    ((rspi_send_dma rspi t env).2.irq_depth = rspi.irq_depth ∧
      (rspi_send_receive_dma rspi t env).2.irq_depth = rspi.irq_depth) ∧
    ((rspi_send_dma rspi t env).2.sg_mapped Dir.to_device = false ∧
      (rspi_send_dma rspi t env).2.sg_mapped Dir.from_device =
        rspi.sg_mapped Dir.from_device ∧
      (rspi_send_receive_dma rspi t env).2.sg_mapped Dir.to_device = false ∧
      ((rspi_send_receive_dma rspi t env).2.sg_mapped Dir.from_device = true →
        rspi.sg_mapped Dir.from_device = true)) ∧
    (env.map_tx ≠ 0 → env.prep_tx = true → env.map_rx = 0 →
      (rspi_send_receive_dma rspi t env).1 = -EFAULT ∧
      dma_view (new_events rspi (rspi_send_receive_dma rspi t env).2) =
        [Event.dma_map Dir.to_device env.map_tx, Event.dma_prep Dir.to_device true,
         Event.dma_map Dir.from_device 0, Event.dma_unmap Dir.to_device] ∧
      (rspi_send_receive_dma rspi t env).2.sg_mapped Dir.to_device = false ∧
      (rspi.irq_depth rspi.tx_irq = 0 → rspi.irq_depth rspi.rx_irq = 0 →
        (rspi_send_receive_dma rspi t env).2.irq_depth rspi.tx_irq = 0 ∧
        (rspi_send_receive_dma rspi t env).2.irq_depth rspi.rx_irq = 0) ∧
      (rspi_send_receive_dma rspi t env).2.dma_callbacked = rspi.dma_callbacked) := by
  obtain ⟨a1, a2, a3, a4, a5⟩ := send_dma_effect rspi t env
  obtain ⟨b1, b2, b3, b4, b5⟩ := send_receive_dma_effect rspi t env
  refine ⟨⟨a5, b5⟩, ?_, ⟨a2, b2⟩, ⟨?_, ?_, ?_, ?_⟩, ?_⟩
  · intro d line
    have ha := send_dma_view_balance rspi env d line
    have hb := send_receive_dma_view_balance rspi env d line
    have hc := send_receive_dma_view_balance rspi env d rspi.rx_irq
    rw [← a5, maps_in_view, unmaps_in_view, enables_in_view, disables_in_view] at ha
    rw [← b5, maps_in_view, unmaps_in_view, enables_in_view, disables_in_view] at hb
    rw [← b5, maps_in_view, unmaps_in_view, enables_in_view, disables_in_view] at hc
    exact ⟨ha.1, ha.2.1, ha.2.2.1, ha.2.2.2, hb.1, hb.2.1, hb.2.2.1, hb.2.2.2,
      fun _ => hc.2.2.2⟩
  · rw [a3]; simp [set_mapped]
  · rw [a3]; simp [set_mapped]
  · rw [b3]; split_ifs <;> simp [set_mapped]
  · rw [b3]; split_ifs <;> simp [set_mapped]
  · intro h1 h2 h3
    refine ⟨?_, ?_, ?_, ?_, ?_⟩
    · rw [b1]; simp [h1, h2, h3]
    · rw [b5]; simp [send_receive_dma_view, h1, h2, h3]
    · rw [b3]; simp [h1, h2, set_mapped]
    · intro e1 e2
      rw [b2]
      exact ⟨e1, e2⟩
    · rw [b4]; simp [h1, h2, h3]

/-- C8 at a concrete input: on a freshly probed controller, a three-byte duplex
transfer whose receive buffer cannot be mapped returns `-EFAULT` after mapping
and unmapping the transmit buffer only. -/
theorem dma_unwind_rx_map_fails :
    (rspi_send_receive_dma (rspi_reset Variant.legacy) duplex_transfer rx_map_fails).1
        = -EFAULT ∧
      dma_view (new_events (rspi_reset Variant.legacy)
          (rspi_send_receive_dma (rspi_reset Variant.legacy) duplex_transfer rx_map_fails).2) =
        [Event.dma_map Dir.to_device 1, Event.dma_prep Dir.to_device true,
         Event.dma_map Dir.from_device 0, Event.dma_unmap Dir.to_device] ∧
      (rspi_send_receive_dma (rspi_reset Variant.legacy) duplex_transfer rx_map_fails).2.sg_mapped
        Dir.to_device = false ∧
      (rspi_send_receive_dma (rspi_reset Variant.legacy) duplex_transfer
        rx_map_fails).2.irq_depth 4 = 0 ∧
      (rspi_send_receive_dma (rspi_reset Variant.legacy) duplex_transfer
        rx_map_fails).2.irq_depth 3 = 0 ∧
      (rspi_send_receive_dma (rspi_reset Variant.legacy) duplex_transfer
        rx_map_fails).2.dma_callbacked = false :=
  have h := (dma_unwind (rspi_reset Variant.legacy) duplex_transfer rx_map_fails).2.2.2.2
    (by decide) rfl rfl
  ⟨h.1, h.2.1, h.2.2.1, (h.2.2.2.1 rfl rfl).1, (h.2.2.2.1 rfl rfl).2, h.2.2.2.2⟩

/-- C9 (amended): for `rspi_send_dma` and `rspi_send_receive_dma` and every
behaviour of the collaborators the result is `-EFAULT` when a buffer mapping
fails, `-EIO` when a descriptor preparation fails, and otherwise it is decided
by the timed wait: `0` when the wait returned a positive value and the
completion flag is set, `-ETIMEDOUT` when the wait returned `0`, and in every
other case the value the wait returned, unchanged (a negative value such as
`-ERESTARTSYS` from an interrupted wait). When the wait returns a non-negative
value, positive only with the flag set, the result is one of `-EFAULT`, `-EIO`,
`-ETIMEDOUT` and `0`. -/
theorem dma_result (rspi : rspi_data) (t : spi_transfer) (env : DmaEnv) :
    (rspi_send_dma rspi t env).1 =
        (if env.map_tx = 0 then -EFAULT
         else if env.prep_tx = false then - EIO
         else if env.wait_ret > 0 ∧ env.callbacked = true then 0
         else if env.wait_ret = 0 then -ETIMEDOUT
         else env.wait_ret) ∧
      (rspi_send_receive_dma rspi t env).1 =
        (if env.map_tx = 0 then -EFAULT
         else if env.prep_tx = false then - EIO
         else if env.map_rx = 0 then -EFAULT
         else if env.prep_rx = false then - EIO
         else if env.wait_ret > 0 ∧ env.callbacked = true then 0
         else if env.wait_ret = 0 then -ETIMEDOUT
         else env.wait_ret) ∧
      (0 ≤ env.wait_ret → (0 < env.wait_ret → env.callbacked = true) →
        ((rspi_send_dma rspi t env).1 = -EFAULT ∨ (rspi_send_dma rspi t env).1 = - EIO ∨
          (rspi_send_dma rspi t env).1 = -ETIMEDOUT ∨ (rspi_send_dma rspi t env).1 = 0) ∧
        ((rspi_send_receive_dma rspi t env).1 = -EFAULT ∨
          (rspi_send_receive_dma rspi t env).1 = - EIO ∨
          (rspi_send_receive_dma rspi t env).1 = -ETIMEDOUT ∨
          (rspi_send_receive_dma rspi t env).1 = 0)) := by
  have a1 := (send_dma_effect rspi t env).1
  have b1 := (send_receive_dma_effect rspi t env).1
  simp only [dma_wait_result] at a1 b1
  refine ⟨a1, b1, ?_⟩
  intro h0 hc
  rw [a1, b1]
  by_cases hz : env.wait_ret = 0
  · have hn : ¬ (env.wait_ret > 0 ∧ env.callbacked = true) := by
      rintro ⟨h, -⟩
      omega
    simp only [hz, if_true]
    constructor <;> split_ifs <;> simp_all
  · have hp : env.wait_ret > 0 ∧ env.callbacked = true := ⟨by omega, hc (by omega)⟩
    simp only [hp, and_self, if_true]
    constructor <;> split_ifs <;> simp

/-- C9 at a concrete input: a send whose wait ends after one tick with the
completion flag set returns `0`. -/
theorem dma_result_completed :
    (rspi_send_dma (rspi_reset Variant.legacy) duplex_transfer (dma_env 1 true)).1 = 0 ∧
      (rspi_send_receive_dma (rspi_reset Variant.legacy) duplex_transfer (dma_env 1 true)).1
        = 0 :=
  ⟨(dma_result (rspi_reset Variant.legacy) duplex_transfer (dma_env 1 true)).1.trans
      (by decide),
    (dma_result (rspi_reset Variant.legacy) duplex_transfer (dma_env 1 true)).2.1.trans
      (by decide)⟩

/-- C9 (counterexample): a wait interrupted by a signal returns `-ERESTARTSYS`,
and both routines hand that value to the caller; it is none of `-EFAULT`,
`-EIO`, `-ETIMEDOUT` and `0`. -/
theorem dma_result_interrupted :
    (rspi_send_dma (rspi_reset Variant.legacy) duplex_transfer
        (dma_env (-ERESTARTSYS) false)).1 = -512 ∧
      (rspi_send_receive_dma (rspi_reset Variant.legacy) duplex_transfer
        (dma_env (-ERESTARTSYS) false)).1 = -512 ∧
      (-512 : Int) ≠ -EFAULT ∧ (-512 : Int) ≠ - EIO ∧ (-512 : Int) ≠ -ETIMEDOUT ∧
      (-512 : Int) ≠ 0 := by
  refine ⟨?_, ?_, by decide, by decide, by decide, by decide⟩
  · rw [(send_dma_effect _ _ _).1]; decide
  · rw [(send_receive_dma_effect _ _ _).1]; decide

theorem wk_emit (s : rspi_data) (e : Event) : width_key (emit s e) = width_key s := rfl

theorem wk_write8 (s : rspi_data) (d o : Nat) : width_key (rspi_write8 s d o) = width_key s :=
  rfl

theorem wk_write16 (s : rspi_data) (d o : Nat) :
    width_key (rspi_write16 s d o) = width_key s := rfl

theorem wk_write32 (s : rspi_data) (d o : Nat) :
    width_key (rspi_write32 s d o) = width_key s := rfl

theorem wk_read8 (s : rspi_data) (o : Nat) : width_key (rspi_read8 s o).2 = width_key s := rfl

theorem wk_read16 (s : rspi_data) (o : Nat) : width_key (rspi_read16 s o).2 = width_key s :=
  rfl

theorem wk_write_data (s : rspi_data) (d : Nat) :
    width_key (rspi_write_data s d) = width_key s := by
  unfold rspi_write_data
  split_ifs <;> rfl

theorem wk_read_data (s : rspi_data) : width_key (rspi_read_data s).2 = width_key s := by
  unfold rspi_read_data
  split_ifs <;> rfl

theorem wk_rspi_enable_irq (s : rspi_data) (e : Nat) :
    width_key (rspi_enable_irq s e) = width_key s := rfl

theorem wk_rspi_disable_irq (s : rspi_data) (e : Nat) :
    width_key (rspi_disable_irq s e) = width_key s := rfl

theorem wk_irq_mux (s : rspi_data) : width_key (rspi_irq_mux s).2 = width_key s := by
  unfold rspi_irq_mux
  simp only []
  split_ifs <;> rfl

theorem wk_irq_rx (s : rspi_data) : width_key (rspi_irq_rx s).2 = width_key s := by
  unfold rspi_irq_rx
  simp only []
  split_ifs <;> rfl

theorem wk_irq_tx (s : rspi_data) : width_key (rspi_irq_tx s).2 = width_key s := by
  unfold rspi_irq_tx
  simp only []
  split_ifs <;> rfl

theorem wk_deliver_irq (s : rspi_data) (e : IrqEvent) :
    width_key (deliver_irq s e) = width_key s := by
  unfold deliver_irq
  simp only []
  split_ifs
  · rw [wk_irq_mux]; rfl
  · cases e.line
    · simp only []; rw [wk_irq_rx]; rfl
    · simp only []; rw [wk_irq_tx]; rfl

theorem wk_run_irqs (irqs : List IrqEvent) (s : rspi_data) :
    width_key (run_irqs s irqs) = width_key s := by
  induction irqs generalizing s with
  | nil => rfl
  | cons e rest ih =>
    show width_key (run_irqs (deliver_irq s e) rest) = _
    rw [ih, wk_deliver_irq]

theorem wk_wait_event_timeout (s : rspi_data) (m : Nat) (irqs : List IrqEvent) :
    width_key (wait_event_timeout s m irqs).2 = width_key s := by
  unfold wait_event_timeout
  split_ifs
  · rfl
  · simp only [wk_emit, wk_run_irqs]

theorem wk_wait_for_interrupt (s : rspi_data) (m b : Nat) (w : WaitEnv) :
    width_key (rspi_wait_for_interrupt s m b w).2 = width_key s := by
  unfold rspi_wait_for_interrupt
  simp only []
  split_ifs
  · rfl
  · simp only [wk_emit, wk_run_irqs, wk_wait_event_timeout, wk_rspi_enable_irq]; rfl
  · simp only [wk_emit, wk_run_irqs, wk_wait_event_timeout, wk_rspi_enable_irq]; rfl

theorem wk_hw_step (s : rspi_data) (st : Option HwStep) :
    width_key (hw_step s st) = width_key s := by
  cases st <;> rfl

theorem wk_wait_tx_empty (s : rspi_data) (st : Option HwStep) :
    width_key (rspi_wait_for_tx_empty s st).2 = width_key s := by
  unfold rspi_wait_for_tx_empty
  rw [wk_wait_for_interrupt, wk_hw_step]

theorem wk_wait_rx_full (s : rspi_data) (st : Option HwStep) :
    width_key (rspi_wait_for_rx_full s st).2 = width_key s := by
  unfold rspi_wait_for_rx_full
  rw [wk_wait_for_interrupt, wk_hw_step]

theorem wk_data_out (s : rspi_data) (d : Nat) (st : Option HwStep) :
    width_key (rspi_data_out s d st).2 = width_key s := by
  unfold rspi_data_out
  simp only []
  split_ifs
  · exact wk_wait_tx_empty s st
  · simp only [wk_write_data, wk_wait_tx_empty]

theorem wk_data_in (s : rspi_data) (st : Option HwStep) :
    width_key (rspi_data_in s st).2 = width_key s := by
  unfold rspi_data_in
  simp only []
  split_ifs
  · exact wk_wait_rx_full s st
  · simp only [wk_read_data, wk_wait_rx_full]

theorem wk_tx_half (tx : Option (List Nat)) (i : Nat) (s : rspi_data) (rx : Option (List Nat))
    (script : List HwStep) : width_key (pio_tx_half tx i s rx script).rspi = width_key s := by
  cases tx with
  | none => rfl
  | some t => exact wk_data_out s _ _

theorem wk_rx_half (i : Nat) (s : rspi_data) (rx : Option (List Nat))
    (script : List HwStep) : width_key (pio_rx_half i s rx script).rspi = width_key s := by
  cases rx with
  | none => rfl
  | some r =>
    simp only [pio_rx_half]
    split_ifs <;> exact wk_data_in s _

theorem wk_pio_loop (tx : Option (List Nat)) (n : Nat) :
    ∀ (i : Nat) (s : rspi_data) (rx : Option (List Nat)) (script : List HwStep),
      width_key (rspi_pio_loop tx n i s rx script).rspi = width_key s := by
  induction n with
  | zero => intro i s rx script; rfl
  | succ n ih =>
    intro i s rx script
    simp only [rspi_pio_loop]
    split_ifs
    · exact wk_tx_half tx i s rx script
    · rw [wk_rx_half, wk_tx_half]
    · rw [ih, wk_rx_half, wk_tx_half]

theorem wk_pio_transfer (s : rspi_data) (tx rx : Option (List Nat)) (n : Nat)
    (script : List HwStep) :
    width_key (rspi_pio_transfer s tx rx n script).rspi = width_key s :=
  wk_pio_loop tx n 0 s rx script

theorem wk_receive_init (s : rspi_data) : width_key (rspi_receive_init s) = width_key s := by
  unfold rspi_receive_init
  simp only []
  split_ifs <;> simp only [wk_write8, wk_read8, wk_read_data]

theorem wk_rz_receive_init (s : rspi_data) :
    width_key (rspi_rz_receive_init s) = width_key s := by
  unfold rspi_rz_receive_init
  simp only [wk_write8, wk_receive_init]

theorem wk_qspi_receive_init (s : rspi_data) :
    width_key (qspi_receive_init s) = width_key s := by
  unfold qspi_receive_init
  simp only []
  split_ifs <;> simp only [wk_write8, wk_read8, wk_read_data]

theorem wk_upd (s : rspi_data) (r d m c W) : width_key (upd s r d m c W) = width_key s := rfl

theorem wk_send_dma (s : rspi_data) (t : spi_transfer) (env : DmaEnv) :
    width_key (rspi_send_dma s t env).2 = width_key s := by
  obtain ⟨R, W, e, -⟩ := send_dma_upd s s.regs s.irq_depth s.sg_mapped s.dma_callbacked [] t env
  rw [← upd_self] at e
  rw [e]
  rfl

theorem wk_send_receive_dma (s : rspi_data) (t : spi_transfer) (env : DmaEnv) :
    width_key (rspi_send_receive_dma s t env).2 = width_key s := by
  obtain ⟨R, W, e, -⟩ :=
    send_receive_dma_upd s s.regs s.irq_depth s.sg_mapped s.dma_callbacked [] t env
  rw [← upd_self] at e
  rw [e]
  rfl

theorem wk_transfer_out_in (s : rspi_data) (x : spi_transfer) (script : List HwStep) :
    width_key (rspi_transfer_out_in s x script).rspi = width_key s := by
  unfold rspi_transfer_out_in
  simp only []
  split_ifs <;>
    simp only [wk_wait_tx_empty, wk_pio_transfer, wk_write8, wk_receive_init, wk_read8]

theorem wk_rz_transfer_out_in (s : rspi_data) (x : spi_transfer) (script : List HwStep) :
    width_key (rspi_rz_transfer_out_in s x script).rspi = width_key s := by
  unfold rspi_rz_transfer_out_in
  simp only []
  split_ifs <;> simp only [wk_wait_tx_empty, wk_pio_transfer, wk_rz_receive_init]

theorem wk_qspi_transfer_out_in (s : rspi_data) (x : spi_transfer) (script : List HwStep) :
    width_key (qspi_transfer_out_in s x script).rspi = width_key s := by
  unfold qspi_transfer_out_in
  simp only []
  split_ifs <;> simp only [wk_wait_tx_empty, wk_pio_transfer, wk_qspi_receive_init]

theorem wk_qspi_transfer_out (s : rspi_data) (x : spi_transfer) (script : List HwStep) :
    width_key (qspi_transfer_out s x script).rspi = width_key s := by
  unfold qspi_transfer_out
  simp only []
  split_ifs <;> simp only [wk_wait_tx_empty, wk_pio_transfer]

theorem wk_qspi_transfer_in (s : rspi_data) (x : spi_transfer) (script : List HwStep) :
    width_key (qspi_transfer_in s x script).rspi = width_key s :=
  wk_pio_transfer _ _ _ _ _

theorem wk_transfer_one (s : rspi_data) (spi : spi_device) (x : spi_transfer) (env : Env) :
    width_key (transfer_one s spi x env).rspi = width_key s := by
  unfold transfer_one
  cases s.ops
  · simp only [rspi_transfer_one]
    split_ifs
    · exact wk_transfer_out_in _ _ _
    · exact wk_send_receive_dma _ _ _
    · exact wk_send_dma _ _ _
  · exact wk_rz_transfer_out_in _ _ _
  · simp only [qspi_transfer_one]
    split_ifs
    · exact wk_qspi_transfer_out_in _ _ _
    · exact wk_qspi_transfer_out _ _ _
    · exact wk_qspi_transfer_in _ _ _
    · exact wk_qspi_transfer_out_in _ _ _

theorem wk_sequencer_loop (xs : List spi_transfer) :
    ∀ (s : rspi_data) (i len mode : Nat),
      width_key (qspi_sequencer_loop xs s i len mode).2 = width_key s := by
  induction xs with
  | nil =>
    intro s i len mode
    simp only [qspi_sequencer_loop]
    split_ifs <;> rfl
  | cons x rest ih =>
    intro s i len mode
    simp only [qspi_sequencer_loop]
    split_ifs <;> simp only [ih, wk_write16, wk_write32]

theorem wk_prepare_message (s : rspi_data) (msg : spi_message) :
    width_key (rspi_prepare_message s msg).2 = width_key s := by
  unfold rspi_prepare_message qspi_setup_sequencer
  simp only []
  split_ifs <;> simp only [wk_sequencer_loop, wk_write8, wk_read8]

theorem wk_unprepare_message (s : rspi_data) (msg : spi_message) :
    width_key (rspi_unprepare_message s msg).2 = width_key s := rfl

theorem wk_set_spcmd (s : rspi_data) (v : Nat) :
    width_key { s with spcmd := v } = width_key s := rfl

theorem wk_set_byte (s : rspi_data) (b : Bool) :
    width_key { s with byte_access := b } = (s.ops, b) := rfl

theorem ops_write8 (s : rspi_data) (d o : Nat) : (rspi_write8 s d o).ops = s.ops := rfl

theorem wk_legacy_config (s : rspi_data) (n : Int) (r : Int × rspi_data)
    (h : rspi_set_config_register s n = some r) :
    width_key r.2 = (s.ops, false) := by
  cases hv : rspi_spbr s with
  | none =>
    have e : rspi_set_config_register s n = none := by
      simp only [rspi_set_config_register, rspi_spbr_write8, hv]
    rw [e] at h
    exact absurd h (by simp)
  | some v =>
    have e : ∃ q, rspi_set_config_register s n = some q ∧ width_key q.2 = (s.ops, false) := by
      simp only [rspi_set_config_register, rspi_spbr_write8, hv]
      refine ⟨_, rfl, ?_⟩
      simp only [wk_write8, wk_write16, wk_write32, wk_set_spcmd, wk_set_byte]
      simp only [ops_write8]
    obtain ⟨q, e1, e2⟩ := e
    rw [e1] at h
    have hq : q = r := Option.some.inj h
    rw [← hq]
    exact e2

theorem wk_rz_config (s : rspi_data) (n : Int) (r : Int × rspi_data)
    (h : rspi_rz_set_config_register s n = some r) :
    width_key r.2 = (s.ops, true) := by
  cases hv : rspi_spbr s with
  | none =>
    have e : rspi_rz_set_config_register s n = none := by
      simp only [rspi_rz_set_config_register, rspi_spbr_write8, hv]
    rw [e] at h
    exact absurd h (by simp)
  | some v =>
    have e : ∃ q, rspi_rz_set_config_register s n = some q ∧ width_key q.2 = (s.ops, true) := by
      simp only [rspi_rz_set_config_register, rspi_spbr_write8, hv]
      refine ⟨_, rfl, ?_⟩
      simp only [wk_write8, wk_write16, wk_write32, wk_set_spcmd, wk_set_byte]
      simp only [ops_write8]
    obtain ⟨q, e1, e2⟩ := e
    rw [e1] at h
    have hq : q = r := Option.some.inj h
    rw [← hq]
    exact e2

theorem wk_qspi_config (s : rspi_data) (n : Int) (r : Int × rspi_data)
    (h : qspi_set_config_register s n = some r) :
    width_key r.2 = (s.ops, true) := by
  cases hv : qspi_spbr s with
  | none =>
    have e : qspi_set_config_register s n = none := by
      simp only [qspi_set_config_register, qspi_spbr_write8, hv]
    rw [e] at h
    exact absurd h (by simp)
  | some v =>
    have e : ∃ q, qspi_set_config_register s n = some q ∧ width_key q.2 = (s.ops, true) := by
      simp only [qspi_set_config_register, qspi_spbr_write8, hv]
      refine ⟨_, rfl, ?_⟩
      simp only [wk_write8, wk_write16, wk_write32, wk_set_spcmd, wk_set_byte]
      simp only [ops_write8]
    obtain ⟨q, e1, e2⟩ := e
    rw [e1] at h
    have hq : q = r := Option.some.inj h
    rw [← hq]
    exact e2

theorem wk_set_config_register (s : rspi_data) (n : Int) (r : Int × rspi_data)
    (h : set_config_register s n = some r) :
    width_key r.2 = (s.ops, decide (s.ops ≠ Variant.legacy)) := by
  unfold set_config_register at h
  cases ho : s.ops
  · rw [ho] at h
    rw [wk_legacy_config s n r h, ho]
    rfl
  · rw [ho] at h
    rw [wk_rz_config s n r h, ho]
    rfl
  · rw [ho] at h
    rw [wk_qspi_config s n r h, ho]
    rfl

theorem wk_setup (s : rspi_data) (spi : spi_device) (r : Int × rspi_data)
    (h : rspi_setup s spi = some r) :
    width_key r.2 = (s.ops, decide (s.ops ≠ Variant.legacy)) := by
  unfold rspi_setup at h
  simp only [] at h
  split at h
  · exact absurd h (by simp)
  · rename_i q hq
    injection h with h
    subst h
    have key := wk_set_config_register _ _ q hq
    exact key

theorem wk_reachable (s : rspi_data) (h : Reachable s) :
    width_key s = (s.ops, decide (s.ops ≠ Variant.legacy)) := by
  have key : ∀ s, Reachable s → s.byte_access = decide (s.ops ≠ Variant.legacy) := by
    intro s h
    induction h with
    | configure s n r h =>
      have := wk_set_config_register s n r h
      simp only [width_key, Prod.mk.injEq] at this
      rw [this.2, this.1]
    | setup s spi r h =>
      have := wk_setup s spi r h
      simp only [width_key, Prod.mk.injEq] at this
      rw [this.2, this.1]
    | prepare s msg _ ih =>
      have := wk_prepare_message s msg
      simp only [width_key, Prod.mk.injEq] at this
      rw [this.2, this.1, ih]
    | transfer s spi x env _ ih =>
      have := wk_transfer_one s spi x env
      simp only [width_key, Prod.mk.injEq] at this
      rw [this.2, this.1, ih]
    | irq s e _ ih =>
      have := wk_deliver_irq s e
      simp only [width_key, Prod.mk.injEq] at this
      rw [this.2, this.1, ih]
    | unprepare s msg _ ih =>
      have := wk_unprepare_message s msg
      simp only [width_key, Prod.mk.injEq] at this
      rw [this.2, this.1, ih]
  simp only [width_key, key s h]

theorem write_data_events (s : rspi_data) (data : Nat) :
    new_events s (rspi_write_data s data) =
      [if s.byte_access then Event.wr 8 RSPI_SPDR (data % 256)
       else Event.wr 16 RSPI_SPDR (data % 65536)] := by
  unfold rspi_write_data
  split_ifs
  · exact new_events_eq _ _ _ (rspi_write8_trace _ _ _)
  · exact new_events_eq _ _ _ (rspi_write16_trace _ _ _)

theorem read_data_events (s : rspi_data) :
    new_events s (rspi_read_data s).2 =
      [if s.byte_access then Event.rd 8 RSPI_SPDR (s.regs RSPI_SPDR % 256)
       else Event.rd 16 RSPI_SPDR (s.regs RSPI_SPDR % 65536)] := by
  unfold rspi_read_data
  split_ifs
  · exact new_events_eq _ _ _ rfl
  · exact new_events_eq _ _ _ rfl

theorem ck_emit (s : rspi_data) (e : Event) : cache_key (emit s e) = cache_key s := rfl

theorem ck_write8 (s : rspi_data) (d o : Nat) : cache_key (rspi_write8 s d o) = cache_key s :=
  rfl

theorem ck_write16 (s : rspi_data) (d o : Nat) :
    cache_key (rspi_write16 s d o) = cache_key s := rfl

theorem ck_write32 (s : rspi_data) (d o : Nat) :
    cache_key (rspi_write32 s d o) = cache_key s := rfl

theorem ck_read8 (s : rspi_data) (o : Nat) : cache_key (rspi_read8 s o).2 = cache_key s := rfl

theorem ck_read16 (s : rspi_data) (o : Nat) : cache_key (rspi_read16 s o).2 = cache_key s :=
  rfl

theorem ck_write_data (s : rspi_data) (d : Nat) :
    cache_key (rspi_write_data s d) = cache_key s := by
  unfold rspi_write_data
  split_ifs <;> rfl

theorem ck_read_data (s : rspi_data) : cache_key (rspi_read_data s).2 = cache_key s := by
  unfold rspi_read_data
  split_ifs <;> rfl

theorem ck_rspi_enable_irq (s : rspi_data) (e : Nat) :
    cache_key (rspi_enable_irq s e) = cache_key s := rfl

theorem ck_rspi_disable_irq (s : rspi_data) (e : Nat) :
    cache_key (rspi_disable_irq s e) = cache_key s := rfl

theorem ck_irq_mux (s : rspi_data) : cache_key (rspi_irq_mux s).2 = cache_key s := by
  unfold rspi_irq_mux
  simp only []
  split_ifs <;> rfl

theorem ck_irq_rx (s : rspi_data) : cache_key (rspi_irq_rx s).2 = cache_key s := by
  unfold rspi_irq_rx
  simp only []
  split_ifs <;> rfl

theorem ck_irq_tx (s : rspi_data) : cache_key (rspi_irq_tx s).2 = cache_key s := by
  unfold rspi_irq_tx
  simp only []
  split_ifs <;> rfl

theorem ck_deliver_irq (s : rspi_data) (e : IrqEvent) :
    cache_key (deliver_irq s e) = cache_key s := by
  unfold deliver_irq
  simp only []
  split_ifs
  · rw [ck_irq_mux]; rfl
  · cases e.line
    · simp only []; rw [ck_irq_rx]; rfl
    · simp only []; rw [ck_irq_tx]; rfl

theorem ck_run_irqs (irqs : List IrqEvent) (s : rspi_data) :
    cache_key (run_irqs s irqs) = cache_key s := by
  induction irqs generalizing s with
  | nil => rfl
  | cons e rest ih =>
    show cache_key (run_irqs (deliver_irq s e) rest) = _
    rw [ih, ck_deliver_irq]

theorem ck_wait_event_timeout (s : rspi_data) (m : Nat) (irqs : List IrqEvent) :
    cache_key (wait_event_timeout s m irqs).2 = cache_key s := by
  unfold wait_event_timeout
  split_ifs
  · rfl
  · simp only [ck_emit, ck_run_irqs]

theorem ck_wait_for_interrupt (s : rspi_data) (m b : Nat) (w : WaitEnv) :
    cache_key (rspi_wait_for_interrupt s m b w).2 = cache_key s := by
  unfold rspi_wait_for_interrupt
  simp only []
  split_ifs
  · rfl
  · simp only [ck_emit, ck_run_irqs, ck_wait_event_timeout, ck_rspi_enable_irq]; rfl
  · simp only [ck_emit, ck_run_irqs, ck_wait_event_timeout, ck_rspi_enable_irq]; rfl

theorem ck_hw_step (s : rspi_data) (st : Option HwStep) :
    cache_key (hw_step s st) = cache_key s := by
  cases st <;> rfl

theorem ck_wait_tx_empty (s : rspi_data) (st : Option HwStep) :
    cache_key (rspi_wait_for_tx_empty s st).2 = cache_key s := by
  unfold rspi_wait_for_tx_empty
  rw [ck_wait_for_interrupt, ck_hw_step]

theorem ck_wait_rx_full (s : rspi_data) (st : Option HwStep) :
    cache_key (rspi_wait_for_rx_full s st).2 = cache_key s := by
  unfold rspi_wait_for_rx_full
  rw [ck_wait_for_interrupt, ck_hw_step]

theorem ck_data_out (s : rspi_data) (d : Nat) (st : Option HwStep) :
    cache_key (rspi_data_out s d st).2 = cache_key s := by
  unfold rspi_data_out
  simp only []
  split_ifs
  · exact ck_wait_tx_empty s st
  · simp only [ck_write_data, ck_wait_tx_empty]

theorem ck_data_in (s : rspi_data) (st : Option HwStep) :
    cache_key (rspi_data_in s st).2 = cache_key s := by
  unfold rspi_data_in
  simp only []
  split_ifs
  · exact ck_wait_rx_full s st
  · simp only [ck_read_data, ck_wait_rx_full]

theorem ck_tx_half (tx : Option (List Nat)) (i : Nat) (s : rspi_data) (rx : Option (List Nat))
    (script : List HwStep) : cache_key (pio_tx_half tx i s rx script).rspi = cache_key s := by
  cases tx with
  | none => rfl
  | some t => exact ck_data_out s _ _

theorem ck_rx_half (i : Nat) (s : rspi_data) (rx : Option (List Nat))
    (script : List HwStep) : cache_key (pio_rx_half i s rx script).rspi = cache_key s := by
  cases rx with
  | none => rfl
  | some r =>
    simp only [pio_rx_half]
    split_ifs <;> exact ck_data_in s _

theorem ck_pio_loop (tx : Option (List Nat)) (n : Nat) :
    ∀ (i : Nat) (s : rspi_data) (rx : Option (List Nat)) (script : List HwStep),
      cache_key (rspi_pio_loop tx n i s rx script).rspi = cache_key s := by
  induction n with
  | zero => intro i s rx script; rfl
  | succ n ih =>
    intro i s rx script
    simp only [rspi_pio_loop]
    split_ifs
    · exact ck_tx_half tx i s rx script
    · rw [ck_rx_half, ck_tx_half]
    · rw [ih, ck_rx_half, ck_tx_half]

theorem ck_pio_transfer (s : rspi_data) (tx rx : Option (List Nat)) (n : Nat)
    (script : List HwStep) :
    cache_key (rspi_pio_transfer s tx rx n script).rspi = cache_key s :=
  ck_pio_loop tx n 0 s rx script

theorem ck_receive_init (s : rspi_data) : cache_key (rspi_receive_init s) = cache_key s := by
  unfold rspi_receive_init
  simp only []
  split_ifs <;> simp only [ck_write8, ck_read8, ck_read_data]

theorem ck_rz_receive_init (s : rspi_data) :
    cache_key (rspi_rz_receive_init s) = cache_key s := by
  unfold rspi_rz_receive_init
  simp only [ck_write8, ck_receive_init]

theorem ck_qspi_receive_init (s : rspi_data) :
    cache_key (qspi_receive_init s) = cache_key s := by
  unfold qspi_receive_init
  simp only []
  split_ifs <;> simp only [ck_write8, ck_read8, ck_read_data]

theorem ck_upd (s : rspi_data) (r d m c W) : cache_key (upd s r d m c W) = cache_key s := rfl

theorem ck_send_dma (s : rspi_data) (t : spi_transfer) (env : DmaEnv) :
    cache_key (rspi_send_dma s t env).2 = cache_key s := by
  obtain ⟨R, W, e, -⟩ := send_dma_upd s s.regs s.irq_depth s.sg_mapped s.dma_callbacked [] t env
  rw [← upd_self] at e
  rw [e]
  rfl

theorem ck_send_receive_dma (s : rspi_data) (t : spi_transfer) (env : DmaEnv) :
    cache_key (rspi_send_receive_dma s t env).2 = cache_key s := by
  obtain ⟨R, W, e, -⟩ :=
    send_receive_dma_upd s s.regs s.irq_depth s.sg_mapped s.dma_callbacked [] t env
  rw [← upd_self] at e
  rw [e]
  rfl

theorem ck_transfer_out_in (s : rspi_data) (x : spi_transfer) (script : List HwStep) :
    cache_key (rspi_transfer_out_in s x script).rspi = cache_key s := by
  unfold rspi_transfer_out_in
  simp only []
  split_ifs <;>
    simp only [ck_wait_tx_empty, ck_pio_transfer, ck_write8, ck_receive_init, ck_read8]

theorem ck_rz_transfer_out_in (s : rspi_data) (x : spi_transfer) (script : List HwStep) :
    cache_key (rspi_rz_transfer_out_in s x script).rspi = cache_key s := by
  unfold rspi_rz_transfer_out_in
  simp only []
  split_ifs <;> simp only [ck_wait_tx_empty, ck_pio_transfer, ck_rz_receive_init]

theorem ck_qspi_transfer_out_in (s : rspi_data) (x : spi_transfer) (script : List HwStep) :
    cache_key (qspi_transfer_out_in s x script).rspi = cache_key s := by
  unfold qspi_transfer_out_in
  simp only []
  split_ifs <;> simp only [ck_wait_tx_empty, ck_pio_transfer, ck_qspi_receive_init]

theorem ck_qspi_transfer_out (s : rspi_data) (x : spi_transfer) (script : List HwStep) :
    cache_key (qspi_transfer_out s x script).rspi = cache_key s := by
  unfold qspi_transfer_out
  simp only []
  split_ifs <;> simp only [ck_wait_tx_empty, ck_pio_transfer]

theorem ck_qspi_transfer_in (s : rspi_data) (x : spi_transfer) (script : List HwStep) :
    cache_key (qspi_transfer_in s x script).rspi = cache_key s :=
  ck_pio_transfer _ _ _ _ _

theorem ck_transfer_one (s : rspi_data) (spi : spi_device) (x : spi_transfer) (env : Env) :
    cache_key (transfer_one s spi x env).rspi = cache_key s := by
  unfold transfer_one
  cases s.ops
  · simp only [rspi_transfer_one]
    split_ifs
    · exact ck_transfer_out_in _ _ _
    · exact ck_send_receive_dma _ _ _
    · exact ck_send_dma _ _ _
  · exact ck_rz_transfer_out_in _ _ _
  · simp only [qspi_transfer_one]
    split_ifs
    · exact ck_qspi_transfer_out_in _ _ _
    · exact ck_qspi_transfer_out _ _ _
    · exact ck_qspi_transfer_in _ _ _
    · exact ck_qspi_transfer_out_in _ _ _

theorem ck_sequencer_loop (xs : List spi_transfer) :
    ∀ (s : rspi_data) (i len mode : Nat),
      cache_key (qspi_sequencer_loop xs s i len mode).2 = cache_key s := by
  induction xs with
  | nil =>
    intro s i len mode
    simp only [qspi_sequencer_loop]
    split_ifs <;> rfl
  | cons x rest ih =>
    intro s i len mode
    simp only [qspi_sequencer_loop]
    split_ifs <;> simp only [ih, ck_write16, ck_write32]

theorem ck_prepare_message (s : rspi_data) (msg : spi_message) :
    cache_key (rspi_prepare_message s msg).2 = cache_key s := by
  unfold rspi_prepare_message qspi_setup_sequencer
  simp only []
  split_ifs <;> simp only [ck_sequencer_loop, ck_write8, ck_read8]

theorem ck_unprepare_message (s : rspi_data) (msg : spi_message) :
    cache_key (rspi_unprepare_message s msg).2 = cache_key s := rfl

theorem ext_refl (P : Event → Bool) (x : rspi_data) : Ext P x x :=
  ⟨[], by simp, by simp⟩

theorem ext_trans {P : Event → Bool} {x y z : rspi_data} (h1 : Ext P x y) (h2 : Ext P y z) :
    Ext P x z := by
  obtain ⟨W1, e1, p1⟩ := h1
  obtain ⟨W2, e2, p2⟩ := h2
  refine ⟨W1 ++ W2, by rw [e2, e1, List.append_assoc], ?_⟩
  intro e he
  rcases List.mem_append.1 he with h | h
  · exact p1 e h
  · exact p2 e h

theorem ext_mono {P Q : Event → Bool} {x y : rspi_data} (hPQ : ∀ e, P e = true → Q e = true)
    (h : Ext P x y) : Ext Q x y := by
  obtain ⟨W, e, p⟩ := h
  exact ⟨W, e, fun a ha => hPQ a (p a ha)⟩

theorem ext_same {P : Event → Bool} {x y : rspi_data} (h : y.trace = x.trace) : Ext P x y :=
  ⟨[], by simp [h], by simp⟩

theorem ext_emit {P : Event → Bool} (x : rspi_data) (e : Event) (h : P e = true) :
    Ext P x (emit x e) :=
  ⟨[e], rfl, by simpa using h⟩

theorem ext_new_events {P : Event → Bool} {x y : rspi_data} (h : Ext P x y) :
    y.trace = x.trace ++ new_events x y ∧ ∀ e ∈ new_events x y, P e = true := by
  obtain ⟨W, e, p⟩ := h
  have : new_events x y = W := new_events_eq x y W e
  rw [this]
  exact ⟨e, p⟩

theorem new_events_trans {P Q : Event → Bool} {x y z : rspi_data} (h1 : Ext P x y)
    (h2 : Ext Q y z) : new_events x z = new_events x y ++ new_events y z := by
  have a := (ext_new_events h1).1
  have b := (ext_new_events h2).1
  exact new_events_eq x z _ (by rw [b, a, List.append_assoc])

theorem re_write8 (x : rspi_data) (d o : Nat) : Ext reg_event x (rspi_write8 x d o) :=
  ⟨[Event.wr 8 o (d % 256)], rfl, by simp [reg_event]⟩

theorem re_read8 (x : rspi_data) (o : Nat) : Ext reg_event x (rspi_read8 x o).2 :=
  ⟨[Event.rd 8 o (x.regs o % 256)], rfl, by simp [reg_event]⟩

theorem re_read16 (x : rspi_data) (o : Nat) : Ext reg_event x (rspi_read16 x o).2 :=
  ⟨[Event.rd 16 o (x.regs o % 65536)], rfl, by simp [reg_event]⟩

theorem re_write_data (x : rspi_data) (d : Nat) : Ext reg_event x (rspi_write_data x d) := by
  unfold rspi_write_data
  split_ifs
  · exact re_write8 _ _ _
  · exact ⟨[Event.wr 16 RSPI_SPDR (d % 65536)], rfl, by simp [reg_event]⟩

theorem re_read_data (x : rspi_data) : Ext reg_event x (rspi_read_data x).2 := by
  unfold rspi_read_data
  split_ifs
  · exact re_read8 _ _
  · exact re_read16 _ _

theorem re_rspi_enable_irq (x : rspi_data) (b : Nat) :
    Ext reg_event x (rspi_enable_irq x b) :=
  ext_trans (re_read8 x RSPI_SPCR) (re_write8 _ _ _)

theorem re_rspi_disable_irq (x : rspi_data) (b : Nat) :
    Ext reg_event x (rspi_disable_irq x b) :=
  ext_trans (re_read8 x RSPI_SPCR) (re_write8 _ _ _)

theorem re_handler (x : rspi_data) (b : Nat) :
    Ext reg_event x
      (emit (rspi_disable_irq
        { (rspi_read8 x RSPI_SPSR).2 with spsr := (rspi_read8 x RSPI_SPSR).1 } b)
        Event.wake_up) :=
  ext_trans (ext_trans (ext_trans (re_read8 x RSPI_SPSR) (ext_same rfl))
    (re_rspi_disable_irq _ b)) (ext_emit _ _ rfl)

theorem re_sampled (x : rspi_data) :
    Ext reg_event x
      { (rspi_read8 x RSPI_SPSR).2 with spsr := (rspi_read8 x RSPI_SPSR).1 } :=
  ext_trans (re_read8 x RSPI_SPSR) (ext_same rfl)

theorem re_irq_mux (x : rspi_data) : Ext reg_event x (rspi_irq_mux x).2 := by
  unfold rspi_irq_mux
  simp only []
  split_ifs <;> first | exact re_handler x _ | exact re_sampled x

theorem re_irq_rx (x : rspi_data) : Ext reg_event x (rspi_irq_rx x).2 := by
  unfold rspi_irq_rx
  simp only []
  split_ifs
  · exact re_handler x _
  · exact re_sampled x

theorem re_irq_tx (x : rspi_data) : Ext reg_event x (rspi_irq_tx x).2 := by
  unfold rspi_irq_tx
  simp only []
  split_ifs
  · exact re_handler x _
  · exact re_sampled x

theorem re_deliver_irq (x : rspi_data) (e : IrqEvent) : Ext reg_event x (deliver_irq x e) := by
  unfold deliver_irq
  simp only []
  split_ifs
  · exact ext_trans (ext_same rfl) (re_irq_mux _)
  · cases e.line
    · exact ext_trans (ext_same rfl) (re_irq_rx _)
    · exact ext_trans (ext_same rfl) (re_irq_tx _)

theorem re_run_irqs (irqs : List IrqEvent) (x : rspi_data) :
    Ext reg_event x (run_irqs x irqs) := by
  induction irqs generalizing x with
  | nil => exact ext_refl _ _
  | cons e rest ih =>
    show Ext reg_event x (run_irqs (deliver_irq x e) rest)
    exact ext_trans (re_deliver_irq x e) (ih _)

theorem re_wait_event_timeout (x : rspi_data) (m : Nat) (irqs : List IrqEvent) :
    Ext reg_event x (wait_event_timeout x m irqs).2 := by
  unfold wait_event_timeout
  split_ifs
  · exact ext_refl _ _
  · exact ext_trans (re_run_irqs irqs x) (ext_emit _ _ rfl)

theorem re_wait_for_interrupt (x : rspi_data) (m b : Nat) (w : WaitEnv) :
    Ext reg_event x (rspi_wait_for_interrupt x m b w).2 := by
  unfold rspi_wait_for_interrupt
  simp only []
  split_ifs
  · exact ext_trans (re_sampled x) (ext_emit _ _ rfl)
  · exact ext_trans (ext_trans (ext_trans (ext_trans (re_sampled x) (re_rspi_enable_irq _ b))
      (re_wait_event_timeout _ m w.irqs)) (re_run_irqs w.late _)) (ext_emit _ _ rfl)
  · exact ext_trans (ext_trans (ext_trans (ext_trans (re_sampled x) (re_rspi_enable_irq _ b))
      (re_wait_event_timeout _ m w.irqs)) (re_run_irqs w.late _)) (ext_emit _ _ rfl)

theorem re_hw_step (x : rspi_data) (st : Option HwStep) : Ext reg_event x (hw_step x st) :=
  ext_same (hw_step_trace x st)

theorem re_wait_tx_empty (x : rspi_data) (st : Option HwStep) :
    Ext reg_event x (rspi_wait_for_tx_empty x st).2 :=
  ext_trans (re_hw_step x st) (re_wait_for_interrupt _ _ _ _)

theorem re_wait_rx_full (x : rspi_data) (st : Option HwStep) :
    Ext reg_event x (rspi_wait_for_rx_full x st).2 :=
  ext_trans (re_hw_step x st) (re_wait_for_interrupt _ _ _ _)

theorem re_data_out (x : rspi_data) (d : Nat) (st : Option HwStep) :
    Ext reg_event x (rspi_data_out x d st).2 := by
  unfold rspi_data_out
  simp only []
  split_ifs
  · exact re_wait_tx_empty x st
  · exact ext_trans (re_wait_tx_empty x st) (re_write_data _ _)

theorem re_data_in (x : rspi_data) (st : Option HwStep) :
    Ext reg_event x (rspi_data_in x st).2 := by
  unfold rspi_data_in
  simp only []
  split_ifs
  · exact re_wait_rx_full x st
  · exact ext_trans (re_wait_rx_full x st) (re_read_data _)

theorem re_tx_half (tx : Option (List Nat)) (i : Nat) (x : rspi_data) (rx : Option (List Nat))
    (script : List HwStep) : Ext reg_event x (pio_tx_half tx i x rx script).rspi := by
  cases tx with
  | none => exact ext_refl _ _
  | some t => exact re_data_out x _ _

theorem re_rx_half (i : Nat) (x : rspi_data) (rx : Option (List Nat))
    (script : List HwStep) : Ext reg_event x (pio_rx_half i x rx script).rspi := by
  cases rx with
  | none => exact ext_refl _ _
  | some r =>
    simp only [pio_rx_half]
    split_ifs <;> exact re_data_in x _

theorem re_pio_loop (tx : Option (List Nat)) (n : Nat) :
    ∀ (i : Nat) (x : rspi_data) (rx : Option (List Nat)) (script : List HwStep),
      Ext reg_event x (rspi_pio_loop tx n i x rx script).rspi := by
  induction n with
  | zero => intro i x rx script; exact ext_refl _ _
  | succ n ih =>
    intro i x rx script
    simp only [rspi_pio_loop]
    split_ifs
    · exact re_tx_half tx i x rx script
    · exact ext_trans (re_tx_half tx i x rx script) (re_rx_half _ _ _ _)
    · exact ext_trans (ext_trans (re_tx_half tx i x rx script) (re_rx_half _ _ _ _))
        (ih _ _ _ _)

theorem re_pio_transfer (x : rspi_data) (tx rx : Option (List Nat)) (n : Nat)
    (script : List HwStep) : Ext reg_event x (rspi_pio_transfer x tx rx n script).rspi :=
  re_pio_loop tx n 0 x rx script

theorem re_receive_init (x : rspi_data) : Ext reg_event x (rspi_receive_init x) := by
  unfold rspi_receive_init
  simp only []
  split_ifs <;>
    first
      | exact ext_trans (ext_trans (ext_trans (re_read8 x RSPI_SPSR) (re_read_data _))
          (re_read8 _ _)) (re_write8 _ _ _)
      | exact ext_trans (re_read8 x RSPI_SPSR) (re_read_data _)
      | exact ext_trans (ext_trans (re_read8 x RSPI_SPSR) (re_read8 _ _)) (re_write8 _ _ _)
      | exact re_read8 x RSPI_SPSR

theorem re_rz_receive_init (x : rspi_data) : Ext reg_event x (rspi_rz_receive_init x) :=
  ext_trans (ext_trans (re_receive_init x) (re_write8 _ _ _)) (re_write8 _ _ _)

theorem re_qspi_receive_init (x : rspi_data) : Ext reg_event x (qspi_receive_init x) := by
  unfold qspi_receive_init
  simp only []
  split_ifs
  · exact ext_trans (ext_trans (ext_trans (re_read8 x RSPI_SPSR) (re_read_data _))
      (re_write8 _ _ _)) (re_write8 _ _ _)
  · exact ext_trans (ext_trans (re_read8 x RSPI_SPSR) (re_write8 _ _ _)) (re_write8 _ _ _)


theorem re_transfer_out_in (x : rspi_data) (xfer : spi_transfer) (script : List HwStep) :
    Ext reg_event x (rspi_transfer_out_in x xfer script).rspi := by
  unfold rspi_transfer_out_in
  simp only []
  split_ifs <;>
    first
      | exact ext_trans (ext_trans (ext_trans (re_read8 x RSPI_SPCR) (re_receive_init _))
          (re_write8 _ _ _)) (re_pio_transfer _ _ _ _ _)
      | exact ext_trans (ext_trans (re_read8 x RSPI_SPCR) (re_write8 _ _ _))
          (re_pio_transfer _ _ _ _ _)
      | exact ext_trans (ext_trans (ext_trans (ext_trans (re_read8 x RSPI_SPCR)
          (re_receive_init _)) (re_write8 _ _ _)) (re_pio_transfer _ _ _ _ _))
          (re_wait_tx_empty _ _)
      | exact ext_trans (ext_trans (ext_trans (re_read8 x RSPI_SPCR) (re_write8 _ _ _))
          (re_pio_transfer _ _ _ _ _)) (re_wait_tx_empty _ _)

theorem re_rz_transfer_out_in (x : rspi_data) (xfer : spi_transfer) (script : List HwStep) :
    Ext reg_event x (rspi_rz_transfer_out_in x xfer script).rspi := by
  unfold rspi_rz_transfer_out_in
  simp only []
  split_ifs
  · exact ext_trans (re_rz_receive_init x) (re_pio_transfer _ _ _ _ _)
  · exact ext_trans (ext_trans (re_rz_receive_init x) (re_pio_transfer _ _ _ _ _))
      (re_wait_tx_empty _ _)

theorem re_qspi_transfer_out_in (x : rspi_data) (xfer : spi_transfer) (script : List HwStep) :
    Ext reg_event x (qspi_transfer_out_in x xfer script).rspi := by
  unfold qspi_transfer_out_in
  simp only []
  split_ifs
  · exact ext_trans (re_qspi_receive_init x) (re_pio_transfer _ _ _ _ _)
  · exact ext_trans (ext_trans (re_qspi_receive_init x) (re_pio_transfer _ _ _ _ _))
      (re_wait_tx_empty _ _)

theorem re_qspi_transfer_out (x : rspi_data) (xfer : spi_transfer) (script : List HwStep) :
    Ext reg_event x (qspi_transfer_out x xfer script).rspi := by
  unfold qspi_transfer_out
  simp only []
  split_ifs
  · exact re_pio_transfer _ _ _ _ _
  · exact ext_trans (re_pio_transfer _ _ _ _ _) (re_wait_tx_empty _ _)

theorem re_qspi_transfer_in (x : rspi_data) (xfer : spi_transfer) (script : List HwStep) :
    Ext reg_event x (qspi_transfer_in x xfer script).rspi :=
  re_pio_transfer _ _ _ _ _

theorem re_qspi_transfer_one (x : rspi_data) (spi : spi_device) (xfer : spi_transfer)
    (env : Env) : Ext reg_event x (qspi_transfer_one x spi xfer env).rspi := by
  unfold qspi_transfer_one
  split_ifs
  · exact re_qspi_transfer_out_in _ _ _
  · exact re_qspi_transfer_out _ _ _
  · exact re_qspi_transfer_in _ _ _
  · exact re_qspi_transfer_out_in _ _ _

theorem xe_of_re {x y : rspi_data} (h : Ext reg_event x y) : Ext xfer_event x y :=
  ext_mono (fun e he => by simp [xfer_event, he]) h

theorem xe_map_sg (x : rspi_data) (dir : Dir) (n : Nat) :
    Ext xfer_event x (rspi_dma_map_sg x dir n).2 :=
  ⟨[Event.dma_map dir n], rfl, by simp [xfer_event, dma_visible]⟩

theorem xe_unmap_sg (x : rspi_data) (dir : Dir) : Ext xfer_event x (rspi_dma_unmap_sg x dir) :=
  ⟨[Event.dma_unmap dir], rfl, by simp [xfer_event, dma_visible]⟩

theorem xe_prep (x : rspi_data) (dir : Dir) (ok : Bool) :
    Ext xfer_event x (dmaengine_prep_slave_sg x dir ok).2 :=
  ⟨[Event.dma_prep dir ok], rfl, by simp [xfer_event, dma_visible]⟩

theorem xe_disable_irq (x : rspi_data) (line : Int) : Ext xfer_event x (disable_irq x line) :=
  ⟨[Event.disable_irq line], rfl, by simp [xfer_event, dma_visible]⟩

theorem xe_enable_irq (x : rspi_data) (line : Int) : Ext xfer_event x (enable_irq x line) :=
  ⟨[Event.enable_irq line], rfl, by simp [xfer_event, dma_visible]⟩

theorem xe_dma_submit (x : rspi_data) (dir : Dir) (cb : Bool) :
    Ext xfer_event x (dma_submit x dir cb) :=
  ⟨[Event.dma_submit dir cb], rfl, by simp [xfer_event, dma_visible]⟩

theorem xe_set_cb (x : rspi_data) (b : Bool) : Ext xfer_event x (set_dma_callbacked x b) :=
  ext_same rfl

theorem xe_wait (x : rspi_data) (env : DmaEnv) :
    Ext xfer_event x (wait_event_interruptible_timeout x env).2 := by
  unfold wait_event_interruptible_timeout
  simp only []
  split_ifs
  · exact ⟨[Event.wake_up, Event.dma_waited env.wait_ret], by simp [rspi_dma_complete, emit,
      set_dma_callbacked], by simp [xfer_event, dma_visible, reg_event]⟩
  · exact ⟨[Event.dma_waited env.wait_ret], rfl, by simp [xfer_event, dma_visible]⟩

theorem xe_send_dma_run (x : rspi_data) (env : DmaEnv) :
    Ext xfer_event x (send_dma_run x env).2 := by
  unfold send_dma_run
  simp only []
  exact ext_trans (ext_trans (ext_trans (ext_trans (ext_trans (ext_trans (ext_trans (ext_trans
    (xe_disable_irq x _) (xe_of_re (re_read8 _ _))) (xe_of_re (re_write8 _ _ _)))
    (xe_of_re (re_rspi_enable_irq _ _))) (xe_set_cb _ _)) (xe_dma_submit _ _ _))
    (xe_wait _ env)) (xe_of_re (re_rspi_disable_irq _ _))) (xe_enable_irq _ _)

theorem xe_send_dma (x : rspi_data) (t : spi_transfer) (env : DmaEnv) :
    Ext xfer_event x (rspi_send_dma x t env).2 := by
  unfold rspi_send_dma
  simp only []
  split_ifs
  · exact xe_map_sg _ _ _
  · exact ext_trans (ext_trans (xe_map_sg x _ _) (xe_prep _ _ _)) (xe_unmap_sg _ _)
  · exact ext_trans (ext_trans (ext_trans (xe_map_sg x _ _) (xe_prep _ _ _))
      (xe_send_dma_run _ env)) (xe_unmap_sg _ _)

theorem xe_send_receive_dma_run (x : rspi_data) (env : DmaEnv) :
    Ext xfer_event x (send_receive_dma_run x env).2 := by
  have pre : ∀ y : rspi_data, Ext xfer_event y
      (if y.rx_irq ≠ y.tx_irq then disable_irq y y.rx_irq else y) := by
    intro y
    split_ifs
    · exact xe_disable_irq _ _
    · exact ext_refl _ _
  have post : ∀ y : rspi_data, Ext xfer_event y
      (if y.rx_irq ≠ y.tx_irq then enable_irq y y.rx_irq else y) := by
    intro y
    split_ifs
    · exact xe_enable_irq _ _
    · exact ext_refl _ _
  unfold send_receive_dma_run
  simp only []
  exact ext_trans (ext_trans (ext_trans (ext_trans (ext_trans (ext_trans (ext_trans (ext_trans
    (ext_trans (ext_trans (ext_trans (ext_trans
    (xe_of_re (re_receive_init x)) (xe_disable_irq _ _)) (pre _)) (xe_of_re (re_read8 _ _)))
    (xe_of_re (re_write8 _ _ _))) (xe_of_re (re_rspi_enable_irq _ _))) (xe_set_cb _ _))
    (xe_dma_submit _ _ _)) (xe_dma_submit _ _ _)) (xe_wait _ env))
    (xe_of_re (re_rspi_disable_irq _ _))) (xe_enable_irq _ _)) (post _)

theorem xe_send_receive_dma (x : rspi_data) (t : spi_transfer) (env : DmaEnv) :
    Ext xfer_event x (rspi_send_receive_dma x t env).2 := by
  unfold rspi_send_receive_dma
  simp only []
  split_ifs
  · exact xe_map_sg _ _ _
  · exact ext_trans (ext_trans (xe_map_sg x _ _) (xe_prep _ _ _)) (xe_unmap_sg _ _)
  · exact ext_trans (ext_trans (ext_trans (xe_map_sg x _ _) (xe_prep _ _ _))
      (xe_map_sg _ _ _)) (xe_unmap_sg _ _)
  · exact ext_trans (ext_trans (ext_trans (ext_trans (ext_trans (xe_map_sg x _ _)
      (xe_prep _ _ _)) (xe_map_sg _ _ _)) (xe_prep _ _ _)) (xe_unmap_sg _ _)) (xe_unmap_sg _ _)
  · exact ext_trans (ext_trans (ext_trans (ext_trans (ext_trans (ext_trans (xe_map_sg x _ _)
      (xe_prep _ _ _)) (xe_map_sg _ _ _)) (xe_prep _ _ _)) (xe_send_receive_dma_run _ env))
      (xe_unmap_sg _ _)) (xe_unmap_sg _ _)

theorem xe_transfer_one (x : rspi_data) (spi : spi_device) (xfer : spi_transfer) (env : Env) :
    Ext xfer_event x (transfer_one x spi xfer env).rspi := by
  unfold transfer_one
  cases x.ops
  · simp only [rspi_transfer_one]
    split_ifs
    · exact xe_of_re (re_transfer_out_in _ _ _)
    · exact xe_send_receive_dma _ _ _
    · exact xe_send_dma _ _ _
  · exact xe_of_re (re_rz_transfer_out_in _ _ _)
  · exact xe_of_re (re_qspi_transfer_one _ _ _ _)

theorem ae_set_byte (x : rspi_data) (evs : List Event) (b : Bool) :
    { apply_events x evs with byte_access := b } =
      apply_events { x with byte_access := b } evs := rfl

theorem ae_set_spcmd (x : rspi_data) (evs : List Event) (c : Nat) :
    { apply_events x evs with spcmd := c } = apply_events { x with spcmd := c } evs := rfl

theorem ae_set_both (x : rspi_data) (evs : List Event) (b : Bool) (c : Nat) :
    { apply_events x evs with byte_access := b, spcmd := c } =
      apply_events { x with byte_access := b, spcmd := c } evs := rfl

theorem set_byte_spcmd (x : rspi_data) (b : Bool) :
    ({ x with byte_access := b } : rspi_data).spcmd = x.spcmd := rfl

theorem set_spcmd_spcmd (x : rspi_data) (c : Nat) :
    ({ x with spcmd := c } : rspi_data).spcmd = c := rfl

theorem legacy_config_closed (s : rspi_data) (n v : Int) (hv : rspi_spbr s = some v) :
    rspi_set_config_register s n =
      some (0, apply_events
        { s with byte_access := false, spcmd := s.spcmd ||| SPCMD_SPB_8_TO_16 n }
        (legacy_config_events s.spcmd s.sppcr n v)) := by
  simp only [rspi_set_config_register, rspi_spbr_write8, hv]
  simp only [rspi_write8_eq, rspi_write16_eq, apply_events_append, ae_set_byte, ae_set_spcmd, ae_set_both,
    apply_events_spcmd, set_byte_spcmd, set_spcmd_spcmd, List.cons_append, List.nil_append]
  rfl


theorem rz_config_closed (s : rspi_data) (n v : Int) (hv : rspi_spbr s = some v) :
    rspi_rz_set_config_register s n =
      some (0, apply_events
        { s with byte_access := true, spcmd := s.spcmd ||| SPCMD_SPB_8_TO_16 n }
        (rz_config_events s.spcmd s.sppcr n v)) := by
  simp only [rspi_rz_set_config_register, rspi_spbr_write8, hv]
  simp only [rspi_write8_eq, rspi_write16_eq, apply_events_append, ae_set_byte, ae_set_spcmd,
    ae_set_both, apply_events_spcmd, set_byte_spcmd, set_spcmd_spcmd, List.cons_append,
    List.nil_append]
  rfl

theorem qspi_enc_assoc (c : Nat) (n : Int) :
    c ||| (if n = 8 then SPCMD_SPB_8BIT else if n = 16 then SPCMD_SPB_16BIT
      else SPCMD_SPB_32BIT) ||| (SPCMD_SCKDEN ||| SPCMD_SLNDEN ||| SPCMD_SPNDEN) =
      c ||| qspi_enc n := by
  unfold qspi_enc
  rw [Nat.lor_assoc]

theorem qspi_config_closed (s : rspi_data) (n v : Int) (hv : qspi_spbr s = some v) :
    qspi_set_config_register s n =
      some (0, apply_events
        { s with byte_access := true, spcmd := s.spcmd ||| qspi_enc n }
        (qspi_config_events s.spcmd s.sppcr n v)) := by
  simp only [qspi_set_config_register, qspi_spbr_write8, hv]
  simp only [rspi_write8_eq, rspi_write16_eq, rspi_write32_eq, apply_events_append, ae_set_byte,
    ae_set_spcmd, ae_set_both, apply_events_spcmd, set_byte_spcmd, set_spcmd_spcmd,
    List.cons_append, List.nil_append, qspi_enc_assoc]
  rfl

theorem legacy_config_none (s : rspi_data) (n : Int) (hv : rspi_spbr s = none) :
    rspi_set_config_register s n = none := by
  simp only [rspi_set_config_register, rspi_spbr_write8, hv]

theorem rz_config_none (s : rspi_data) (n : Int) (hv : rspi_spbr s = none) :
    rspi_rz_set_config_register s n = none := by
  simp only [rspi_rz_set_config_register, rspi_spbr_write8, hv]

theorem qspi_config_none (s : rspi_data) (n : Int) (hv : qspi_spbr s = none) :
    qspi_set_config_register s n = none := by
  simp only [qspi_set_config_register, qspi_spbr_write8, hv]


theorem config_closed (s : rspi_data) (n : Int) :
    set_config_register s n =
      (config_spbr s).map (fun v =>
        ((0 : Int), apply_events
          { s with byte_access := config_byte s.ops, spcmd := s.spcmd ||| config_enc s.ops n }
          (config_events s.ops s.spcmd s.sppcr n v))) := by
  unfold set_config_register config_spbr
  cases ho : s.ops
  · simp only []
    cases hv : rspi_spbr s with
    | none => rw [legacy_config_none s n hv]; rfl
    | some v => rw [legacy_config_closed s n v hv]; simp only [ho]; rfl
  · simp only []
    cases hv : rspi_spbr s with
    | none => rw [rz_config_none s n hv]; rfl
    | some v => rw [rz_config_closed s n v hv]; simp only [ho]; rfl
  · simp only []
    cases hv : qspi_spbr s with
    | none => rw [qspi_config_none s n hv]; rfl
    | some v => rw [qspi_config_closed s n v hv]; simp only [ho]; rfl

theorem div_round_up_some (n d : Nat) (h : d ≠ 0) : ∃ q, DIV_ROUND_UP n d = some q := by
  unfold DIV_ROUND_UP
  rw [if_neg h]
  exact ⟨_, rfl⟩

theorem rspi_spbr_some (s : rspi_data) (h : 2 * s.max_speed_hz % 4294967296 ≠ 0) :
    ∃ v, rspi_spbr s = some v := by
  obtain ⟨q, hq⟩ := div_round_up_some (s.clk_rate % 2 ^ BITS_PER_LONG) _ h
  unfold rspi_spbr
  rw [hq]
  exact ⟨_, rfl⟩

theorem qspi_spbr_some (s : rspi_data) (h : 2 * s.max_speed_hz % 4294967296 ≠ 0) :
    ∃ v, qspi_spbr s = some v := by
  obtain ⟨q, hq⟩ := div_round_up_some (s.clk_rate % 2 ^ BITS_PER_LONG) _ h
  unfold qspi_spbr
  rw [hq]
  exact ⟨_, rfl⟩

theorem config_spbr_some (s : rspi_data) (h : 2 * s.max_speed_hz % 4294967296 ≠ 0) :
    ∃ v, config_spbr s = some v := by
  unfold config_spbr
  cases s.ops
  · exact rspi_spbr_some s h
  · exact rspi_spbr_some s h
  · exact qspi_spbr_some s h

theorem setup_closed (s : rspi_data) (spi : spi_device) :
    rspi_setup s spi =
      (set_config_register (setup_state s spi) 8).map (fun r => ((0 : Int), r.2)) := by
  unfold rspi_setup setup_state setup_spcmd setup_sppcr
  by_cases h1 : spi.mode &&& SPI_CPOL ≠ 0 <;> by_cases h2 : spi.mode &&& SPI_CPHA ≠ 0 <;>
    by_cases h3 : spi.mode &&& SPI_LOOP ≠ 0 <;>
    simp only [h1, h2, h3, if_true, if_false, not_true_eq_false, not_false_eq_true,
      Nat.or_zero, Nat.zero_or, ne_eq] <;>
    split <;> rename_i heq <;> rw [heq] <;> rfl

theorem spb_lt (n : Int) : SPCMD_SPB_8_TO_16 n < 65536 := by
  unfold SPCMD_SPB_8_TO_16
  exact lt_of_le_of_lt Nat.and_le_right (by decide)

theorem qspi_enc_lt (n : Int) : qspi_enc n < 65536 := by
  unfold qspi_enc
  split_ifs <;> decide

theorem config_enc_lt (ops : Variant) (n : Int) : config_enc ops n < 65536 := by
  cases ops
  · exact spb_lt n
  · exact spb_lt n
  · exact qspi_enc_lt n

theorem lor_lt_u16 (a b : Nat) (ha : a < 65536) (hb : b < 65536) : a ||| b < 65536 :=
  Nat.or_lt_two_pow (n := 16) ha hb

theorem new_events_apply (s : rspi_data) (s' : rspi_data) (evs : List Event)
    (h : s'.trace = s.trace) : new_events s (apply_events s' evs) = evs :=
  new_events_eq s _ evs (by rw [apply_events_trace, h])

theorem new_events_apply_with (s : rspi_data) (b : Bool) (c : Nat) (evs : List Event) :
    new_events s (apply_events { s with byte_access := b, spcmd := c } evs) = evs :=
  new_events_apply s _ evs rfl

theorem writes_legacy_spcmd0 (c p : Nat) (n v : Int) :
    writes_to RSPI_SPCMD0 (legacy_config_events c p n v) =
      [(c ||| SPCMD_SPB_8_TO_16 n) % 65536] := rfl

theorem writes_rz_spcmd0 (c p : Nat) (n v : Int) :
    writes_to RSPI_SPCMD0 (rz_config_events c p n v) =
      [(c ||| SPCMD_SPB_8_TO_16 n) % 65536] := rfl

theorem writes_qspi_spcmd0 (c p : Nat) (n v : Int) :
    writes_to RSPI_SPCMD0 (qspi_config_events c p n v) = [(c ||| qspi_enc n) % 65536] := rfl

theorem replay_legacy_spcmd0 (c p : Nat) (n v : Int) (regs : Nat → Nat) :
    replay (legacy_config_events c p n v) regs RSPI_SPCMD0 =
      (c ||| SPCMD_SPB_8_TO_16 n) % 65536 := rfl

theorem replay_rz_spcmd0 (c p : Nat) (n v : Int) (regs : Nat → Nat) :
    replay (rz_config_events c p n v) regs RSPI_SPCMD0 =
      (c ||| SPCMD_SPB_8_TO_16 n) % 65536 := rfl

theorem replay_qspi_spcmd0 (c p : Nat) (n v : Int) (regs : Nat → Nat) :
    replay (qspi_config_events c p n v) regs RSPI_SPCMD0 = (c ||| qspi_enc n) % 65536 := rfl

theorem setup_state_speed (s : rspi_data) (spi : spi_device) :
    (setup_state s spi).max_speed_hz = spi.max_speed_hz := rfl

/-- C15 (amended): for every cached command word `c` (a `u16`) and access size
`n`, with a target speed for which the divisor computation is defined (`2 *
max_speed_hz` is not 0 in `u32`, that is a speed other than 0 and 2147483648
modulo 4294967296), each configuration routine returns 0, leaves the cache equal
to `c OR enc(n)` and writes exactly that value, once, to command slot 0 (offset
0x10), which then holds it.  For `rspi_set_config_register` and
`rspi_rz_set_config_register` `enc(n)` is the shared encoding
`((n - 1) << 8) & 0x0f00` (0x0700 for 8, 0x0f00 for 16); for
`qspi_set_config_register` it is 0x0000 for 8, 0x0100 for 16 and 0x0200 for
every other size (32 among them), ORed with the three delay-enable bits 0xE000.
Consequently `rspi_setup` for a device of such a speed returns 0 and leaves the
cache slave-select-keep, OR the polarity bit iff the mode has `SPI_CPOL`, OR the
phase bit iff the mode has `SPI_CPHA`, OR `enc(8)` of the variant. -/
theorem configure_command_word (rspi : rspi_data) (n : Int)
    (hspeed : 2 * rspi.max_speed_hz % 4294967296 ≠ 0) (hc : rspi.spcmd < 65536) :
    (∃ r, rspi_set_config_register rspi n = some r ∧ r.1 = 0 ∧
      r.2.spcmd = rspi.spcmd ||| SPCMD_SPB_8_TO_16 n ∧
      writes_to RSPI_SPCMD0 (new_events rspi r.2) = [rspi.spcmd ||| SPCMD_SPB_8_TO_16 n] ∧
      r.2.regs RSPI_SPCMD0 = rspi.spcmd ||| SPCMD_SPB_8_TO_16 n) ∧
    (∃ r, rspi_rz_set_config_register rspi n = some r ∧ r.1 = 0 ∧
      r.2.spcmd = rspi.spcmd ||| SPCMD_SPB_8_TO_16 n ∧
      writes_to RSPI_SPCMD0 (new_events rspi r.2) = [rspi.spcmd ||| SPCMD_SPB_8_TO_16 n] ∧
      r.2.regs RSPI_SPCMD0 = rspi.spcmd ||| SPCMD_SPB_8_TO_16 n) ∧
    (∃ r, qspi_set_config_register rspi n = some r ∧ r.1 = 0 ∧
      r.2.spcmd = rspi.spcmd ||| qspi_enc n ∧
      writes_to RSPI_SPCMD0 (new_events rspi r.2) = [rspi.spcmd ||| qspi_enc n] ∧
      r.2.regs RSPI_SPCMD0 = rspi.spcmd ||| qspi_enc n) ∧
    (RSPI_SPCMD0 = 0x10 ∧ SPCMD_SPB_8_TO_16 8 = 0x0700 ∧ SPCMD_SPB_8_TO_16 16 = 0x0f00 ∧
      qspi_enc 8 = 0x0000 ||| 0xE000 ∧ qspi_enc 16 = 0x0100 ||| 0xE000 ∧
      qspi_enc 32 = 0x0200 ||| 0xE000) ∧
    (∀ spi : spi_device, 2 * spi.max_speed_hz % 4294967296 ≠ 0 →
      ∃ r, rspi_setup rspi spi = some r ∧ r.1 = 0 ∧
        r.2.spcmd =
          SPCMD_SSLKP ||| (if spi.mode &&& SPI_CPOL ≠ 0 then SPCMD_CPOL else 0) |||
            (if spi.mode &&& SPI_CPHA ≠ 0 then SPCMD_CPHA else 0) |||
            config_enc rspi.ops 8) := by
  obtain ⟨v, hv⟩ := rspi_spbr_some rspi hspeed
  obtain ⟨w, hw⟩ := qspi_spbr_some rspi hspeed
  have m1 : (rspi.spcmd ||| SPCMD_SPB_8_TO_16 n) % 65536 = rspi.spcmd ||| SPCMD_SPB_8_TO_16 n :=
    Nat.mod_eq_of_lt (lor_lt_u16 _ _ hc (spb_lt n))
  have m2 : (rspi.spcmd ||| qspi_enc n) % 65536 = rspi.spcmd ||| qspi_enc n :=
    Nat.mod_eq_of_lt (lor_lt_u16 _ _ hc (qspi_enc_lt n))
  refine ⟨⟨_, legacy_config_closed rspi n v hv, rfl, rfl, ?_, ?_⟩,
    ⟨_, rz_config_closed rspi n v hv, rfl, rfl, ?_, ?_⟩,
    ⟨_, qspi_config_closed rspi n w hw, rfl, rfl, ?_, ?_⟩,
    ⟨rfl, by decide, by decide, by decide, by decide, by decide⟩, ?_⟩
  · dsimp only
    rw [new_events_apply_with, writes_legacy_spcmd0, m1]
  · dsimp only
    rw [apply_events_regs, replay_legacy_spcmd0, m1]
  · dsimp only
    rw [new_events_apply_with, writes_rz_spcmd0, m1]
  · dsimp only
    rw [apply_events_regs, replay_rz_spcmd0, m1]
  · dsimp only
    rw [new_events_apply_with, writes_qspi_spcmd0, m2]
  · dsimp only
    rw [apply_events_regs, replay_qspi_spcmd0, m2]
  · intro spi hs
    obtain ⟨u, hu⟩ := config_spbr_some (setup_state rspi spi) hs
    rw [setup_closed, config_closed, hu]
    exact ⟨_, rfl, rfl, rfl⟩

/-- C15 at a concrete input: on a QSPI controller whose cache is 0x83
(slave-select-keep, polarity, phase), configure(16) returns 0, leaves 0xE183 in
the cache and writes 0xE183 to command slot 0. -/
theorem configure_command_word_witness :
    ∃ r, qspi_set_config_register
          { probed Variant.qspi with max_speed_hz := 1000000, spcmd := 0x83 } 16 = some r ∧
      r.1 = 0 ∧ r.2.spcmd = 0xE183 ∧
      writes_to RSPI_SPCMD0
        (new_events { probed Variant.qspi with max_speed_hz := 1000000, spcmd := 0x83 } r.2)
        = [0xE183] := by
  obtain ⟨r, h1, h2, h3, h4, -⟩ :=
    (configure_command_word { probed Variant.qspi with max_speed_hz := 1000000, spcmd := 0x83 }
      16 (by decide) (by decide)).2.2.1
  exact ⟨r, h1, h2, h3, h4⟩

/-- C15 (counterexample): with a target speed of 0 Hz, and likewise of
2147483648 Hz, the product `2 * max_speed_hz` is 0 in `u32`, the divisor
computation `DIV_ROUND_UP(clk, 2 * max_speed_hz)` divides by zero, and none of
the three configure routines returns, whatever the cached command word (here
0x80) and the access size (here 8); `rspi_setup` for a device of such a speed
does not return either. -/
theorem configure_undefined_speed :
    (probed Variant.legacy).max_speed_hz = 0 ∧
    rspi_set_config_register { probed Variant.legacy with spcmd := 0x80 } 8 = none ∧
    rspi_rz_set_config_register { probed Variant.rz with spcmd := 0x80 } 8 = none ∧
    qspi_set_config_register { probed Variant.qspi with spcmd := 0x80 } 8 = none ∧
    rspi_set_config_register
      { probed Variant.legacy with max_speed_hz := 2147483648, spcmd := 0x80 } 8 = none ∧
    rspi_rz_set_config_register
      { probed Variant.rz with max_speed_hz := 2147483648, spcmd := 0x80 } 8 = none ∧
    qspi_set_config_register
      { probed Variant.qspi with max_speed_hz := 2147483648, spcmd := 0x80 } 8 = none ∧
    rspi_setup (probed Variant.qspi) { mode := 0, max_speed_hz := 0 } = none ∧
    rspi_setup (probed Variant.legacy) { mode := 0, max_speed_hz := 2147483648 } = none :=
  ⟨rfl, legacy_config_none _ _ (by decide), rz_config_none _ _ (by decide),
    qspi_config_none _ _ (by decide), legacy_config_none _ _ (by decide),
    rz_config_none _ _ (by decide), qspi_config_none _ _ (by decide),
    by rw [setup_closed, config_closed]; rfl, by rw [setup_closed, config_closed]; rfl⟩

/-- With a target speed for which the divisor computation is defined, the
Legacy configure returns 0 and selects word access. -/
theorem legacy_config_returns (x : rspi_data) (n : Int)
    (hs : 2 * x.max_speed_hz % 4294967296 ≠ 0) :
    ∃ r, rspi_set_config_register x n = some r ∧ r.1 = 0 ∧ r.2.ops = x.ops ∧
      r.2.byte_access = false := by
  obtain ⟨v, hv⟩ := rspi_spbr_some x hs
  exact ⟨_, legacy_config_closed x n v hv, rfl, rfl, rfl⟩

/-- With a target speed for which the divisor computation is defined, the RZ
configure returns 0 and selects byte access. -/
theorem rz_config_returns (x : rspi_data) (n : Int)
    (hs : 2 * x.max_speed_hz % 4294967296 ≠ 0) :
    ∃ r, rspi_rz_set_config_register x n = some r ∧ r.1 = 0 ∧ r.2.ops = x.ops ∧
      r.2.byte_access = true := by
  obtain ⟨v, hv⟩ := rspi_spbr_some x hs
  exact ⟨_, rz_config_closed x n v hv, rfl, rfl, rfl⟩

/-- With a target speed for which the divisor computation is defined, the QSPI
configure returns 0 and selects byte access. -/
theorem qspi_config_returns (x : rspi_data) (n : Int)
    (hs : 2 * x.max_speed_hz % 4294967296 ≠ 0) :
    ∃ r, qspi_set_config_register x n = some r ∧ r.1 = 0 ∧ r.2.ops = x.ops ∧
      r.2.byte_access = true := by
  obtain ⟨v, hv⟩ := qspi_spbr_some x hs
  exact ⟨_, qspi_config_closed x n v hv, rfl, rfl, rfl⟩

theorem config_returns (x : rspi_data) (n : Int)
    (hs : 2 * x.max_speed_hz % 4294967296 ≠ 0) :
    ∃ r, set_config_register x n = some r ∧ r.1 = 0 := by
  obtain ⟨v, hv⟩ := config_spbr_some x hs
  rw [config_closed, hv]
  exact ⟨_, rfl, rfl⟩

theorem setup_returns (x : rspi_data) (spi : spi_device)
    (hs : 2 * spi.max_speed_hz % 4294967296 ≠ 0) :
    ∃ r, rspi_setup x spi = some r ∧ r.1 = 0 := by
  obtain ⟨q, hq, _⟩ := config_returns (setup_state x spi) 8 (by rw [setup_state_speed]; exact hs)
  rw [setup_closed, hq]
  exact ⟨_, rfl, rfl⟩

theorem word_access_events (s : rspi_data) (data : Nat) (hb : s.byte_access = false) :
    new_events s (rspi_write_data s data) = [Event.wr 16 RSPI_SPDR (data % 65536)] ∧
    new_events s (rspi_read_data s).2 = [Event.rd 16 RSPI_SPDR (s.regs RSPI_SPDR % 65536)] := by
  rw [write_data_events, read_data_events, hb]
  exact ⟨rfl, rfl⟩

theorem byte_access_events (s : rspi_data) (data : Nat) (hb : s.byte_access = true) :
    new_events s (rspi_write_data s data) = [Event.wr 8 RSPI_SPDR (data % 256)] ∧
    new_events s (rspi_read_data s).2 = [Event.rd 8 RSPI_SPDR (s.regs RSPI_SPDR % 256)] := by
  rw [write_data_events, read_data_events, hb]
  exact ⟨rfl, rfl⟩

/-- C10: access-width invariant. Each configure routine, called with any
access size on any state whose target speed lets the divisor be computed
(`2 * max_speed_hz` is not 0 in `u32`; otherwise the routine divides by zero
and there is no state after it), returns 0 and leaves the access-width flag
chosen by the routine alone: `rspi_set_config_register` (Legacy) selects word
access, `rspi_rz_set_config_register` and `qspi_set_config_register` select
byte access, and right after it `rspi_write_data` performs exactly one write
and `rspi_read_data` exactly one read at offset 0x04, of 16 bits on Legacy and
of 8 bits on RZ and QSPI. `rspi_setup` returns under the same condition on the
device's speed. In every state reachable through a configure or `rspi_setup`
followed by any sequence of `prepare_message`, `transfer_one` (PIO or DMA, any
behaviour of the hardware), interrupt deliveries and `unprepare_message`, the
flag is the one the variant's configure routine chose and the data accessors
use that width; none of those entry points changes the flag or the variant. -/
theorem access_width_invariant (s : rspi_data) (h : Reachable s) (data : Nat) :
    (s.byte_access = decide (s.ops ≠ Variant.legacy) ∧
      new_events s (rspi_write_data s data) =
        [Event.wr (data_width s.ops) RSPI_SPDR (data % 2 ^ data_width s.ops)] ∧
      new_events s (rspi_read_data s).2 =
        [Event.rd (data_width s.ops) RSPI_SPDR (s.regs RSPI_SPDR % 2 ^ data_width s.ops)] ∧
      RSPI_SPDR = 0x04) ∧
    (∀ (x : rspi_data) (n : Int) (r : Int × rspi_data), set_config_register x n = some r →
      r.2.ops = x.ops ∧ r.2.byte_access = decide (x.ops ≠ Variant.legacy)) ∧
    (∀ (x : rspi_data) (msg : spi_message) (spi : spi_device) (xfer : spi_transfer) (env : Env)
        (e : IrqEvent),
      width_key (rspi_prepare_message x msg).2 = width_key x ∧
      width_key (transfer_one x spi xfer env).rspi = width_key x ∧
      width_key (deliver_irq x e) = width_key x ∧
      width_key (rspi_unprepare_message x msg).2 = width_key x) ∧
    (∀ (x : rspi_data) (n : Int), 2 * x.max_speed_hz % 4294967296 ≠ 0 →
      (∃ r, rspi_set_config_register x n = some r ∧ r.1 = 0 ∧ r.2.ops = x.ops ∧
        r.2.byte_access = false ∧
        new_events r.2 (rspi_write_data r.2 data) = [Event.wr 16 RSPI_SPDR (data % 65536)] ∧
        new_events r.2 (rspi_read_data r.2).2 =
          [Event.rd 16 RSPI_SPDR (r.2.regs RSPI_SPDR % 65536)]) ∧
      (∃ r, rspi_rz_set_config_register x n = some r ∧ r.1 = 0 ∧ r.2.ops = x.ops ∧
        r.2.byte_access = true ∧
        new_events r.2 (rspi_write_data r.2 data) = [Event.wr 8 RSPI_SPDR (data % 256)] ∧
        new_events r.2 (rspi_read_data r.2).2 =
          [Event.rd 8 RSPI_SPDR (r.2.regs RSPI_SPDR % 256)]) ∧
      (∃ r, qspi_set_config_register x n = some r ∧ r.1 = 0 ∧ r.2.ops = x.ops ∧
        r.2.byte_access = true ∧
        new_events r.2 (rspi_write_data r.2 data) = [Event.wr 8 RSPI_SPDR (data % 256)] ∧
        new_events r.2 (rspi_read_data r.2).2 =
          [Event.rd 8 RSPI_SPDR (r.2.regs RSPI_SPDR % 256)]) ∧
      (∃ r, set_config_register x n = some r ∧ r.1 = 0 ∧ Reachable r.2 ∧
        r.2.byte_access = decide (x.ops ≠ Variant.legacy))) ∧
    (∀ (x : rspi_data) (spi : spi_device), 2 * spi.max_speed_hz % 4294967296 ≠ 0 →
      ∃ r, rspi_setup x spi = some r ∧ r.1 = 0 ∧ Reachable r.2 ∧
        r.2.byte_access = decide (x.ops ≠ Variant.legacy)) := by
  have hk := wk_reachable s h
  have hb : s.byte_access = decide (s.ops ≠ Variant.legacy) := congrArg Prod.snd hk
  refine ⟨⟨hb, ?_, ?_, rfl⟩, ?_, ?_, ?_, ?_⟩
  · rw [write_data_events, hb]
    cases s.ops <;> rfl
  · rw [read_data_events, hb]
    cases s.ops <;> rfl
  · intro x n r hx
    have := wk_set_config_register x n r hx
    exact ⟨congrArg Prod.fst this, congrArg Prod.snd this⟩
  · intro x msg spi xfer env e
    exact ⟨wk_prepare_message x msg, wk_transfer_one x spi xfer env, wk_deliver_irq x e,
      wk_unprepare_message x msg⟩
  · intro x n hs
    refine ⟨?_, ?_, ?_, ?_⟩
    · obtain ⟨r, hr, h0, ho, hw⟩ := legacy_config_returns x n hs
      exact ⟨r, hr, h0, ho, hw, (word_access_events r.2 data hw).1,
        (word_access_events r.2 data hw).2⟩
    · obtain ⟨r, hr, h0, ho, hw⟩ := rz_config_returns x n hs
      exact ⟨r, hr, h0, ho, hw, (byte_access_events r.2 data hw).1,
        (byte_access_events r.2 data hw).2⟩
    · obtain ⟨r, hr, h0, ho, hw⟩ := qspi_config_returns x n hs
      exact ⟨r, hr, h0, ho, hw, (byte_access_events r.2 data hw).1,
        (byte_access_events r.2 data hw).2⟩
    · obtain ⟨r, hr, h0⟩ := config_returns x n hs
      exact ⟨r, hr, h0, Reachable.configure x n r hr,
        congrArg Prod.snd (wk_set_config_register x n r hr)⟩
  · intro x spi hs
    obtain ⟨r, hr, h0⟩ := setup_returns x spi hs
    exact ⟨r, hr, h0, Reachable.setup x spi r hr, congrArg Prod.snd (wk_setup x spi r hr)⟩

/-- C10 at concrete inputs: after `rspi_setup` on a freshly probed Legacy
controller, writing the unit 0x1a5 is one 16-bit write of 0x1a5 at offset 0x04;
on an RZ and on a QSPI controller it is one 8-bit write of 0xa5 at offset
0x04; and `rspi_rz_set_config_register` with access size 8 at 1 MHz returns 0
with byte access selected. -/
theorem access_width_invariant_witness :
    (Reachable (configured Variant.legacy) ∧
      (configured Variant.legacy).byte_access = false ∧
      new_events (configured Variant.legacy)
        (rspi_write_data (configured Variant.legacy) 0x1a5) = [Event.wr 16 0x04 0x1a5]) ∧
    (Reachable (configured Variant.rz) ∧
      (configured Variant.rz).byte_access = true ∧
      new_events (configured Variant.rz)
        (rspi_write_data (configured Variant.rz) 0x1a5) = [Event.wr 8 0x04 0xa5]) ∧
    (Reachable (configured Variant.qspi) ∧
      (configured Variant.qspi).byte_access = true ∧
      new_events (configured Variant.qspi)
        (rspi_write_data (configured Variant.qspi) 0x1a5) = [Event.wr 8 0x04 0xa5]) ∧
    (∃ r, rspi_rz_set_config_register { probed Variant.rz with max_speed_hz := 1000000 } 8 =
        some r ∧ r.1 = 0 ∧ r.2.byte_access = true ∧
      new_events r.2 (rspi_write_data r.2 0x1a5) = [Event.wr 8 0x04 0xa5]) := by
  refine ⟨?_, ?_, ?_, ?_⟩
  · obtain ⟨r, hr⟩ : ∃ r, rspi_setup (probed Variant.legacy) plain_device = some r :=
      Option.isSome_iff_exists.1 (by rfl)
    have hc : configured Variant.legacy = r.2 := by simp only [configured, hr]
    have ho : r.2.ops = Variant.legacy := congrArg Prod.fst (wk_setup _ _ r hr)
    have hR := Reachable.setup _ _ r hr
    have key := (access_width_invariant r.2 hR 0x1a5).1
    rw [ho] at key
    rw [hc]
    exact ⟨hR, key.1, key.2.1⟩
  · obtain ⟨r, hr⟩ : ∃ r, rspi_setup (probed Variant.rz) plain_device = some r :=
      Option.isSome_iff_exists.1 (by rfl)
    have hc : configured Variant.rz = r.2 := by simp only [configured, hr]
    have ho : r.2.ops = Variant.rz := congrArg Prod.fst (wk_setup _ _ r hr)
    have hR := Reachable.setup _ _ r hr
    have key := (access_width_invariant r.2 hR 0x1a5).1
    rw [ho] at key
    rw [hc]
    exact ⟨hR, key.1, key.2.1⟩
  · obtain ⟨r, hr⟩ : ∃ r, rspi_setup (probed Variant.qspi) plain_device = some r :=
      Option.isSome_iff_exists.1 (by rfl)
    have hc : configured Variant.qspi = r.2 := by simp only [configured, hr]
    have ho : r.2.ops = Variant.qspi := congrArg Prod.fst (wk_setup _ _ r hr)
    have hR := Reachable.setup _ _ r hr
    have key := (access_width_invariant r.2 hR 0x1a5).1
    rw [ho] at key
    rw [hc]
    exact ⟨hR, key.1, key.2.1⟩
  · obtain ⟨r, hr⟩ : ∃ r, rspi_setup (probed Variant.rz) plain_device = some r :=
      Option.isSome_iff_exists.1 (by rfl)
    obtain ⟨q, hq, h0, _, hb, hw, _⟩ :=
      ((access_width_invariant r.2 (Reachable.setup _ _ r hr) 0x1a5).2.2.2.1
        { probed Variant.rz with max_speed_hz := 1000000 } 8 (by decide)).2.1
    exact ⟨q, hq, h0, hb, hw⟩

set_option maxRecDepth 100000 in
theorem clear_spe_byte :
    ∀ c < 256, (c &&& (0xff ^^^ SPCR_SPE)) % 256 = c &&& (0xff ^^^ SPCR_SPE) ∧
      (c &&& (0xff ^^^ SPCR_SPE)) &&& SPCR_SPE = 0 ∧
      (c &&& (0xff ^^^ SPCR_SPE)) ||| SPCR_SPE = c ||| SPCR_SPE := by
  decide

set_option maxRecDepth 100000 in
theorem set_spe_byte :
    ∀ c < 256, (c ||| SPCR_SPE) % 256 = c ||| SPCR_SPE ∧
      (c ||| SPCR_SPE) &&& SPCR_SPE = SPCR_SPE ∧
      (c ||| SPCR_SPE) &&& (0xff ^^^ SPCR_SPE) = c &&& (0xff ^^^ SPCR_SPE) := by
  decide

theorem unprepare_closed (rspi : rspi_data) (msg : spi_message) :
    rspi_unprepare_message rspi msg =
      (0, apply_events
        { rspi with trace := rspi.trace ++ [Event.rd 8 RSPI_SPCR (rspi.regs RSPI_SPCR % 256)] }
        [Event.wr 8 RSPI_SPCR (rspi.regs RSPI_SPCR % 256 &&& (0xff ^^^ SPCR_SPE)),
         Event.wr 16 RSPI_SPCMD0 (rspi.spcmd % 65536),
         Event.wr 8 RSPI_SPSCR 0]) := by
  have h := (clear_spe_byte (rspi.regs RSPI_SPCR % 256) (Nat.mod_lt _ (by decide))).1
  unfold rspi_unprepare_message
  simp only [rspi_read8, rspi_write8_eq, rspi_write16_eq, apply_events_append, emit,
    apply_events_spcmd, List.cons_append, List.nil_append, h]


/-- C17: teardown.  For every controller state and message,
`rspi_unprepare_message` returns 0 after one read of the control register and
three writes: the control register with the function-enable bit cleared and
every other bit as read, command slot 0 with the cached command word (as a
16-bit value; the word itself when it fits the `u16` field), and 0 to the
sequence-length register (offset 0x08).  No other register changes, and the
cached command word, the pin-control cache, the access-width flag and the
variant are unchanged.  In particular this holds in the state any
`rspi_prepare_message` leaves, whatever it programmed. -/
theorem unprepare_resets (rspi : rspi_data) (msg : spi_message) :
    (rspi_unprepare_message rspi msg).1 = 0 ∧
    new_events rspi (rspi_unprepare_message rspi msg).2 =
      [Event.rd 8 RSPI_SPCR (rspi.regs RSPI_SPCR % 256),
       Event.wr 8 RSPI_SPCR (rspi.regs RSPI_SPCR % 256 &&& (0xff ^^^ SPCR_SPE)),
       Event.wr 16 RSPI_SPCMD0 (rspi.spcmd % 65536),
       Event.wr 8 RSPI_SPSCR 0] ∧
    ((rspi_unprepare_message rspi msg).2.regs RSPI_SPSCR = 0 ∧ RSPI_SPSCR = 0x08) ∧
    ((rspi_unprepare_message rspi msg).2.regs RSPI_SPCMD0 = rspi.spcmd % 65536 ∧
      (rspi.spcmd < 65536 → (rspi_unprepare_message rspi msg).2.regs RSPI_SPCMD0 = rspi.spcmd)) ∧
    ((rspi_unprepare_message rspi msg).2.regs RSPI_SPCR =
        rspi.regs RSPI_SPCR % 256 &&& (0xff ^^^ SPCR_SPE) ∧
      (rspi_unprepare_message rspi msg).2.regs RSPI_SPCR &&& SPCR_SPE = 0 ∧
      (rspi_unprepare_message rspi msg).2.regs RSPI_SPCR ||| SPCR_SPE =
        rspi.regs RSPI_SPCR % 256 ||| SPCR_SPE) ∧
    (∀ o, o ≠ RSPI_SPCR → o ≠ RSPI_SPCMD0 → o ≠ RSPI_SPSCR →
      (rspi_unprepare_message rspi msg).2.regs o = rspi.regs o) ∧
    ((rspi_unprepare_message rspi msg).2.spcmd = rspi.spcmd ∧
      (rspi_unprepare_message rspi msg).2.sppcr = rspi.sppcr ∧
      (rspi_unprepare_message rspi msg).2.byte_access = rspi.byte_access ∧
      (rspi_unprepare_message rspi msg).2.ops = rspi.ops) ∧
    (∀ prepared : spi_message,
      (rspi_unprepare_message (rspi_prepare_message rspi prepared).2 msg).1 = 0 ∧
      (rspi_unprepare_message (rspi_prepare_message rspi prepared).2 msg).2.regs RSPI_SPSCR = 0 ∧
      (rspi_unprepare_message (rspi_prepare_message rspi prepared).2 msg).2.regs RSPI_SPCMD0 =
        rspi.spcmd % 65536 ∧
      (rspi_unprepare_message (rspi_prepare_message rspi prepared).2 msg).2.regs RSPI_SPCR
        &&& SPCR_SPE = 0 ∧
      (rspi_unprepare_message (rspi_prepare_message rspi prepared).2 msg).2.spcmd =
        rspi.spcmd) := by
  have hb := clear_spe_byte (rspi.regs RSPI_SPCR % 256) (Nat.mod_lt _ (by decide))
  have key : ∀ s : rspi_data,
      (rspi_unprepare_message s msg).1 = 0 ∧
      (rspi_unprepare_message s msg).2.regs RSPI_SPSCR = 0 ∧
      (rspi_unprepare_message s msg).2.regs RSPI_SPCMD0 = s.spcmd % 65536 ∧
      (rspi_unprepare_message s msg).2.regs RSPI_SPCR =
        s.regs RSPI_SPCR % 256 &&& (0xff ^^^ SPCR_SPE) ∧
      (rspi_unprepare_message s msg).2.spcmd = s.spcmd := by
    intro s
    rw [unprepare_closed]
    exact ⟨rfl, rfl, rfl, rfl, rfl⟩
  obtain ⟨k1, k2, k3, k4, k5⟩ := key rspi
  refine ⟨k1, ?_, ⟨k2, rfl⟩, ⟨k3, fun h => ?_⟩, ⟨k4, ?_, ?_⟩, ?_, ⟨k5, ?_, ?_, ?_⟩, ?_⟩
  · rw [unprepare_closed]
    exact new_events_eq _ _ _ (by simp [apply_events])
  · rw [k3, Nat.mod_eq_of_lt h]
  · rw [k4]; exact hb.2.1
  · rw [k4]; exact hb.2.2
  · intro o h1 h2 h3
    rw [unprepare_closed]
    simp [apply_events, replay, poke, h1, h2, h3]
  · exact congrArg (fun k => k.2.1) (ck_unprepare_message rspi msg)
  · exact congrArg Prod.snd (wk_unprepare_message rspi msg)
  · exact congrArg Prod.fst (wk_unprepare_message rspi msg)
  · intro prepared
    obtain ⟨p1, p2, p3, p4, p5⟩ := key (rspi_prepare_message rspi prepared).2
    have hsp : (rspi_prepare_message rspi prepared).2.spcmd = rspi.spcmd :=
      congrArg Prod.fst (ck_prepare_message rspi prepared)
    refine ⟨p1, p2, ?_, ?_, ?_⟩
    · rw [p3, hsp]
    · rw [p4]
      exact (clear_spe_byte _ (Nat.mod_lt _ (by decide))).2.1
    · rw [p5, hsp]

/-- C17 at a concrete input: after `rspi_prepare_message` has programmed three
command slots for the message with wire-modes single, single, dual, dual, quad,
`rspi_unprepare_message` leaves 0 in the sequence-length register and the
cached command word in slot 0. -/
theorem unprepare_resets_example :
    (rspi_unprepare_message (rspi_prepare_message (configured Variant.qspi) three_run_message).2
      three_run_message).2.regs RSPI_SPSCR = 0 ∧
    (rspi_unprepare_message (rspi_prepare_message (configured Variant.qspi) three_run_message).2
      three_run_message).2.regs RSPI_SPCMD0 = (configured Variant.qspi).spcmd % 65536 :=
  ⟨((unprepare_resets (configured Variant.qspi) three_run_message).2.2.2.2.2.2.2
      three_run_message).2.1,
    ((unprepare_resets (configured Variant.qspi) three_run_message).2.2.2.2.2.2.2
      three_run_message).2.2.1⟩

theorem land_lor_distrib (a b c : Nat) : (a ||| b) &&& c = (a &&& c) ||| (b &&& c) := by
  apply Nat.eq_of_testBit_eq
  intro i
  simp [Nat.testBit_and, Nat.testBit_or, Bool.and_or_distrib_right]

theorem mod_u16_land (x m : Nat) (hm : m < 65536) : (x % 65536) &&& m = x &&& m := by
  apply Nat.eq_of_testBit_eq
  intro i
  have e : (65536 : Nat) = 2 ^ 16 := by norm_num
  rw [Nat.testBit_and, Nat.testBit_and, e, Nat.testBit_mod_two_pow]
  by_cases hi : i < 16
  · simp [hi]
  · have : m.testBit i = false := by
      apply Nat.testBit_lt_two_pow
      calc m < 2 ^ 16 := by omega
        _ ≤ 2 ^ i := Nat.pow_le_pow_right (by decide) (by omega)
    simp [this]

theorem setup_spcmd_ok (mode : Nat) : cmd_word_ok (setup_spcmd mode) := by
  unfold setup_spcmd cmd_word_ok
  split_ifs <;> decide

theorem spb_mode_free (n : Int) : SPCMD_SPB_8_TO_16 n &&& 0x0070 = 0 := by
  unfold SPCMD_SPB_8_TO_16
  rw [Nat.and_assoc]
  have : SPCMD_SPB_MASK &&& 0x0070 = 0 := by decide
  rw [this, Nat.and_zero]

theorem qspi_enc_mode_free (n : Int) : qspi_enc n &&& 0x0070 = 0 := by
  unfold qspi_enc
  split_ifs <;> decide

theorem config_enc_mode_free (ops : Variant) (n : Int) : config_enc ops n &&& 0x0070 = 0 := by
  cases ops
  · exact spb_mode_free n
  · exact spb_mode_free n
  · exact qspi_enc_mode_free n

theorem lor_keeps_sslkp (c m : Nat) (h : c &&& SPCMD_SSLKP = SPCMD_SSLKP) :
    (c ||| m) &&& SPCMD_SSLKP = SPCMD_SSLKP := by
  rw [land_lor_distrib, h]
  apply Nat.eq_of_testBit_eq
  intro i
  simp only [Nat.testBit_or, Nat.testBit_and]
  cases SPCMD_SSLKP.testBit i <;> simp

theorem cmd_word_ok_lor (c e : Nat) (hc : cmd_word_ok c) (h1 : e &&& 0x0070 = 0)
    (h2 : e < 65536) : cmd_word_ok (c ||| e) := by
  obtain ⟨a1, a2, a3⟩ := hc
  refine ⟨lor_keeps_sslkp c e a1, ?_, lor_lt_u16 _ _ a3 h2⟩
  rw [land_lor_distrib, a2, h1]
  rfl

theorem slot_word_sslkp (c m : Nat) (h : c &&& SPCMD_SSLKP = SPCMD_SSLKP) :
    (c ||| m) % 65536 &&& SPCMD_SSLKP = SPCMD_SSLKP := by
  rw [mod_u16_land _ _ (by decide)]
  exact lor_keeps_sslkp c m h

theorem word_sslkp (c : Nat) (h : c &&& SPCMD_SSLKP = SPCMD_SSLKP) :
    c % 65536 &&& SPCMD_SSLKP = SPCMD_SSLKP := by
  rw [mod_u16_land _ _ (by decide)]
  exact h

theorem slot_ok_of_xfer (e : Event) (h : xfer_event e = true) : slot_ok e = true := by
  cases e <;> simp_all [xfer_event, reg_event, dma_visible, slot_ok]
  omega

theorem slot_ok_of_reg (e : Event) (h : reg_event e = true) : slot_ok e = true :=
  slot_ok_of_xfer e (by simp [xfer_event, h])


theorem mode_runs_nil_iff (ts : List spi_transfer) : (mode_runs ts).length = 0 → ts = [] := by
  cases ts with
  | nil => intro _; rfl
  | cons x rest =>
    intro h
    have := merge_run_length_pos (qspi_transfer_mode x) x.len (mode_runs rest)
    simp only [mode_runs] at h
    omega

theorem sequencer_closed (rspi : rspi_data) (msg : spi_message) :
    qspi_setup_sequencer rspi msg =
      ((if (mode_runs msg.transfers).length ≤ 4 then 0 else -EINVAL),
        apply_events rspi (sequencer_events rspi.spcmd msg.transfers)) := by
  unfold sequencer_events
  by_cases h0 : (mode_runs msg.transfers).length = 0
  · have ht := mode_runs_nil_iff _ h0
    rw [if_pos h0, if_pos (by omega), apply_events_nil]
    unfold qspi_setup_sequencer
    rw [ht]
    rfl
  · by_cases h4 : (mode_runs msg.transfers).length ≤ 4
    · rw [if_neg h0, if_pos h4, if_pos h4]
      exact setup_sequencer_ok rspi msg (by omega) h4
    · rw [if_neg h0, if_neg h4, if_neg h4]
      exact setup_sequencer_err rspi msg (by omega)

theorem mem_slot_events (c : Nat) (rs : List (Nat × Nat)) :
    ∀ (j : Nat) (e : Event), e ∈ slot_events c j rs →
      (∃ m l i, (m, l) ∈ rs ∧ e = Event.wr 16 (RSPI_SPCMD i) ((c ||| m) % 65536)) ∨
      (∃ i l, e = Event.wr 32 (QSPI_SPBMUL i) l) := by
  induction rs with
  | nil => intro j e h; simp [slot_events] at h
  | cons r rs ih =>
    intro j e h
    obtain ⟨m, l⟩ := r
    simp only [slot_events, List.mem_cons] at h
    rcases h with h | h | h
    · exact Or.inl ⟨m, l, j, by simp, h⟩
    · exact Or.inr ⟨j, _, h⟩
    · rcases ih (j + 1) e h with ⟨m', l', i, hm, he⟩ | hr
      · exact Or.inl ⟨m', l', i, by simp [hm], he⟩
      · exact Or.inr hr

theorem mem_sequencer_events (c : Nat) (ts : List spi_transfer) (e : Event)
    (h : e ∈ sequencer_events c ts) :
    (∃ m l i, (m, l) ∈ mode_runs ts ∧ e = Event.wr 16 (RSPI_SPCMD i) ((c ||| m) % 65536)) ∨
    (∃ i l, e = Event.wr 32 (QSPI_SPBMUL i) l) ∨ (∃ v, e = Event.wr 8 RSPI_SPSCR v) := by
  unfold sequencer_events at h
  split_ifs at h
  · simp at h
  · rcases List.mem_append.1 h with h | h
    · rcases mem_slot_events c _ 0 e h with a | b
      · exact Or.inl a
      · exact Or.inr (Or.inl b)
    · exact Or.inr (Or.inr ⟨_, by simpa using h⟩)
  · rcases mem_slot_events c _ 0 e h with ⟨m, l, i, hm, he⟩ | b
    · exact Or.inl ⟨m, l, i, List.mem_of_mem_take hm, he⟩
    · exact Or.inr (Or.inl b)

theorem mem_mode_runs (ts : List spi_transfer) :
    ∀ m l, (m, l) ∈ mode_runs ts → ∃ x ∈ ts, qspi_transfer_mode x = m := by
  induction ts with
  | nil => intro m l h; simp [mode_runs] at h
  | cons x rest ih =>
    intro m l h
    simp only [mode_runs] at h
    cases hr : mode_runs rest with
    | nil =>
      rw [hr] at h
      simp only [merge_run, List.mem_singleton, Prod.mk.injEq] at h
      exact ⟨x, by simp, h.1.symm⟩
    | cons r rs =>
      obtain ⟨m', l'⟩ := r
      rw [hr] at h
      by_cases hm : qspi_transfer_mode x = m'
      · simp only [merge_run, hm, if_true, List.mem_cons, Prod.mk.injEq] at h
        rcases h with h | h
        · exact ⟨x, by simp, by rw [hm, h.1]⟩
        · obtain ⟨y, hy, hy2⟩ := ih m l (by rw [hr]; exact List.mem_cons_of_mem _ h)
          exact ⟨y, by simp [hy], hy2⟩
      · simp only [merge_run, hm, if_false, List.mem_cons, Prod.mk.injEq] at h
        rcases h with h | h | h
        · exact ⟨x, by simp, h.1.symm⟩
        · obtain ⟨y, hy, hy2⟩ := ih m l (by rw [hr, h.1, h.2]; simp)
          exact ⟨y, by simp [hy], hy2⟩
        · obtain ⟨y, hy, hy2⟩ := ih m l (by rw [hr]; exact List.mem_cons_of_mem _ h)
          exact ⟨y, by simp [hy], hy2⟩

theorem ext_apply_events {P : Event → Bool} (s s' : rspi_data) (evs : List Event)
    (ht : s'.trace = s.trace) (h : ∀ e ∈ evs, P e = true) : Ext P s (apply_events s' evs) :=
  ⟨evs, by rw [apply_events_trace, ht], h⟩

theorem so_sequencer (s : rspi_data) (msg : spi_message)
    (hc : s.spcmd &&& SPCMD_SSLKP = SPCMD_SSLKP) :
    Ext slot_ok s (qspi_setup_sequencer s msg).2 := by
  rw [sequencer_closed]
  refine ext_apply_events s s _ rfl ?_
  intro e he
  rcases mem_sequencer_events _ _ e he with ⟨m, l, i, -, rfl⟩ | ⟨i, l, rfl⟩ | ⟨v, rfl⟩
  · simp only [slot_ok, decide_eq_true_eq]
    intro _ _
    exact slot_word_sslkp _ _ hc
  · simp [slot_ok]
  · simp [slot_ok]

theorem so_read8 (s : rspi_data) (o : Nat) : Ext slot_ok s (rspi_read8 s o).2 :=
  ext_mono slot_ok_of_reg (re_read8 s o)

theorem so_write8 (s : rspi_data) (d o : Nat) : Ext slot_ok s (rspi_write8 s d o) :=
  ext_mono slot_ok_of_reg (re_write8 s d o)

theorem so_prepare (s : rspi_data) (msg : spi_message)
    (hc : s.spcmd &&& SPCMD_SSLKP = SPCMD_SSLKP) :
    Ext slot_ok s (rspi_prepare_message s msg).2 := by
  unfold rspi_prepare_message
  simp only []
  split_ifs
  · exact so_sequencer s msg hc
  · exact ext_trans (ext_trans (so_sequencer s msg hc) (so_read8 _ _)) (so_write8 _ _ _)
  · exact ext_trans (so_read8 _ _) (so_write8 _ _ _)

theorem so_unprepare (s : rspi_data) (msg : spi_message)
    (hc : s.spcmd &&& SPCMD_SSLKP = SPCMD_SSLKP) :
    Ext slot_ok s (rspi_unprepare_message s msg).2 := by
  rw [unprepare_closed]
  refine ⟨[Event.rd 8 RSPI_SPCR (s.regs RSPI_SPCR % 256),
    Event.wr 8 RSPI_SPCR (s.regs RSPI_SPCR % 256 &&& (0xff ^^^ SPCR_SPE)),
    Event.wr 16 RSPI_SPCMD0 (s.spcmd % 65536), Event.wr 8 RSPI_SPSCR 0],
    by simp [apply_events], ?_⟩
  intro e he
  simp only [List.mem_cons, List.mem_singleton, List.not_mem_nil, or_false] at he
  rcases he with rfl | rfl | rfl | rfl
  · rfl
  · simp [slot_ok]
  · simp only [slot_ok, decide_eq_true_eq]
    intro _ _
    exact word_sslkp _ hc
  · simp [slot_ok]

theorem so_config_events (ops : Variant) (c p : Nat) (n v : Int)
    (hc : c &&& SPCMD_SSLKP = SPCMD_SSLKP) :
    ∀ e ∈ config_events ops c p n v, slot_ok e = true := by
  intro e he
  cases ops
  · simp only [config_events, legacy_config_events, List.mem_cons, List.mem_singleton,
      List.not_mem_nil, or_false] at he
    rcases he with rfl | rfl | rfl | rfl | rfl | rfl | rfl | rfl | rfl <;>
      first
        | (simp [slot_ok]; done)
        | (simp only [slot_ok, decide_eq_true_eq]; intro _ _; exact slot_word_sslkp _ _ hc)
  · simp only [config_events, rz_config_events, List.mem_cons, List.mem_singleton,
      List.not_mem_nil, or_false] at he
    rcases he with rfl | rfl | rfl | rfl | rfl | rfl | rfl | rfl <;>
      first
        | (simp [slot_ok]; done)
        | (simp only [slot_ok, decide_eq_true_eq]; intro _ _; exact slot_word_sslkp _ _ hc)
  · simp only [config_events, qspi_config_events, List.mem_cons, List.mem_singleton,
      List.not_mem_nil, or_false] at he
    rcases he with rfl | rfl | rfl | rfl | rfl | rfl | rfl | rfl | rfl | rfl | rfl <;>
      first
        | (simp [slot_ok]; done)
        | (simp only [slot_ok, decide_eq_true_eq]; intro _ _; exact slot_word_sslkp _ _ hc)

theorem config_result (s : rspi_data) (n : Int) (r : Int × rspi_data)
    (h : set_config_register s n = some r) :
    ∃ v, r = (0, apply_events
      { s with byte_access := config_byte s.ops, spcmd := s.spcmd ||| config_enc s.ops n }
      (config_events s.ops s.spcmd s.sppcr n v)) := by
  rw [config_closed] at h
  cases hv : config_spbr s with
  | none => rw [hv] at h; exact absurd h (by simp)
  | some v =>
    rw [hv] at h
    exact ⟨v, (Option.some.inj h).symm⟩

theorem setup_result (s : rspi_data) (spi : spi_device) (r : Int × rspi_data)
    (h : rspi_setup s spi = some r) :
    ∃ q, set_config_register (setup_state s spi) 8 = some q ∧ r = (0, q.2) := by
  rw [setup_closed] at h
  cases hq : set_config_register (setup_state s spi) 8 with
  | none => rw [hq] at h; exact absurd h (by simp)
  | some q =>
    rw [hq] at h
    exact ⟨q, rfl, (Option.some.inj h).symm⟩

theorem so_config (s : rspi_data) (n : Int) (r : Int × rspi_data)
    (h : set_config_register s n = some r) (hc : cmd_word_ok s.spcmd) :
    cmd_word_ok r.2.spcmd ∧ Ext slot_ok s r.2 := by
  obtain ⟨v, rfl⟩ := config_result s n r h
  exact ⟨cmd_word_ok_lor _ _ hc (config_enc_mode_free _ _) (config_enc_lt _ _),
    ext_apply_events s _ _ rfl (so_config_events _ _ _ _ _ hc.1)⟩

theorem so_setup (s : rspi_data) (spi : spi_device) (r : Int × rspi_data)
    (h : rspi_setup s spi = some r) :
    cmd_word_ok r.2.spcmd ∧ Ext slot_ok s r.2 := by
  obtain ⟨q, hq, rfl⟩ := setup_result s spi r h
  obtain ⟨a, b⟩ := so_config (setup_state s spi) 8 q hq (setup_spcmd_ok spi.mode)
  exact ⟨a, ext_trans (ext_same rfl) b⟩

theorem after_setup_inv (b s : rspi_data) (h : AfterSetup b s) :
    cmd_word_ok s.spcmd ∧ Ext slot_ok b s := by
  induction h with
  | setup spi r h => exact so_setup b spi r h
  | setup_again s spi r _ h ih =>
    obtain ⟨a, c⟩ := so_setup s spi r h
    exact ⟨a, ext_trans ih.2 c⟩
  | configure s n r _ h ih =>
    obtain ⟨a, c⟩ := so_config s n r h ih.1
    exact ⟨a, ext_trans ih.2 c⟩
  | prepare s msg _ ih =>
    have e : (rspi_prepare_message s msg).2.spcmd = s.spcmd :=
      congrArg Prod.fst (ck_prepare_message s msg)
    exact ⟨by rw [e]; exact ih.1, ext_trans ih.2 (so_prepare s msg ih.1.1)⟩
  | transfer s spi xfer env _ ih =>
    have e : (transfer_one s spi xfer env).rspi.spcmd = s.spcmd :=
      congrArg Prod.fst (ck_transfer_one s spi xfer env)
    exact ⟨by rw [e]; exact ih.1,
      ext_trans ih.2 (ext_mono slot_ok_of_xfer (xe_transfer_one s spi xfer env))⟩
  | irq s e _ ih =>
    have e' : (deliver_irq s e).spcmd = s.spcmd := congrArg Prod.fst (ck_deliver_irq s e)
    exact ⟨by rw [e']; exact ih.1,
      ext_trans ih.2 (ext_mono slot_ok_of_reg (re_deliver_irq s e))⟩
  | unprepare s msg _ ih =>
    have e : (rspi_unprepare_message s msg).2.spcmd = s.spcmd :=
      congrArg Prod.fst (ck_unprepare_message s msg)
    exact ⟨by rw [e]; exact ih.1, ext_trans ih.2 (so_unprepare s msg ih.1.1)⟩

theorem spcmd_ne_spdr (i : Nat) : RSPI_SPCMD i ≠ RSPI_SPDR := by
  unfold RSPI_SPCMD RSPI_SPCMD0 RSPI_SPDR
  omega

theorem configured_after_setup (ops : Variant) (h : (rspi_setup (probed ops) plain_device).isSome) :
    AfterSetup (probed ops) (configured ops) := by
  obtain ⟨r, hr⟩ := Option.isSome_iff_exists.1 h
  have hc : configured ops = r.2 := by simp only [configured, hr]
  rw [hc]
  exact AfterSetup.setup plain_device r hr

/-- C11: slave-select-keep invariant.  In every controller state reached from
a call of `rspi_setup` by any sequence of further setups, configures,
`prepare_message` (with or without the sequencer), transfers (PIO or DMA),
interrupt deliveries and `unprepare_message`, the cached command word has the
slave-select-keep bit (0x0080) set, and every value written with a 16-bit
access to a command-slot register `RSPI_SPCMD(i)` since that call began
carries the bit. -/
theorem sslkp_invariant (b s : rspi_data) (h : AfterSetup b s) :
    s.spcmd &&& SPCMD_SSLKP = SPCMD_SSLKP ∧ SPCMD_SSLKP = 0x0080 ∧
    (∀ i v, Event.wr 16 (RSPI_SPCMD i) v ∈ new_events b s →
      v &&& SPCMD_SSLKP = SPCMD_SSLKP) := by
  obtain ⟨hc, he⟩ := after_setup_inv b s h
  refine ⟨hc.1, rfl, ?_⟩
  intro i v hv
  have := (ext_new_events he).2 _ hv
  simp only [slot_ok, decide_eq_true_eq] at this
  exact this trivial (spcmd_ne_spdr i)

/-- C11 at a concrete input: after `rspi_setup` on a freshly probed QSPI
controller and `rspi_prepare_message` for the message with wire-modes single,
single, dual, dual, quad, the cached command word carries the bit, and so does
every value written to a command slot since the setup call began. -/
theorem sslkp_invariant_witness :
    (rspi_prepare_message (configured Variant.qspi) three_run_message).2.spcmd
        &&& SPCMD_SSLKP = SPCMD_SSLKP ∧
    (∀ i v, Event.wr 16 (RSPI_SPCMD i) v ∈ new_events (probed Variant.qspi)
        (rspi_prepare_message (configured Variant.qspi) three_run_message).2 →
      v &&& SPCMD_SSLKP = SPCMD_SSLKP) :=
  have h := sslkp_invariant (probed Variant.qspi)
    (rspi_prepare_message (configured Variant.qspi) three_run_message).2
    (AfterSetup.prepare _ _ (configured_after_setup Variant.qspi (by rfl)))
  ⟨h.1, h.2.2⟩

theorem mode_in_mask (x : spi_transfer) : qspi_transfer_mode x &&& 0x0070 = qspi_transfer_mode x := by
  rcases qspi_transfer_mode_cases x with h | h | h | h | h <;> rw [h] <;> decide

theorem mode_lt (x : spi_transfer) : qspi_transfer_mode x < 65536 := by
  rcases qspi_transfer_mode_cases x with h | h | h | h | h <;> rw [h] <;> decide

theorem slot_word_decodes (c : Nat) (x : spi_transfer) (hc : cmd_word_ok c) :
    (c ||| qspi_transfer_mode x) &&& 0x0070 = qspi_transfer_mode x ∧
    (c ||| qspi_transfer_mode x) % 65536 = c ||| qspi_transfer_mode x := by
  refine ⟨?_, Nat.mod_eq_of_lt (lor_lt_u16 _ _ hc.2.2 (mode_lt x))⟩
  rw [land_lor_distrib, hc.2.1, mode_in_mask, Nat.zero_or]

/-- C18: `qspi_transfer_mode` returns one of exactly five mode classes (single
0x0000, dual-write 0x0020, quad-write 0x0040, dual-read 0x0030, quad-read
0x0050, each of them attained), decided by the transmit wire-width whenever a
transmit buffer is present and by the receive wire-width only when it is
absent.  For every cached command word reached from `rspi_setup` (on the QSPI
variant as on the others) the wire-mode bits of the cache are clear, so the
word the sequencer writes to a slot decodes back to the class of a transfer of
the message: `(cache OR mode) AND 0x0070 = mode`, and the word fits the 16-bit
slot unchanged. -/
theorem transfer_mode_decodes (b s : rspi_data) (h : AfterSetup b s) (xfer : spi_transfer) :
    (qspi_transfer_mode xfer = 0x0000 ∨ qspi_transfer_mode xfer = 0x0020 ∨
      qspi_transfer_mode xfer = 0x0040 ∨ qspi_transfer_mode xfer = 0x0030 ∨
      qspi_transfer_mode xfer = 0x0050) ∧
    (∀ m ∈ [0x0000, 0x0020, 0x0040, 0x0030, 0x0050], ∃ x, qspi_transfer_mode x = m) ∧
    (xfer.tx_buf.isSome →
      qspi_transfer_mode xfer =
        if xfer.tx_nbits = SPI_NBITS_QUAD then 0x0040
        else if xfer.tx_nbits = SPI_NBITS_DUAL then 0x0020 else 0x0000) ∧
    (xfer.tx_buf = none →
      qspi_transfer_mode xfer =
        if xfer.rx_buf.isSome then
          (if xfer.rx_nbits = SPI_NBITS_QUAD then 0x0050
           else if xfer.rx_nbits = SPI_NBITS_DUAL then 0x0030 else 0x0000)
        else 0x0000) ∧
    s.spcmd &&& 0x0070 = 0 ∧
    (s.spcmd ||| qspi_transfer_mode xfer) &&& 0x0070 = qspi_transfer_mode xfer ∧
    (∀ (msg : spi_message) (i v : Nat),
      Event.wr 16 (RSPI_SPCMD i) v ∈ new_events s (qspi_setup_sequencer s msg).2 →
      ∃ x ∈ msg.transfers, v = s.spcmd ||| qspi_transfer_mode x ∧
        v &&& 0x0070 = qspi_transfer_mode x) := by
  obtain ⟨hc, -⟩ := after_setup_inv b s h
  refine ⟨qspi_transfer_mode_cases xfer, ?_, ?_, ?_, hc.2.1, (slot_word_decodes _ xfer hc).1, ?_⟩
  · intro m hm
    simp only [List.mem_cons, List.mem_singleton, List.not_mem_nil, or_false] at hm
    rcases hm with rfl | rfl | rfl | rfl | rfl
    · exact ⟨⟨none, none, 0, 0, 0⟩, rfl⟩
    · exact ⟨⟨some [], none, 0, SPI_NBITS_DUAL, 0⟩, rfl⟩
    · exact ⟨⟨some [], none, 0, SPI_NBITS_QUAD, 0⟩, rfl⟩
    · exact ⟨⟨none, some [], 0, 0, SPI_NBITS_DUAL⟩, rfl⟩
    · exact ⟨⟨none, some [], 0, 0, SPI_NBITS_QUAD⟩, rfl⟩
  · intro ht
    unfold qspi_transfer_mode
    rw [if_pos ht]
    rfl
  · intro ht
    unfold qspi_transfer_mode
    rw [ht]
    rfl
  · intro msg i v hv
    rw [sequencer_closed] at hv
    have e : new_events s (apply_events s (sequencer_events s.spcmd msg.transfers)) =
        sequencer_events s.spcmd msg.transfers := new_events_apply s s _ rfl
    simp only [] at hv
    rw [e] at hv
    rcases mem_sequencer_events _ _ _ hv with ⟨m, l, i', hm, he⟩ | ⟨i', l, he⟩ | ⟨w, he⟩
    · obtain ⟨x, hx, hxm⟩ := mem_mode_runs _ m l hm
      injection he with _ _ hv'
      refine ⟨x, hx, ?_, ?_⟩
      · rw [hv', ← hxm, (slot_word_decodes _ x hc).2]
      · rw [hv', ← hxm, (slot_word_decodes _ x hc).2, (slot_word_decodes _ x hc).1]
    · injection he with hw
      exact absurd hw (by decide)
    · injection he with hw
      exact absurd hw (by decide)

/-- C18 at a concrete input: after `rspi_setup` on a freshly probed QSPI
controller the slot word of a quad-write transfer decodes back to 0x0040. -/
theorem transfer_mode_decodes_witness :
    ((configured Variant.qspi).spcmd ||| qspi_transfer_mode (tx_transfer SPI_NBITS_QUAD 5))
      &&& 0x0070 = 0x0040 :=
  (transfer_mode_decodes (probed Variant.qspi) (configured Variant.qspi)
    (configured_after_setup Variant.qspi (by rfl)) (tx_transfer SPI_NBITS_QUAD 5)).2.2.2.2.2.1.trans
    (by decide)

theorem reg_event_not_dma (e : Event) (h : reg_event e = true) : dma_visible e = false := by
  cases e <;> simp_all [reg_event, dma_visible]

theorem dma_view_of_reg {x y : rspi_data} (h : Ext reg_event x y) :
    dma_view (new_events x y) = [] := by
  have hp := (ext_new_events h).2
  unfold dma_view
  rw [List.filter_eq_nil_iff]
  intro e he
  rw [reg_event_not_dma e (hp e he)]
  simp

theorem send_dma_view_head (rspi : rspi_data) (env : DmaEnv) :
    ∃ rest, send_dma_view rspi env = Event.dma_map Dir.to_device env.map_tx :: rest := by
  unfold send_dma_view
  split_ifs with h1 h2
  · exact ⟨[], by rw [h1]⟩
  · exact ⟨_, rfl⟩
  · exact ⟨_, rfl⟩

theorem send_receive_dma_view_head (rspi : rspi_data) (env : DmaEnv) :
    ∃ rest, send_receive_dma_view rspi env =
      Event.dma_map Dir.to_device env.map_tx :: rest := by
  unfold send_receive_dma_view
  by_cases h1 : env.map_tx = 0
  · exact ⟨[], by rw [if_pos h1, h1]⟩
  · rw [if_neg h1]
    split_ifs <;> exact ⟨_, rfl⟩

theorem legacy_dispatch_eq (rspi : rspi_data) (xfer : spi_transfer) (env : Env) :
    rspi_transfer_one rspi xfer env =
      if xfer.rx_buf.isSome = true ∧ rspi.chan_tx = true ∧ rspi.chan_rx = true then
        ⟨(rspi_send_receive_dma rspi xfer env.dma).1, (rspi_send_receive_dma rspi xfer env.dma).2,
          xfer.rx_buf, env.script⟩
      else if xfer.rx_buf.isSome = false ∧ rspi.chan_tx = true then
        ⟨(rspi_send_dma rspi xfer env.dma).1, (rspi_send_dma rspi xfer env.dma).2,
          xfer.rx_buf, env.script⟩
      else rspi_transfer_out_in rspi xfer env.script := by
  unfold rspi_transfer_one rspi_is_dma
  cases hr : xfer.rx_buf.isSome <;> cases ht : rspi.chan_tx <;> cases hx : rspi.chan_rx <;>
    simp

theorem legacy_dma_view (rspi : rspi_data) (xfer : spi_transfer) (env : Env) :
    dma_view (new_events rspi (rspi_transfer_one rspi xfer env).rspi) =
      if xfer.rx_buf.isSome = true ∧ rspi.chan_tx = true ∧ rspi.chan_rx = true then
        send_receive_dma_view rspi env.dma
      else if xfer.rx_buf.isSome = false ∧ rspi.chan_tx = true then
        send_dma_view rspi env.dma
      else [] := by
  rw [legacy_dispatch_eq]
  split_ifs
  · exact (send_receive_dma_effect rspi xfer env.dma).2.2.2.2
  · exact (send_dma_effect rspi xfer env.dma).2.2.2.2
  · exact dma_view_of_reg (re_transfer_out_in rspi xfer env.script)

/-- C12 (amended): for the Legacy variant the dispatcher `rspi_transfer_one` is
a function of the transfer's receive-buffer presence and the channel
availability only: it runs `rspi_send_receive_dma` exactly when the transfer
has a receive buffer and both channels are available, `rspi_send_dma` exactly
when it has no receive buffer and a transmit channel is available, and the PIO
routine `rspi_transfer_out_in` in every other case; a DMA mapping is attempted
if and only if one of the two DMA conditions holds.  For the RZ variant
`rspi_rz_transfer_one` always runs the PIO routine `rspi_rz_transfer_out_in`,
whatever channels are available, and never touches the DMA engine. -/
theorem dispatch_legacy_rz (rspi : rspi_data) (spi : spi_device) (xfer : spi_transfer)
    (env : Env) :
    (rspi_transfer_one rspi xfer env =
      if xfer.rx_buf.isSome = true ∧ rspi.chan_tx = true ∧ rspi.chan_rx = true then
        ⟨(rspi_send_receive_dma rspi xfer env.dma).1, (rspi_send_receive_dma rspi xfer env.dma).2,
          xfer.rx_buf, env.script⟩
      else if xfer.rx_buf.isSome = false ∧ rspi.chan_tx = true then
        ⟨(rspi_send_dma rspi xfer env.dma).1, (rspi_send_dma rspi xfer env.dma).2,
          xfer.rx_buf, env.script⟩
      else rspi_transfer_out_in rspi xfer env.script) ∧
    ((∃ n, Event.dma_map Dir.to_device n ∈
        new_events rspi (rspi_transfer_one rspi xfer env).rspi) ↔
      ((xfer.rx_buf.isSome = true ∧ rspi.chan_tx = true ∧ rspi.chan_rx = true) ∨
        (xfer.rx_buf.isSome = false ∧ rspi.chan_tx = true))) ∧
    (dma_view (new_events rspi (rspi_transfer_one rspi xfer env).rspi) = [] ↔
      ¬ ((xfer.rx_buf.isSome = true ∧ rspi.chan_tx = true ∧ rspi.chan_rx = true) ∨
        (xfer.rx_buf.isSome = false ∧ rspi.chan_tx = true))) ∧
    (rspi_rz_transfer_one rspi xfer env = rspi_rz_transfer_out_in rspi xfer env.script ∧
      dma_view (new_events rspi (rspi_rz_transfer_one rspi xfer env).rspi) = []) ∧
    (rspi.ops = Variant.legacy → transfer_one rspi spi xfer env = rspi_transfer_one rspi xfer env) ∧
    (rspi.ops = Variant.rz → transfer_one rspi spi xfer env = rspi_rz_transfer_one rspi xfer env) := by
  have hv := legacy_dma_view rspi xfer env
  have hmem : ∀ n, Event.dma_map Dir.to_device n ∈
      new_events rspi (rspi_transfer_one rspi xfer env).rspi ↔
      Event.dma_map Dir.to_device n ∈
        dma_view (new_events rspi (rspi_transfer_one rspi xfer env).rspi) := by
    intro n
    simp [dma_view, dma_visible]
  refine ⟨legacy_dispatch_eq rspi xfer env, ?_, ?_, ⟨rfl, ?_⟩, ?_, ?_⟩
  · constructor
    · rintro ⟨n, hn⟩
      rw [hmem, hv] at hn
      by_contra hc
      rw [if_neg (not_or.1 hc).1, if_neg (not_or.1 hc).2] at hn
      simp at hn
    · intro hc
      rcases hc with hc | hc
      · obtain ⟨rest, hr⟩ := send_receive_dma_view_head rspi env.dma
        refine ⟨env.dma.map_tx, (hmem _).2 ?_⟩
        rw [hv, if_pos hc, hr]
        simp
      · obtain ⟨rest, hr⟩ := send_dma_view_head rspi env.dma
        refine ⟨env.dma.map_tx, (hmem _).2 ?_⟩
        have hn : ¬ (xfer.rx_buf.isSome = true ∧ rspi.chan_tx = true ∧ rspi.chan_rx = true) := by
          rintro ⟨h, -⟩
          rw [hc.1] at h
          exact absurd h (by decide)
        rw [hv, if_neg hn, if_pos hc, hr]
        simp
  · rw [hv]
    constructor
    · intro h hc
      rcases hc with hc | hc
      · obtain ⟨rest, hr⟩ := send_receive_dma_view_head rspi env.dma
        rw [if_pos hc, hr] at h
        exact absurd h (by simp)
      · obtain ⟨rest, hr⟩ := send_dma_view_head rspi env.dma
        have hn : ¬ (xfer.rx_buf.isSome = true ∧ rspi.chan_tx = true ∧ rspi.chan_rx = true) := by
          rintro ⟨h', -⟩
          rw [hc.1] at h'
          exact absurd h' (by decide)
        rw [if_neg hn, if_pos hc, hr] at h
        exact absurd h (by simp)
    · intro hc
      rw [if_neg (not_or.1 hc).1, if_neg (not_or.1 hc).2]
  · exact dma_view_of_reg (re_rz_transfer_out_in rspi xfer env.script)
  · intro ho
    unfold transfer_one
    rw [ho]
  · intro ho
    unfold transfer_one
    rw [ho]

/-- C12 (counterexample): an RZ controller with a transmit and a receive
channel available and a transfer with a receive buffer: the dispatcher runs the
PIO routine, and no event of the run concerns the DMA engine; the same transfer
on a Legacy controller with the same channels goes to the DMA engine. -/
theorem rz_dispatch_ignores_channels :
    ({ probed Variant.rz with chan_tx := true, chan_rx := true } : rspi_data).ops = Variant.rz ∧
    duplex_transfer.rx_buf.isSome = true ∧
    rspi_is_dma { probed Variant.rz with chan_tx := true, chan_rx := true } duplex_transfer
      = true ∧
    transfer_one { probed Variant.rz with chan_tx := true, chan_rx := true } plain_device
        duplex_transfer ⟨[], dma_env 1 true⟩ =
      rspi_rz_transfer_out_in { probed Variant.rz with chan_tx := true, chan_rx := true }
        duplex_transfer [] ∧
    dma_view (new_events { probed Variant.rz with chan_tx := true, chan_rx := true }
      (transfer_one { probed Variant.rz with chan_tx := true, chan_rx := true } plain_device
        duplex_transfer ⟨[], dma_env 1 true⟩).rspi) = [] ∧
    dma_view (new_events { probed Variant.legacy with chan_tx := true, chan_rx := true }
      (transfer_one { probed Variant.legacy with chan_tx := true, chan_rx := true } plain_device
        duplex_transfer ⟨[], dma_env 1 true⟩).rspi) ≠ [] := by
  refine ⟨rfl, rfl, rfl, rfl, ?_, ?_⟩
  · exact dma_view_of_reg (re_rz_transfer_out_in _ _ _)
  · have e : transfer_one { probed Variant.legacy with chan_tx := true, chan_rx := true }
        plain_device duplex_transfer ⟨[], dma_env 1 true⟩ =
        rspi_transfer_one { probed Variant.legacy with chan_tx := true, chan_rx := true }
          duplex_transfer ⟨[], dma_env 1 true⟩ := rfl
    rw [e, legacy_dma_view, if_pos ⟨rfl, rfl, rfl⟩]
    obtain ⟨rest, hr⟩ := send_receive_dma_view_head
      { probed Variant.legacy with chan_tx := true, chan_rx := true } (dma_env 1 true)
    rw [hr]
    simp

/-- C12 at a concrete input: a Legacy controller with a transmit channel and a
transfer without a receive buffer: the dispatcher returns what `rspi_send_dma`
returns. -/
theorem dispatch_legacy_rz_example :
    (rspi_transfer_one { probed Variant.legacy with chan_tx := true }
        (tx_transfer SPI_NBITS_SINGLE 3) ⟨[], dma_env 1 true⟩).ret =
      (rspi_send_dma { probed Variant.legacy with chan_tx := true }
        (tx_transfer SPI_NBITS_SINGLE 3) (dma_env 1 true)).1 :=
  congrArg PioOut.ret
    ((dispatch_legacy_rz { probed Variant.legacy with chan_tx := true } plain_device
      (tx_transfer SPI_NBITS_SINGLE 3) ⟨[], dma_env 1 true⟩).1.trans
      (by rw [if_neg (by decide), if_pos (by decide)]))

/-- C13: for the QSPI variant `qspi_transfer_one` chooses the path from the
loopback flag of the device and the wire widths of the transfer only: a
transfer on a loopback device, or one in which neither direction asks for more
than one wire, goes to the bidirectional PIO routine `qspi_transfer_out_in`; a
transfer that asks for more than one wire on receive only goes to the
receive-only PIO routine `qspi_transfer_in` (a PIO run without transmit
buffer); one that asks for more than one wire on transmit goes to the
transmit-only PIO routine `qspi_transfer_out` (a PIO run without receive
buffer).  The result does not depend on what the DMA engine would do, and no
event of the run concerns the DMA engine or the interrupt lines. -/
theorem qspi_dispatch (rspi : rspi_data) (spi : spi_device) (xfer : spi_transfer) (env : Env) :
    (spi.mode &&& SPI_LOOP ≠ 0 →
      qspi_transfer_one rspi spi xfer env = qspi_transfer_out_in rspi xfer env.script) ∧
    (xfer.tx_nbits ≤ SPI_NBITS_SINGLE → xfer.rx_nbits ≤ SPI_NBITS_SINGLE →
      qspi_transfer_one rspi spi xfer env = qspi_transfer_out_in rspi xfer env.script) ∧
    (spi.mode &&& SPI_LOOP = 0 → xfer.tx_nbits ≤ SPI_NBITS_SINGLE →
      xfer.rx_nbits > SPI_NBITS_SINGLE →
      qspi_transfer_one rspi spi xfer env = qspi_transfer_in rspi xfer env.script) ∧
    (spi.mode &&& SPI_LOOP = 0 → xfer.tx_nbits > SPI_NBITS_SINGLE →
      qspi_transfer_one rspi spi xfer env = qspi_transfer_out rspi xfer env.script) ∧
    (qspi_transfer_in rspi xfer env.script =
        rspi_pio_transfer rspi none xfer.rx_buf xfer.len env.script ∧
      (qspi_transfer_out rspi xfer env.script).ret =
        (rspi_pio_transfer rspi xfer.tx_buf none xfer.len env.script).ret) ∧
    (∀ dma : DmaEnv,
      qspi_transfer_one rspi spi xfer ⟨env.script, dma⟩ = qspi_transfer_one rspi spi xfer env) ∧
    dma_view (new_events rspi (qspi_transfer_one rspi spi xfer env).rspi) = [] ∧
    (rspi.ops = Variant.qspi →
      transfer_one rspi spi xfer env = qspi_transfer_one rspi spi xfer env) := by
  refine ⟨?_, ?_, ?_, ?_, ⟨rfl, ?_⟩, fun _ => rfl, ?_, ?_⟩
  · intro h
    unfold qspi_transfer_one
    rw [if_pos h]
  · intro h1 h2
    unfold qspi_transfer_one
    split_ifs <;> first | rfl | omega
  · intro h0 h1 h2
    unfold qspi_transfer_one
    rw [if_neg (by simpa using h0), if_neg (by omega), if_pos h2]
  · intro h0 h1
    unfold qspi_transfer_one
    rw [if_neg (by simpa using h0), if_pos h1]
  · unfold qspi_transfer_out
    simp only []
    split_ifs with h
    · rfl
    · have := pio_transfer_ret_cases rspi xfer.tx_buf none xfer.len env.script
      rcases this with h0 | h0
      · rw [h0]
      · rw [h0] at h
        exact absurd (by decide : (-ETIMEDOUT : Int) < 0) h
  · exact dma_view_of_reg (re_qspi_transfer_one rspi spi xfer env)
  · intro ho
    unfold transfer_one
    rw [ho]

/-- C13 at a concrete input: a dual-wire transmit on a QSPI device without
loopback goes to `qspi_transfer_out`. -/
theorem qspi_dispatch_example :
    qspi_transfer_one (configured Variant.qspi) plain_device (tx_transfer SPI_NBITS_DUAL 3)
        ⟨[], dma_env 1 true⟩ =
      qspi_transfer_out (configured Variant.qspi) (tx_transfer SPI_NBITS_DUAL 3) [] :=
  (qspi_dispatch (configured Variant.qspi) plain_device (tx_transfer SPI_NBITS_DUAL 3)
    ⟨[], dma_env 1 true⟩).2.2.2.1 (by decide) (by decide)

theorem enable_events (s : rspi_data) :
    new_events s (rspi_write8 (rspi_read8 s RSPI_SPCR).2
        ((rspi_read8 s RSPI_SPCR).1 ||| SPCR_SPE) RSPI_SPCR) =
      [Event.rd 8 RSPI_SPCR (s.regs RSPI_SPCR % 256),
       Event.wr 8 RSPI_SPCR (s.regs RSPI_SPCR % 256 ||| SPCR_SPE)] := by
  have h := (set_spe_byte (s.regs RSPI_SPCR % 256) (Nat.mod_lt _ (by decide))).1
  exact new_events_eq _ _ _ (by simp [rspi_read8, rspi_write8, emit, h])

theorem enable_regs (s : rspi_data) (o : Nat) :
    (rspi_write8 (rspi_read8 s RSPI_SPCR).2
        ((rspi_read8 s RSPI_SPCR).1 ||| SPCR_SPE) RSPI_SPCR).regs o =
      if o = RSPI_SPCR then s.regs RSPI_SPCR % 256 ||| SPCR_SPE else s.regs o := by
  have h := (set_spe_byte (s.regs RSPI_SPCR % 256) (Nat.mod_lt _ (by decide))).1
  simp [rspi_read8, rspi_write8, emit, poke, h]

theorem prepare_gated_closed (rspi : rspi_data) (msg : spi_message)
    (hg : multi_bit_device msg) :
    rspi_prepare_message rspi msg =
      if (mode_runs msg.transfers).length ≤ 4 then
        (0, rspi_write8 (rspi_read8 (qspi_setup_sequencer rspi msg).2 RSPI_SPCR).2
          ((rspi_read8 (qspi_setup_sequencer rspi msg).2 RSPI_SPCR).1 ||| SPCR_SPE) RSPI_SPCR)
      else qspi_setup_sequencer rspi msg := by
  have hs := sequencer_closed rspi msg
  have hg' : msg.spi.mode &&& (SPI_TX_DUAL ||| SPI_TX_QUAD ||| SPI_RX_DUAL ||| SPI_RX_QUAD) ≠ 0 :=
    hg
  unfold rspi_prepare_message
  rw [if_pos hg']
  simp only []
  by_cases hk : (mode_runs msg.transfers).length ≤ 4
  · rw [if_pos hk]
    rw [if_pos hk] at hs
    have : ¬ (qspi_setup_sequencer rspi msg).1 < 0 := by
      rw [hs]
      show ¬ ((0 : Int) < 0)
      decide
    rw [if_neg this]
  · rw [if_neg hk]
    rw [if_neg hk] at hs
    have : (qspi_setup_sequencer rspi msg).1 < 0 := by
      rw [hs]
      show -EINVAL < 0
      decide
    rw [if_pos this]

theorem sequencer_new_events (rspi : rspi_data) (msg : spi_message) :
    new_events rspi (qspi_setup_sequencer rspi msg).2 =
      sequencer_events rspi.spcmd msg.transfers := by
  rw [sequencer_closed]
  exact new_events_apply rspi rspi _ rfl

theorem ext_sequencer (rspi : rspi_data) (msg : spi_message) :
    Ext (fun _ => true) rspi (qspi_setup_sequencer rspi msg).2 := by
  rw [sequencer_closed]
  exact ext_apply_events rspi rspi _ rfl (fun _ _ => rfl)

theorem first_slot_programmed (c : Nat) (x : spi_transfer) (rest : List spi_transfer) :
    Event.wr 16 (RSPI_SPCMD 0) ((c ||| qspi_transfer_mode x) % 65536) ∈
      sequencer_events c (x :: rest) := by
  obtain ⟨l, rs, e⟩ := merge_run_head (qspi_transfer_mode x) x.len (mode_runs rest)
  have e' : mode_runs (x :: rest) = (qspi_transfer_mode x, l) :: rs := e
  unfold sequencer_events
  rw [e']
  simp only [List.length_cons, Nat.add_one_ne_zero, if_false]
  split_ifs
  · simp [slot_events]
  · simp [slot_events]

/-- C14 (amended): `rspi_prepare_message` runs the QSPI command sequencer if
and only if the mode flags of the addressed device name a dual or quad
direction (`SPI_TX_DUAL`, `SPI_TX_QUAD`, `SPI_RX_DUAL`, `SPI_RX_QUAD`),
whatever the wire-modes of the transfers of the message.  Without such a flag
it returns 0, programs no sequencer register and only enables the function: one
read of the control register and one write of the value read with the enable
bit set, every other bit and every other register unchanged.  With such a flag
it programs the sequencer for the message (command slot 0 gets the cached word
OR the class of the first transfer, also when every transfer is single-wire),
returns the sequencer's error when there are more than four runs, and otherwise
enables the function afterwards and returns 0. -/
theorem prepare_message_gate (rspi : rspi_data) (msg : spi_message) :
    (¬ multi_bit_device msg →
      (rspi_prepare_message rspi msg).1 = 0 ∧
      new_events rspi (rspi_prepare_message rspi msg).2 =
        [Event.rd 8 RSPI_SPCR (rspi.regs RSPI_SPCR % 256),
         Event.wr 8 RSPI_SPCR (rspi.regs RSPI_SPCR % 256 ||| SPCR_SPE)] ∧
      (rspi_prepare_message rspi msg).2.regs RSPI_SPCR = rspi.regs RSPI_SPCR % 256 ||| SPCR_SPE ∧
      (rspi_prepare_message rspi msg).2.regs RSPI_SPCR &&& SPCR_SPE = SPCR_SPE ∧
      (rspi_prepare_message rspi msg).2.regs RSPI_SPCR &&& (0xff ^^^ SPCR_SPE) =
        rspi.regs RSPI_SPCR % 256 &&& (0xff ^^^ SPCR_SPE) ∧
      (∀ o, o ≠ RSPI_SPCR → (rspi_prepare_message rspi msg).2.regs o = rspi.regs o)) ∧
    (multi_bit_device msg →
      (qspi_setup_sequencer rspi msg).1 =
        (if (mode_runs msg.transfers).length ≤ 4 then 0 else -EINVAL) ∧
      (rspi_prepare_message rspi msg).1 = (qspi_setup_sequencer rspi msg).1 ∧
      new_events rspi (qspi_setup_sequencer rspi msg).2 =
        sequencer_events rspi.spcmd msg.transfers ∧
      new_events rspi (rspi_prepare_message rspi msg).2 =
        sequencer_events rspi.spcmd msg.transfers ++
          (if (mode_runs msg.transfers).length ≤ 4 then
            [Event.rd 8 RSPI_SPCR ((qspi_setup_sequencer rspi msg).2.regs RSPI_SPCR % 256),
             Event.wr 8 RSPI_SPCR
               ((qspi_setup_sequencer rspi msg).2.regs RSPI_SPCR % 256 ||| SPCR_SPE)]
           else []) ∧
      (∀ x rest, msg.transfers = x :: rest →
        Event.wr 16 (RSPI_SPCMD 0) ((rspi.spcmd ||| qspi_transfer_mode x) % 65536) ∈
          new_events rspi (rspi_prepare_message rspi msg).2)) := by
  have hb := set_spe_byte (rspi.regs RSPI_SPCR % 256) (Nat.mod_lt _ (by decide))
  constructor
  · intro hg
    rw [prepare_message_ungated rspi msg hg]
    refine ⟨rfl, enable_events rspi, ?_, ?_, ?_, ?_⟩
    · rw [enable_regs, if_pos rfl]
    · rw [enable_regs, if_pos rfl]; exact hb.2.1
    · rw [enable_regs, if_pos rfl]; exact hb.2.2
    · intro o ho
      rw [enable_regs, if_neg ho]
  · intro hg
    have hs := sequencer_closed rspi msg
    have hev := sequencer_new_events rspi msg
    have hret : (qspi_setup_sequencer rspi msg).1 =
        (if (mode_runs msg.transfers).length ≤ 4 then 0 else -EINVAL) := by rw [hs]
    have hnew : new_events rspi (rspi_prepare_message rspi msg).2 =
        sequencer_events rspi.spcmd msg.transfers ++
          (if (mode_runs msg.transfers).length ≤ 4 then
            [Event.rd 8 RSPI_SPCR ((qspi_setup_sequencer rspi msg).2.regs RSPI_SPCR % 256),
             Event.wr 8 RSPI_SPCR
               ((qspi_setup_sequencer rspi msg).2.regs RSPI_SPCR % 256 ||| SPCR_SPE)]
           else []) := by
      rw [prepare_gated_closed rspi msg hg]
      by_cases hk : (mode_runs msg.transfers).length ≤ 4
      · rw [if_pos hk, if_pos hk]
        have := new_events_trans (ext_sequencer rspi msg)
          (ext_trans (so_read8 (qspi_setup_sequencer rspi msg).2 RSPI_SPCR) (so_write8 _
            ((rspi_read8 (qspi_setup_sequencer rspi msg).2 RSPI_SPCR).1 ||| SPCR_SPE) RSPI_SPCR))
        simp only [] 
        rw [this, hev, enable_events]
      · rw [if_neg hk, if_neg hk, hev, List.append_nil]
    refine ⟨hret, ?_, hev, hnew, ?_⟩
    · rw [prepare_gated_closed rspi msg hg]
      by_cases hk : (mode_runs msg.transfers).length ≤ 4
      · rw [if_pos hk, hret, if_pos hk]
      · rw [if_neg hk]
    · intro x rest hx
      rw [hnew, hx]
      exact List.mem_append_left _ (first_slot_programmed _ x rest)

/-- C14 (counterexample): a message whose only transfer is single-wire,
addressed to a device that allows dual-wire transmit: `rspi_prepare_message`
programs command slot 0, length register 0 and the sequence-length register
before it enables the function.  And a message that mixes a single-wire and a
dual-wire transfer, addressed to a device without such a flag: it only enables
the function. -/
theorem sequencer_follows_device_flags :
    (∀ x ∈ single_wire_message.transfers,
      x.tx_nbits = SPI_NBITS_SINGLE ∧ x.rx_nbits = SPI_NBITS_SINGLE) ∧
    new_events (rspi_reset Variant.qspi)
        (rspi_prepare_message (rspi_reset Variant.qspi) single_wire_message).2 =
      [Event.wr 16 RSPI_SPCMD0 0, Event.wr 32 QSPI_SPBMUL0 3, Event.wr 8 RSPI_SPSCR 0,
       Event.rd 8 RSPI_SPCR 0, Event.wr 8 RSPI_SPCR SPCR_SPE] ∧
    (∃ x ∈ mixed_plain_message.transfers, x.tx_nbits = SPI_NBITS_DUAL) ∧
    new_events (rspi_reset Variant.qspi)
        (rspi_prepare_message (rspi_reset Variant.qspi) mixed_plain_message).2 =
      [Event.rd 8 RSPI_SPCR 0, Event.wr 8 RSPI_SPCR SPCR_SPE] := by
  refine ⟨by decide, by decide, by decide, by decide⟩

/-- C14 at a concrete input: the message with wire-modes single, single, dual,
dual, quad on a device that allows dual and quad transmit: the sequencer
programs three slots, then the function is enabled. -/
theorem prepare_message_gate_example :
    (rspi_prepare_message (rspi_reset Variant.qspi) three_run_message).1 =
        (qspi_setup_sequencer (rspi_reset Variant.qspi) three_run_message).1 ∧
    new_events (rspi_reset Variant.qspi)
        (qspi_setup_sequencer (rspi_reset Variant.qspi) three_run_message).2 =
      sequencer_events (rspi_reset Variant.qspi).spcmd three_run_message.transfers :=
  have h := (prepare_message_gate (rspi_reset Variant.qspi) three_run_message).2 (by decide)
  ⟨h.2.1, h.2.2.1⟩

set_option maxRecDepth 100000 in
theorem clear_ovrf_byte :
    ∀ c < 256, (c &&& (0xff ^^^ SPSR_OVRF)) % 256 = c &&& (0xff ^^^ SPSR_OVRF) ∧
      (c &&& (0xff ^^^ SPSR_OVRF)) &&& SPSR_OVRF = 0 := by
  decide

theorem read_data_new (rspi : rspi_data) :
    (rspi_read_data rspi).2.trace = rspi.trace ++ [data_read_event rspi] ∧
      (rspi_read_data rspi).2.regs = rspi.regs ∧
      (rspi_read_data rspi).2.byte_access = rspi.byte_access := by
  unfold rspi_read_data data_read_event
  split_ifs <;> exact ⟨rfl, rfl, rfl⟩

theorem ovrf_clear_new (y : rspi_data) :
    (rspi_write8 (rspi_read8 y RSPI_SPSR).2
        ((rspi_read8 y RSPI_SPSR).1 &&& (0xff ^^^ SPSR_OVRF)) RSPI_SPSR).trace =
      y.trace ++ [Event.rd 8 RSPI_SPSR (y.regs RSPI_SPSR % 256),
        Event.wr 8 RSPI_SPSR (y.regs RSPI_SPSR % 256 &&& (0xff ^^^ SPSR_OVRF))] ∧
    (rspi_write8 (rspi_read8 y RSPI_SPSR).2
        ((rspi_read8 y RSPI_SPSR).1 &&& (0xff ^^^ SPSR_OVRF)) RSPI_SPSR).regs =
      poke y.regs RSPI_SPSR (y.regs RSPI_SPSR % 256 &&& (0xff ^^^ SPSR_OVRF)) ∧
    (rspi_write8 (rspi_read8 y RSPI_SPSR).2
        ((rspi_read8 y RSPI_SPSR).1 &&& (0xff ^^^ SPSR_OVRF)) RSPI_SPSR).byte_access =
      y.byte_access := by
  have hb := (clear_ovrf_byte (y.regs RSPI_SPSR % 256) (Nat.mod_lt _ (by decide))).1
  refine ⟨?_, ?_, rfl⟩
  · simp [rspi_read8, rspi_write8, emit, hb]
  · simp [rspi_read8, rspi_write8, emit, hb]

theorem receive_init_new (rspi : rspi_data) :
    (rspi_receive_init rspi).trace = rspi.trace ++ receive_init_events rspi ∧
      (rspi_receive_init rspi).regs =
        (if rspi.regs RSPI_SPSR % 256 &&& SPSR_OVRF ≠ 0 then
          poke rspi.regs RSPI_SPSR (rspi.regs RSPI_SPSR % 256 &&& (0xff ^^^ SPSR_OVRF))
         else rspi.regs) ∧
      (rspi_receive_init rspi).byte_access = rspi.byte_access := by
  obtain ⟨d1, d2, d3⟩ := read_data_new (rspi_read8 rspi RSPI_SPSR).2
  have dd : data_read_event (rspi_read8 rspi RSPI_SPSR).2 = data_read_event rspi := rfl
  have x1 : (rspi_read8 rspi RSPI_SPSR).2.trace =
      rspi.trace ++ [Event.rd 8 RSPI_SPSR (rspi.regs RSPI_SPSR % 256)] := rfl
  have x2 : (rspi_read8 rspi RSPI_SPSR).2.regs = rspi.regs := rfl
  have x3 : (rspi_read8 rspi RSPI_SPSR).2.byte_access = rspi.byte_access := rfl
  rw [dd] at d1
  unfold rspi_receive_init receive_init_events
  by_cases h1 : rspi.regs RSPI_SPSR % 256 &&& SPSR_SPRF ≠ 0 <;>
    by_cases h2 : rspi.regs RSPI_SPSR % 256 &&& SPSR_OVRF ≠ 0
  · have h1' : (rspi_read8 rspi RSPI_SPSR).1 &&& SPSR_SPRF ≠ 0 := h1
    have h2' : (rspi_read8 rspi RSPI_SPSR).1 &&& SPSR_OVRF ≠ 0 := h2
    simp only [if_pos h1', if_pos h2', if_pos h1, if_pos h2]
    refine ⟨?_, ?_, ?_⟩
    · rw [(ovrf_clear_new _).1, d1, d2, x1, x2]; simp
    · rw [(ovrf_clear_new _).2.1, d2, x2]
    · rw [(ovrf_clear_new _).2.2, d3, x3]
  · have h1' : (rspi_read8 rspi RSPI_SPSR).1 &&& SPSR_SPRF ≠ 0 := h1
    have h2' : ¬ (rspi_read8 rspi RSPI_SPSR).1 &&& SPSR_OVRF ≠ 0 := h2
    simp only [if_pos h1', if_neg h2', if_pos h1, if_neg h2]
    refine ⟨?_, ?_, ?_⟩
    · rw [d1, x1]; simp
    · rw [d2, x2]
    · rw [d3, x3]
  · have h1' : ¬ (rspi_read8 rspi RSPI_SPSR).1 &&& SPSR_SPRF ≠ 0 := h1
    have h2' : (rspi_read8 rspi RSPI_SPSR).1 &&& SPSR_OVRF ≠ 0 := h2
    simp only [if_neg h1', if_pos h2', if_neg h1, if_pos h2]
    refine ⟨?_, ?_, ?_⟩
    · rw [(ovrf_clear_new _).1, x1, x2]; simp
    · rw [(ovrf_clear_new _).2.1, x2]
    · rw [(ovrf_clear_new _).2.2, x3]
  · have h1' : ¬ (rspi_read8 rspi RSPI_SPSR).1 &&& SPSR_SPRF ≠ 0 := h1
    have h2' : ¬ (rspi_read8 rspi RSPI_SPSR).1 &&& SPSR_OVRF ≠ 0 := h2
    simp only [if_neg h1', if_neg h2', if_neg h1, if_neg h2]
    refine ⟨?_, ?_, ?_⟩
    · rw [x1]; simp
    · rw [x2]
    · rw [x3]


theorem write8_regs (s : rspi_data) (d o : Nat) :
    (rspi_write8 s d o).regs = poke s.regs o (d % 256) := rfl

theorem rz_receive_init_new (rspi : rspi_data) :
    (rspi_rz_receive_init rspi).trace =
      rspi.trace ++ (receive_init_events rspi ++
        [Event.wr 8 RSPI_SPBFCR (SPBFCR_TXRST ||| SPBFCR_RXRST), Event.wr 8 RSPI_SPBFCR 0]) := by
  unfold rspi_rz_receive_init
  simp only [rspi_write8_trace, (receive_init_new rspi).1, List.append_assoc]
  rfl

theorem qspi_receive_init_new (rspi : rspi_data) :
    (qspi_receive_init rspi).trace = rspi.trace ++ qspi_receive_init_events rspi ∧
      (qspi_receive_init rspi).regs RSPI_SPSR = rspi.regs RSPI_SPSR := by
  obtain ⟨d1, d2, -⟩ := read_data_new (rspi_read8 rspi RSPI_SPSR).2
  have dd : data_read_event (rspi_read8 rspi RSPI_SPSR).2 = data_read_event rspi := rfl
  have x1 : (rspi_read8 rspi RSPI_SPSR).2.trace =
      rspi.trace ++ [Event.rd 8 RSPI_SPSR (rspi.regs RSPI_SPSR % 256)] := rfl
  have x2 : (rspi_read8 rspi RSPI_SPSR).2.regs = rspi.regs := rfl
  rw [dd] at d1
  unfold qspi_receive_init qspi_receive_init_events
  by_cases h1 : rspi.regs RSPI_SPSR % 256 &&& SPSR_SPRF ≠ 0
  · have h1' : (rspi_read8 rspi RSPI_SPSR).1 &&& SPSR_SPRF ≠ 0 := h1
    simp only [if_pos h1', if_pos h1]
    refine ⟨?_, ?_⟩
    · simp only [rspi_write8_trace, d1, x1, List.append_assoc]
      rfl
    · rw [write8_regs, write8_regs, poke_other _ _ _ _ (by decide),
        poke_other _ _ _ _ (by decide), d2, x2]
  · have h1' : ¬ (rspi_read8 rspi RSPI_SPSR).1 &&& SPSR_SPRF ≠ 0 := h1
    simp only [if_neg h1', if_neg h1]
    refine ⟨?_, ?_⟩
    · simp only [rspi_write8_trace, x1, List.append_assoc]
      rfl
    · rw [write8_regs, write8_regs, poke_other _ _ _ _ (by decide),
        poke_other _ _ _ _ (by decide), x2]

theorem legacy_entry_new (rspi : rspi_data) (xfer : spi_transfer) :
    (legacy_pio_entry rspi xfer).trace = rspi.trace ++ legacy_entry_events rspi xfer := by
  have x1 : (rspi_read8 rspi RSPI_SPCR).2.trace =
      rspi.trace ++ [Event.rd 8 RSPI_SPCR (rspi.regs RSPI_SPCR % 256)] := rfl
  have e : receive_init_events (rspi_read8 rspi RSPI_SPCR).2 = receive_init_events rspi := rfl
  unfold legacy_pio_entry legacy_entry_events
  cases hr : xfer.rx_buf.isSome
  · simp only [Bool.false_eq_true, if_false, rspi_write8_trace, x1, List.append_assoc,
      List.append_nil]
    rfl
  · simp only [if_true, rspi_write8_trace, (receive_init_new _).1, e, x1, List.append_assoc]
    rfl

theorem re_pio_and_last_wait (s : rspi_data) (tx rx : Option (List Nat)) (n : Nat)
    (script : List HwStep) : Ext reg_event s (pio_and_last_wait s tx rx n script).rspi := by
  unfold pio_and_last_wait
  simp only []
  split_ifs
  · exact re_pio_transfer _ _ _ _ _
  · exact ext_trans (re_pio_transfer _ _ _ _ _) (re_wait_tx_empty _ _)

theorem ext_of_trace {x y : rspi_data} (W : List Event) (h : y.trace = x.trace ++ W) :
    Ext (fun _ => true) x y := ⟨W, h, fun _ _ => rfl⟩

theorem wrapper_events (x i : rspi_data) (W : List Event) (h : i.trace = x.trace ++ W)
    (tx rx : Option (List Nat)) (n : Nat) (script : List HwStep) :
    new_events x (pio_and_last_wait i tx rx n script).rspi =
      W ++ new_events i (pio_and_last_wait i tx rx n script).rspi := by
  rw [new_events_trans (ext_of_trace W h) (re_pio_and_last_wait i tx rx n script),
    new_events_eq x i W h]

/-- C16 (amended): what each PIO wrapper does before it moves the first data
unit.  `rspi_receive_init` reads the status register, reads and drops one data
unit when receive-full shows, and clears the overrun flag when it is raised.
The Legacy wrapper `rspi_transfer_out_in` runs it only for a transfer with a
receive buffer (between its read and its write of the control register); for a
transmit-only transfer it clears no receive state.  The RZ wrapper
`rspi_rz_transfer_out_in` always runs it and then writes the two reset bits and
0 to the buffer-control register at 0x20.  The QSPI wrapper
`qspi_transfer_out_in` reads and drops one data unit when receive-full shows and
writes the two reset bits and 0 to the buffer-control register at 0x18, but does
not touch the overrun flag.  `qspi_transfer_out` and `qspi_transfer_in` start
the PIO transfer at once, with no initialisation.  In each wrapper these
accesses come first and the PIO transfer starts from the state they leave. -/
theorem receive_init_paths (rspi : rspi_data) (xfer : spi_transfer) (script : List HwStep) :
    (new_events rspi (rspi_receive_init rspi) = receive_init_events rspi ∧
      (rspi.regs RSPI_SPSR % 256 &&& SPSR_OVRF ≠ 0 →
        (rspi_receive_init rspi).regs RSPI_SPSR &&& SPSR_OVRF = 0)) ∧
    (rspi_transfer_out_in rspi xfer script =
        pio_and_last_wait (legacy_pio_entry rspi xfer) xfer.tx_buf xfer.rx_buf xfer.len script ∧
      new_events rspi (legacy_pio_entry rspi xfer) = legacy_entry_events rspi xfer ∧
      new_events rspi (rspi_transfer_out_in rspi xfer script).rspi =
        legacy_entry_events rspi xfer ++
          new_events (legacy_pio_entry rspi xfer) (rspi_transfer_out_in rspi xfer script).rspi ∧
      (xfer.rx_buf = none →
        legacy_entry_events rspi xfer =
          [Event.rd 8 RSPI_SPCR (rspi.regs RSPI_SPCR % 256),
           Event.wr 8 RSPI_SPCR ((rspi.regs RSPI_SPCR % 256 ||| SPCR_TXMD) % 256)])) ∧
    (rspi_rz_transfer_out_in rspi xfer script =
        pio_and_last_wait (rspi_rz_receive_init rspi) xfer.tx_buf xfer.rx_buf xfer.len script ∧
      new_events rspi (rspi_rz_receive_init rspi) =
        receive_init_events rspi ++
          [Event.wr 8 RSPI_SPBFCR (SPBFCR_TXRST ||| SPBFCR_RXRST), Event.wr 8 RSPI_SPBFCR 0] ∧
      new_events rspi (rspi_rz_transfer_out_in rspi xfer script).rspi =
        (receive_init_events rspi ++
          [Event.wr 8 RSPI_SPBFCR (SPBFCR_TXRST ||| SPBFCR_RXRST), Event.wr 8 RSPI_SPBFCR 0]) ++
          new_events (rspi_rz_receive_init rspi) (rspi_rz_transfer_out_in rspi xfer script).rspi ∧
      RSPI_SPBFCR = 0x20) ∧
    (qspi_transfer_out_in rspi xfer script =
        pio_and_last_wait (qspi_receive_init rspi) xfer.tx_buf xfer.rx_buf xfer.len script ∧
      new_events rspi (qspi_receive_init rspi) = qspi_receive_init_events rspi ∧
      new_events rspi (qspi_transfer_out_in rspi xfer script).rspi =
        qspi_receive_init_events rspi ++
          new_events (qspi_receive_init rspi) (qspi_transfer_out_in rspi xfer script).rspi ∧
      (qspi_receive_init rspi).regs RSPI_SPSR = rspi.regs RSPI_SPSR ∧
      QSPI_SPBFCR = 0x18) ∧
    ((qspi_transfer_out rspi xfer script).rspi =
        (pio_and_last_wait rspi xfer.tx_buf none xfer.len script).rspi ∧
      qspi_transfer_in rspi xfer script =
        rspi_pio_transfer rspi none xfer.rx_buf xfer.len script) := by
  have hl := legacy_entry_new rspi xfer
  have hz := rz_receive_init_new rspi
  have hq := qspi_receive_init_new rspi
  have hi := receive_init_new rspi
  refine ⟨⟨new_events_eq _ _ _ hi.1, ?_⟩, ⟨rfl, new_events_eq _ _ _ hl, ?_, ?_⟩,
    ⟨rfl, new_events_eq _ _ _ hz, ?_, rfl⟩, ⟨rfl, new_events_eq _ _ _ hq.1, ?_, hq.2, rfl⟩,
    ⟨?_, rfl⟩⟩
  · intro ho
    rw [hi.2.1, if_pos ho, poke_same]
    exact (clear_ovrf_byte _ (Nat.mod_lt _ (by decide))).2
  · exact wrapper_events rspi _ _ hl _ _ _ _
  · intro hx
    unfold legacy_entry_events
    rw [hx]
    rfl
  · exact wrapper_events rspi _ _ hz _ _ _ _
  · exact wrapper_events rspi _ _ hq.1 _ _ _ _
  · unfold qspi_transfer_out pio_and_last_wait
    simp only []
    split_ifs <;> rfl

/-- C16 (counterexample): a stale receive-full flag, a raised overrun flag and
the stale unit 0x5a in the data register.  `qspi_transfer_in` starts the PIO
transfer at once: it writes nothing to the buffer-control register, leaves the
overrun flag raised and stores the stale unit as the unit received.
`qspi_transfer_out_in` drops the stale unit and resets the buffers but leaves
the overrun flag raised.  `rspi_transfer_out_in` for a transmit-only transfer
neither reads the data register nor writes the status register. -/
theorem stale_receive_state_survives :
    (stale_qspi.regs RSPI_SPSR &&& SPSR_SPRF ≠ 0 ∧ stale_qspi.regs RSPI_SPSR &&& SPSR_OVRF ≠ 0) ∧
    ((qspi_transfer_in stale_qspi rx_transfer []).ret = 0 ∧
      (qspi_transfer_in stale_qspi rx_transfer []).rx = some [0x5a] ∧
      writes_to QSPI_SPBFCR
        (new_events stale_qspi (qspi_transfer_in stale_qspi rx_transfer []).rspi) = [] ∧
      (qspi_transfer_in stale_qspi rx_transfer []).rspi.regs RSPI_SPSR &&& SPSR_OVRF ≠ 0) ∧
    (new_events stale_qspi (qspi_receive_init stale_qspi) =
        [Event.rd 8 RSPI_SPSR 0xa1, Event.rd 8 RSPI_SPDR 0x5a,
         Event.wr 8 QSPI_SPBFCR 0xc0, Event.wr 8 QSPI_SPBFCR 0] ∧
      (qspi_receive_init stale_qspi).regs RSPI_SPSR &&& SPSR_OVRF ≠ 0) ∧
    ((rspi_transfer_out_in stale_legacy (tx_transfer SPI_NBITS_SINGLE 1) []).ret = 0 ∧
      writes_to RSPI_SPDR (new_events stale_legacy
        (rspi_transfer_out_in stale_legacy (tx_transfer SPI_NBITS_SINGLE 1) []).rspi) = [0] ∧
      reads_from RSPI_SPDR (new_events stale_legacy
        (rspi_transfer_out_in stale_legacy (tx_transfer SPI_NBITS_SINGLE 1) []).rspi) = [] ∧
      writes_to RSPI_SPSR (new_events stale_legacy
        (rspi_transfer_out_in stale_legacy (tx_transfer SPI_NBITS_SINGLE 1) []).rspi) = [] ∧
      (rspi_transfer_out_in stale_legacy (tx_transfer SPI_NBITS_SINGLE 1) []).rspi.regs RSPI_SPSR
        &&& SPSR_OVRF ≠ 0) := by
  refine ⟨⟨by decide, by decide⟩, ⟨by decide, by decide, by decide, by decide⟩,
    ⟨by decide, by decide⟩, ⟨by decide, by decide, by decide, by decide, by decide⟩⟩

/-- C16 at a concrete input: on an RZ controller with the same stale state the
wrapper's initialisation reads the status register, drops the stale unit,
clears the overrun flag and resets the buffers at 0x20. -/
theorem receive_init_paths_example :
    new_events { stale_legacy with ops := Variant.rz, byte_access := true }
        (rspi_rz_receive_init { stale_legacy with ops := Variant.rz, byte_access := true }) =
      receive_init_events { stale_legacy with ops := Variant.rz, byte_access := true } ++
        [Event.wr 8 RSPI_SPBFCR (SPBFCR_TXRST ||| SPBFCR_RXRST), Event.wr 8 RSPI_SPBFCR 0] ∧
    receive_init_events { stale_legacy with ops := Variant.rz, byte_access := true } =
      [Event.rd 8 RSPI_SPSR 0xa1, Event.rd 8 RSPI_SPDR 0x5a, Event.rd 8 RSPI_SPSR 0xa1,
       Event.wr 8 RSPI_SPSR 0xa0] :=
  ⟨(receive_init_paths { stale_legacy with ops := Variant.rz, byte_access := true }
      rx_transfer []).2.2.1.2.1, by decide⟩

end Rspi
